import Mathlib

/-!
# Disaster-response coordination engine

A shallow embedding of the deterministic parts of the coordination engine:

* `services/geminaiService.js`: request aggregation, the fallback urgency scorer and the
  resource suggestion table;
* `services/routingServiceLeaflet.js`: the local-geometry nearest-neighbour route builder;
* `services/routingService.js`: the distance-matrix based route builder, its clustering and
  the ETA lookup;
* `routes/aiRoutes.js`: the cluster spread helper and the `POST /match` handler;
* `routes/disasterRoutes.js`: the urgency scorer of `POST /mark-unsafe`;
* `services/firebaseService.js`: the in-memory database and the assignment operations;
* `routes/volunteerRoutes.js`: the accept and complete handlers of an assignment.

JavaScript values are embedded as follows.  A field that may be absent (`undefined`) is an
`Option`; text fields are arbitrary `String`s, and a property lookup on an object literal
distinguishes the own keys of the literal, the names inherited from `Object.prototype` and
absent keys; counts are `Int`; coordinates are rationals (the value of a JSON number
literal).  A number that may be `NaN` is an `Option`, and a function that may throw returns
an `Option` or an `Except`.  The great-circle formula is written over the reals; where a
result depends on the value the double evaluation of the formula produces, that value is a
parameter (`dist`, `haversine`).  External collaborators (the text-generation endpoint,
`JSON.parse`, the distance-matrix endpoint) are parameters of the functions that consult
them.
-/

namespace GeminaiService

/-- A help request as stored by `POST /mark-unsafe`. -/
structure Request where
  latitude : ℚ
  longitude : ℚ
  type : Option String
  description : Option String
  peopleAffected : Option Int
  injuryLevel : Option String
  deriving DecidableEq, Repr

/-- Truthiness of a possibly absent string: present and not the empty string. -/
def truthyStr : Option String → Bool
  | some s => s != ""
  | none => false

/-- The names of the properties every object literal inherits from `Object.prototype`. -/
def inheritedKeys : List String :=
  ["constructor", "__defineGetter__", "__defineSetter__", "hasOwnProperty",
   "__lookupGetter__", "__lookupSetter__", "isPrototypeOf", "propertyIsEnumerable",
   "toString", "valueOf", "__proto__", "toLocaleString"]

/-- Whether a label that may be absent names an inherited property. -/
def inheritedName : Option String → Bool
  | some k => decide (k ∈ inheritedKeys)
  | none => false

/-- What the property lookup `table[key]` gives on an object literal: the value of an own
entry, an inherited member of `Object.prototype` (a function or an object: truthy, not a
number and not iterable), or `undefined`. -/
inductive Property (β : Type) where
  | own (value : β)
  | inherited
  | undefined
  deriving DecidableEq, Repr

/-- Property lookup `table[key]` on an object literal given as its list of own entries; an
absent key is the property name 'undefined'. -/
def lookupKey {β : Type} (table : List (String × β)) (key : Option String) : Property β :=
  match key with
  | some k =>
    match table.lookup k with
    | some value => .own value
    | none => if k ∈ inheritedKeys then .inherited else .undefined
  | none => .undefined

/-- The statement `score += table[key] || 0`.  A score of `none` is no longer a number:
adding an inherited member to a number concatenates text, further additions keep it text,
and it is never the text of a number. -/
def addWeight (score : Option Nat) (entry : Property Nat) : Option Nat :=
  match score, entry with
  | some s, .own v => some (s + (if v = 0 then 0 else v))
  | some s, .undefined => some (s + 0)
  | some _, .inherited => none
  | none, _ => none

/-- The object literal `injuryMap` of `calculateFallbackUrgency`. -/
def injuryMap : List (String × Nat) :=
  [("critical", 4), ("severe", 3), ("moderate", 2), ("minor", 1)]

/-- The object literal `typeUrgency` of `calculateFallbackUrgency`. -/
def typeUrgency : List (String × Nat) :=
  [("building_collapse", 3), ("fire", 3), ("drowning", 3), ("landslide", 2), ("earthquake", 3)]

/-- The test `request.peopleAffected && request.peopleAffected > 5`. -/
def manyPeople : Option Int → Bool
  | some n => n != 0 && decide (n > 5)
  | none => false

/-- Function `calculateFallbackUrgency(request)`; the result `none` is `NaN`, which
`Math.min` gives for a score that is text. -/
def calculateFallbackUrgency (request : Request) : Option Nat :=
  let score : Option Nat := some 5
  let score := addWeight score (lookupKey injuryMap request.injuryLevel)
  let score := if manyPeople request.peopleAffected then score.map (fun s => s + 2) else score
  let score := addWeight score (lookupKey typeUrgency request.type)
  score.map (fun s => min s 10)

/-- The test `urgency >= bound` on an urgency that may be `NaN`. -/
def atLeast (urgency : Option Nat) (bound : Nat) : Bool :=
  match urgency with
  | some u => decide (u ≥ bound)
  | none => false

/-- Function `calculateFallbackPriority(request)`. -/
def calculateFallbackPriority (request : Request) : String :=
  let urgency := calculateFallbackUrgency request
  if atLeast urgency 8 then "CRITICAL"
  else if atLeast urgency 6 then "HIGH"
  else if atLeast urgency 4 then "MEDIUM"
  else "LOW"

/-- The object literal `typeResources` of `suggestResources`. -/
def typeResources : List (String × List String) :=
  [("building_collapse", ["rescue_team", "medical_team", "heavy_equipment"]),
   ("fire", ["fire_truck", "paramedics", "evacuation_team"]),
   ("drowning", ["rescue_swimmers", "boats", "defibrillator"]),
   ("earthquake", ["rescue_dogs", "medical_team", "water", "shelter"]),
   ("landslide", ["excavators", "rescue_team", "medical_team"]),
   ("flooding", ["boats", "pumps", "sandbags", "water_purification"])]

/-- The expression `[...new Set(xs)]`: the elements of `xs` in order of first occurrence. -/
def uniqueInOrder (xs : List String) : List String :=
  (xs.foldl (fun acc x => if x ∈ acc then acc else acc ++ [x]) [])

/-- Function `suggestResources(request)`; the result `none` is the `TypeError` of
spreading an inherited member, which is not iterable. -/
def suggestResources (request : Request) : Option (List String) :=
  let resources : List String := []
  let resources :=
    if truthyStr request.injuryLevel then resources ++ ["medical_team"] ++ ["ambulance"]
    else resources
  let resources : Option (List String) :=
    if truthyStr request.type then
      match lookupKey typeResources request.type with
      | .own tags => some (resources ++ tags)
      | .inherited => none
      | .undefined => some resources
    else some resources
  resources.map uniqueInOrder

/-! ### The scorer as the specification words it -/

/-- The weight the specification gives an injury level. -/
def specInjuryWeight (injuryLevel : Option String) : Nat :=
  if injuryLevel = some "critical" then 4
  else if injuryLevel = some "severe" then 3
  else if injuryLevel = some "moderate" then 2
  else if injuryLevel = some "minor" then 1
  else 0

/-- The bonus the specification gives for the number of people: 2 exactly above five. -/
def specPeopleBonus (peopleAffected : Option Int) : Nat :=
  match peopleAffected with
  | some n => if n > 5 then 2 else 0
  | none => 0

/-- The weight the specification gives a hazard type. -/
def specTypeWeight (type : Option String) : Nat :=
  if type = some "building_collapse" ∨ type = some "fire" ∨ type = some "drowning"
      ∨ type = some "earthquake" then 3
  else if type = some "landslide" then 2
  else 0

/-- The priority the specification gives an urgency score; a score that is not a number
falls under 'otherwise'. -/
def specPriority (urgency : Option Nat) : String :=
  match urgency with
  | some urgency =>
    if urgency ≥ 8 then "CRITICAL"
    else if urgency = 6 ∨ urgency = 7 then "HIGH"
    else if urgency = 4 ∨ urgency = 5 then "MEDIUM"
    else "LOW"
  | none => "LOW"

/-- The first-occurrence de-duplication of a list of tags, as the specification words it:
each tag is kept where it first appears and left out afterwards. -/
def firstOccurrences : List String → List String
  | [] => []
  | tag :: later => tag :: (firstOccurrences later).filter (fun other => other != tag)

/-- The tags the specification gives a hazard type: those of the six known types, and
nothing for any other type. -/
def specTypeTags (type : Option String) : List String :=
  if type = some "building_collapse" then ["rescue_team", "medical_team", "heavy_equipment"]
  else if type = some "fire" then ["fire_truck", "paramedics", "evacuation_team"]
  else if type = some "drowning" then ["rescue_swimmers", "boats", "defibrillator"]
  else if type = some "earthquake" then ["rescue_dogs", "medical_team", "water", "shelter"]
  else if type = some "landslide" then ["excavators", "rescue_team", "medical_team"]
  else if type = some "flooding" then ["boats", "pumps", "sandbags", "water_purification"]
  else []

/-- The tags the specification lists for a request before de-duplication: the two medical
tags when an injury level is present (a non-empty label), then the tags of the type. -/
def specResourceTags (request : Request) : List String :=
  (match request.injuryLevel with
    | some level => if level = "" then [] else ["medical_team", "ambulance"]
    | none => []) ++ specTypeTags request.type

/-! ### Aggregation -/

/-- A priority cluster as built by the fallback branch of `aggregateDisasterRequests`; an
`urgencyScore` of `none` is `NaN`. -/
structure Cluster where
  requestIds : List Nat
  priority : String
  urgencyScore : Option Nat
  combinedDescription : Option String
  centroidLocation : ℚ × ℚ
  requiredResources : List String
  estimatedVictimsCount : Int
  recommendedAction : String
  deriving DecidableEq, Repr

/-- What the `axios.post` inside `callGemini` does: it rejects (network error, timeout,
error status), resolves without data, or resolves with data whose `JSON.stringify` is
`text`. -/
inductive PostOutcome where
  | threw
  | noData
  | data (text : String)
  deriving DecidableEq, Repr

/-- The collaborators of the aggregation service: the configured key, the HTTP endpoint,
the rendering of the prompt text and `JSON.parse` (`none` when it throws), with `J` the type
of parsed JSON values. -/
structure Env (J : Type) where
  GEMINI_KEY : String
  post : String → PostOutcome
  renderPrompt : List Request → String
  jsonParse : String → Option J

/-- Function `callGemini(prompt)`: `none` is the `null` result. -/
def callGemini {J : Type} (env : Env J) (prompt : String) : Option String :=
  if env.GEMINI_KEY = "" then none
  else
    match env.post prompt with
    | .data text => some text
    | .noData => none
    | .threw => none

/-- The match of the regular expression `/\{[\s\S]*\}/`: from the first opening brace to
the last closing brace after it. -/
def jsonMatch (responseText : String) : Option String :=
  let fromOpen := responseText.toList.dropWhile (fun c => c != Char.ofNat 123)
  match fromOpen with
  | [] => none
  | openBrace :: rest =>
    let upToClose := (rest.reverse.dropWhile (fun c => c != Char.ofNat 125)).reverse
    if upToClose.isEmpty then none else some (String.mk (openBrace :: upToClose))

/-- The outcome of `aggregateDisasterRequests`: it returns an object literal it built
itself or whatever `JSON.parse` produced, or the call rejects with the `TypeError` thrown
inside the `catch` branch. -/
inductive AggregateResult (J : Type) where
  | built (aggregated : List Cluster) (summary : String)
  | parsed (value : J)
  | rejected

/-- A run of `aggregateDisasterRequests`: the returned value and the prompts sent to
`callGemini`, in order. -/
structure Run (J : Type) where
  result : AggregateResult J
  geminiCalls : List String

/-- The callback `(req, idx) => (...)` of the `catch` branch: the cluster of one request,
or `none` when `suggestResources` throws. -/
def fallbackCluster (req : Request) (idx : Nat) : Option Cluster :=
  match suggestResources req with
  | some resources =>
    some
      { requestIds := [idx]
        priority := calculateFallbackPriority req
        urgencyScore := calculateFallbackUrgency req
        combinedDescription := req.description
        centroidLocation := (req.latitude, req.longitude)
        requiredResources := resources
        estimatedVictimsCount :=
          match req.peopleAffected with
          | some n => if n = 0 then 1 else n
          | none => 1
        recommendedAction := "Send rescue team" }
  | none => none

/-- The results of a callback over a list, as `Array.prototype.map` gathers them: `none`
as soon as one call throws. -/
def gather {α : Type} : List (Option α) → Option (List α)
  | [] => some []
  | none :: _ => none
  | some x :: rest =>
    match gather rest with
    | some xs => some (x :: xs)
    | none => none

/-- The `catch` branch of `aggregateDisasterRequests`: one cluster per request; an error
thrown by the callback is not caught again. -/
def fallbackAggregation {J : Type} (requests : List Request) : AggregateResult J :=
  match gather (requests.enum.map fun (entry : Nat × Request) =>
      fallbackCluster entry.2 entry.1) with
  | some clusters => .built clusters "Using fallback prioritization"
  | none => .rejected

/-- Function `aggregateDisasterRequests(requests)`; `none` is a missing argument.  The only
statement of the `try` block that can throw is `JSON.parse`. -/
def aggregateDisasterRequests {J : Type} (env : Env J) (requests : Option (List Request)) :
    Run J :=
  match requests with
  | none => ⟨.built [] "No open requests", []⟩
  | some [] => ⟨.built [] "No open requests", []⟩
  | some (r :: rs) =>
    let prompt := env.renderPrompt (r :: rs)
    let responseText := callGemini env prompt
    let result : AggregateResult J :=
      if truthyStr responseText then
        match responseText.bind jsonMatch with
        | some matched =>
          match env.jsonParse matched with
          | some parsed => .parsed parsed
          | none => fallbackAggregation (r :: rs)
        | none => .built [] (responseText.getD "")
      else .built [] "Gemini unavailable; no response"
    ⟨result, [prompt]⟩

/-- The `aggregated` list of a result the function built itself. -/
def AggregateResult.clusters {J : Type} : AggregateResult J → Option (List Cluster)
  | .built aggregated _ => some aggregated
  | .parsed _ => none
  | .rejected => none

/-- The `summary` of a result the function built itself. -/
def AggregateResult.summaryText {J : Type} : AggregateResult J → Option String
  | .built _ summary => some summary
  | .parsed _ => none
  | .rejected => none

/-- Whether the call rejects. -/
def AggregateResult.rejects {J : Type} : AggregateResult J → Bool
  | .rejected => true
  | _ => false

/-! ### Example inputs -/


/-- An environment without a configured key: `callGemini` returns `null`. -/
def noKeyEnv : Env Unit :=
  { GEMINI_KEY := ""
    post := fun _ => .threw
    renderPrompt := fun _ => "prompt"
    jsonParse := fun _ => none }

/-- A fire request with critical injuries and ten people affected. -/
def fireRequest : Request :=
  { latitude := 0, longitude := 0, type := some "fire", description := none,
    peopleAffected := some 10, injuryLevel := some "critical" }

/-- A request whose injury level is the name of an inherited property. -/
def inheritedLevelRequest : Request :=
  { latitude := 0, longitude := 0, type := none, description := none,
    peopleAffected := none, injuryLevel := some "constructor" }

/-- A request whose type is the name of an inherited property. -/
def inheritedTypeRequest : Request :=
  { latitude := 0, longitude := 0, type := some "constructor", description := none,
    peopleAffected := none, injuryLevel := none }

/-- An environment whose endpoint answers with text that holds braces but is not JSON. -/
def brokenJsonEnv : Env Unit :=
  { GEMINI_KEY := "key"
    post := fun _ => .data "[\x7b\x7d,\x7b\x7d]"
    renderPrompt := fun _ => "prompt"
    jsonParse := fun _ => none }

end GeminaiService

/-! ### Number comparisons -/

/-- The number comparisons the route builders perform on distances of type `D`: the strict
test `<`, the test `<=`, the value `Infinity` and the literal `2` (kilometres).  Nothing is
assumed of them, so that a distance may also stand for `NaN`. -/
structure Compare (D : Type) where
  lt : D → D → Bool
  le : D → D → Bool
  infinity : D
  two : D

/-- The comparisons of a linear order with a top element standing for `Infinity`. -/
def Compare.ofLinearOrder (D : Type) [LinearOrder D] (two : D) : Compare (WithTop D) where
  lt := fun a b => decide (a < b)
  le := fun a b => decide (a ≤ b)
  infinity := ⊤
  two := (two : WithTop D)

namespace RoutingServiceLeaflet

/-- Function `haversineDistance(lat1, lng1, lat2, lng2)` over the reals; `Math.atan2(y, x)`
is the argument of the complex number `x + y i`. -/
noncomputable def haversineDistance (lat1 lng1 lat2 lng2 : ℝ) : ℝ :=
  let R : ℝ := 6371
  let dLat := ((lat2 - lat1) * Real.pi) / 180
  let dLng := ((lng2 - lng1) * Real.pi) / 180
  let a :=
    Real.sin (dLat / 2) * Real.sin (dLat / 2) +
      Real.cos ((lat1 * Real.pi) / 180) *
        Real.cos ((lat2 * Real.pi) / 180) *
        Real.sin (dLng / 2) *
        Real.sin (dLng / 2)
  let c := 2 * Complex.arg ⟨Real.sqrt (1 - a), Real.sqrt a⟩
  R * c

/-- A route point: `lat`, `lng` and the optional `name`. -/
structure Point where
  lat : ℚ
  lng : ℚ
  name : Option String
  deriving DecidableEq, Repr

/-- The haversine distance between two route points, as a distance that may be compared
with `Infinity`. -/
noncomputable def geoDistance (p q : Point) : WithTop ℝ :=
  ((haversineDistance (p.lat : ℝ) (p.lng : ℝ) (q.lat : ℝ) (q.lng : ℝ) : ℝ) : WithTop ℝ)

/-- The body of the `for` loop of `solveNearestNeighbor`: the pair
`(nearestIdx, minDistance)` after looking at entry `i` of `remaining`. -/
def keepNearer {P D : Type} (cmp : Compare D) (distanceTo : P → D) (state : Nat × D)
    (entry : Nat × P) : Nat × D :=
  let distance := distanceTo entry.2
  if cmp.lt distance state.2 then (entry.1, distance) else state

/-- The `for` loop of `solveNearestNeighbor` that finds the nearest unvisited destination:
the final `nearestIdx`, where `distanceTo p` is the distance from `current` to `p`. -/
def findNearest {P D : Type} (cmp : Compare D) (distanceTo : P → D) (remaining : List P) :
    Nat :=
  (remaining.enum.foldl (keepNearer cmp distanceTo) (0, cmp.infinity)).1

/-- The `while (remaining.length > 0)` loop of `solveNearestNeighbor`; `fuel` bounds the
number of iterations and is the initial number of destinations. -/
def visitLoop {P D : Type} (cmp : Compare D) (dist : P → P → D) :
    Nat → P → List P → List P → List P
  | 0, _, _, route => route
  | fuel + 1, current, remaining, route =>
    if remaining.length > 0 then
      let nearestIdx := findNearest cmp (dist current) remaining
      match remaining[nearestIdx]? with
      | some next => visitLoop cmp dist fuel next (remaining.eraseIdx nearestIdx) (route ++ [next])
      | none => route
    else route

/-- Function `solveNearestNeighbor(startPoint, destinations)`. -/
def solveNearestNeighbor {P D : Type} (cmp : Compare D) (dist : P → P → D)
    (startPoint : P) (destinations : List P) : List P :=
  if destinations.length = 0 then []
  else visitLoop cmp dist destinations.length startPoint destinations [startPoint]

/-- The body of the inner `for (let j = i + 1; ...)` loop of `clusterDestinations`: the
state is the cluster under construction and the visited indices in insertion order. -/
def absorbStep {P D : Type} (cmp : Compare D) (dist : P → P → D) (destinations : List P)
    (seed : P) (state : List P × List Nat) (j : Nat) : List P × List Nat :=
  if j ∈ state.2 then state
  else
    match destinations[j]? with
    | some other =>
      if cmp.le (dist seed other) cmp.two then (state.1 ++ [other], state.2 ++ [j])
      else state
    | none => state

/-- The body of the outer `for (let i = 0; ...)` loop of `clusterDestinations`: the state
is the list of clusters and the visited indices. -/
def seedStep {P D : Type} (cmp : Compare D) (dist : P → P → D) (destinations : List P)
    (state : List (List P) × List Nat) (i : Nat) : List (List P) × List Nat :=
  if i ∈ state.2 then state
  else
    match destinations[i]? with
    | some seed =>
      let grown := (List.range' (i + 1) (destinations.length - (i + 1))).foldl
        (absorbStep cmp dist destinations seed) ([seed], state.2 ++ [i])
      (state.1 ++ [grown.1], grown.2)
    | none => state

/-- Function `clusterDestinations(destinations)` with the default `clusterRadius = 2`. -/
def clusterDestinations {P D : Type} (cmp : Compare D) (dist : P → P → D)
    (destinations : List P) : List (List P) :=
  if destinations.length ≤ 25 then [destinations]
  else
    ((List.range destinations.length).foldl (seedStep cmp dist destinations) ([], [])).1

/-- The value `optimizeRescueRoute` returns: the failure record with its message, or the
success record, of which the `route` is kept (the waypoints and the totals are computed
from it). -/
inductive RouteResult (P : Type) where
  | failure (message : String)
  | success (route : List P)

/-- The body of the `for (const cluster of clusters)` loop of `optimizeRescueRoute`: the
route after the cluster is visited from the last point of the route so far. -/
def appendClusterRoute {P D : Type} (cmp : Compare D) (dist : P → P → D) (start : P)
    (route : List P) (cluster : List P) : List P :=
  let clusterRoute := solveNearestNeighbor cmp dist (route.getLastD start) cluster
  route ++ clusterRoute.drop 1

/-- Function `optimizeRescueRoute(startPoint, destinations)`; `none` is a missing
argument. -/
def optimizeRescueRoute {P D : Type} (cmp : Compare D) (dist : P → P → D)
    (startPoint : Option P) (destinations : Option (List P)) : RouteResult P :=
  match startPoint, destinations with
  | none, _ => .failure "Start point and destinations required"
  | some _, none => .failure "Start point and destinations required"
  | some _, some [] => .failure "Start point and destinations required"
  | some start, some (d :: ds) =>
    if (d :: ds).length ≤ 25 then
      .success (solveNearestNeighbor cmp dist start (d :: ds))
    else
      let clusters := clusterDestinations cmp dist (d :: ds)
      .success (clusters.foldl (appendClusterRoute cmp dist start) [start])

/-- Function `estimateTravelTime(distance)`: minutes at 5 km/h. -/
noncomputable def estimateTravelTime (distance : ℝ) : ℝ :=
  let avgSpeed : ℝ := 5
  (distance / avgSpeed) * 60

/-- The expression `parseFloat(x.toFixed(digits))` over the reals: the multiple of
`10^-digits` nearest to `x`, the one larger in magnitude when two are as near. -/
noncomputable def toFixed (digits : ℕ) (x : ℝ) : ℝ :=
  if x < 0 then -((⌊-x * 10 ^ digits + 1 / 2⌋ : ℝ) / 10 ^ digits)
  else (⌊x * 10 ^ digits + 1 / 2⌋ : ℝ) / 10 ^ digits

/-- The record `calculateETA` returns; a field that is `none` is `NaN`. -/
structure ETA where
  distance : Option ℝ
  timeMinutes : Option ℤ
  timeHours : Option ℝ

/-- Function `calculateETA(startLat, startLng, endLat, endLng)`.  The parameter `haversine`
is the value the evaluation of `haversineDistance` produces: a number, or `none` for `NaN`
(which the formula gives in double arithmetic when the computed `a` exceeds 1); `NaN`
passes through the division, `toFixed`, `parseFloat` and `Math.ceil`. -/
noncomputable def calculateETA (haversine : ℝ → ℝ → ℝ → ℝ → Option ℝ)
    (startLat startLng endLat endLng : ℝ) : ETA :=
  let distance := haversine startLat startLng endLat endLng
  let timeMinutes := distance.map estimateTravelTime
  { distance := distance.map (toFixed 2)
    timeMinutes := timeMinutes.map (fun minutes => ⌈minutes⌉)
    timeHours := timeMinutes.map (fun minutes => toFixed 1 (minutes / 60)) }

/-- The evaluation of `haversineDistance` in exact arithmetic. -/
noncomputable def exactHaversine (lat1 lng1 lat2 lng2 : ℝ) : Option ℝ :=
  some (haversineDistance lat1 lng1 lat2 lng2)

/-! ### Invariants, specification predicates and example inputs -/

/-- The invariant of the clustering loops: the points gathered so far (`pre` followed by
the cluster under construction) are the destinations at the visited indices, in order, and
the visited indices are distinct, in range, and include `base`. -/
def Gathered {P : Type} (destinations : List P) (pre : List P) (base : List Nat)
    (state : List P × List Nat) : Prop :=
  pre ++ state.1 = state.2.filterMap (fun i => destinations[i]?) ∧
    state.2.Nodup ∧ (∀ i ∈ state.2, i < destinations.length) ∧ base ⊆ state.2

/-- The distance of two points of a line, for the examples. -/
def gapDistance (a b : ℕ) : WithTop ℕ :=
  ((if a ≤ b then b - a else a - b : ℕ) : WithTop ℕ)

/-- The nearest-first order of a list of stops, each with its position in the input:
seen from the previous stop, every stop is at most as far as each stop visited later, and
of two at the same distance the one earlier in the input comes first. -/
def NearestFirst {P E : Type} [LinearOrder E] (dist : P → P → E) : P → List (ℕ × P) → Prop
  | _, [] => True
  | previous, stop :: later =>
    (∀ other ∈ later,
      dist previous stop.2 ≤ dist previous other.2 ∧
        (dist previous stop.2 = dist previous other.2 → stop.1 < other.1)) ∧
      NearestFirst dist stop.2 later

/-- The scenario of the specification: the origin (0,0). -/
def scenarioOrigin : Point := ⟨0, 0, none⟩

/-- The scenario of the specification: destination A(0,1). -/
def scenarioA : Point := ⟨0, 1, some "A"⟩

/-- The scenario of the specification: destination B(0,2). -/
def scenarioB : Point := ⟨0, 2, some "B"⟩

/-- The scenario of the specification: destination C(0,0.5). -/
def scenarioC : Point := ⟨0, 1 / 2, some "C"⟩

end RoutingServiceLeaflet

namespace RoutingService

/-- The origin of a route: `lat` and `lng`. -/
structure Origin where
  lat : ℚ
  lng : ℚ
  deriving DecidableEq, Repr

/-- A destination as `POST /route-optimize` builds it: `id`, `lat`, `lng`, `type`. -/
structure Destination where
  id : Option String
  lat : ℚ
  lng : ℚ
  type : Option String
  deriving DecidableEq, Repr

/-- One element of a distance-matrix row: `distance.value` in metres when the element has a
`distance`, and `duration.value` in seconds when it has a `duration`. -/
structure Element where
  distance : Option Nat
  duration : Option Nat
  deriving DecidableEq, Repr

/-- One row of a distance-matrix response. -/
structure Row where
  elements : List Element
  deriving DecidableEq, Repr

/-- A distance-matrix response; `rows` may be absent. -/
structure DistanceMatrix where
  rows : Option (List Row)
  deriving DecidableEq, Repr

/-- A distance as `solveNearestNeighbor` compares it: a number of metres or `Infinity`. -/
inductive Dist where
  | finite (metres : Nat)
  | infinity
  deriving DecidableEq, Repr

/-- The test `a < b` on distances. -/
def Dist.lt : Dist → Dist → Bool
  | .finite a, .finite b => decide (a < b)
  | .finite _, .infinity => true
  | .infinity, _ => false

/-- The expression `value || Infinity`. -/
def orInfinity : Option Nat → Dist
  | some v => if v = 0 then .infinity else .finite v
  | none => .infinity

/-- The distance `solveNearestNeighbor` reads for the hop from `currentIdx` to `j`, in a
response whose rows are `row0 :: others`. -/
def hopDistance (row0 : Row) (others : List Row) (currentIdx : Int) (j : Nat) : Dist :=
  if currentIdx = -1 then
    orInfinity ((row0.elements[j]?).bind (fun e => e.distance))
  else
    orInfinity ((((row0 :: others)[(currentIdx + 1).toNat]?).bind (fun r => r.elements[j]?)).bind
      (fun e => e.distance))

/-- The inner `for (let j = 0; j < n; j++)` loop of `solveNearestNeighbor`: the final
`nearestIdx`. -/
def nearestUnvisited (row0 : Row) (others : List Row) (n : Nat) (visited : List Bool)
    (currentIdx : Int) : Int :=
  ((List.range n).foldl
    (fun (state : Int × Dist) (j : Nat) =>
      if visited.getD j false then state
      else
        let distance := hopDistance row0 others currentIdx j
        if distance.lt state.2 then ((j : Int), distance) else state)
    (-1, Dist.infinity)).1

/-- The state of the outer loop of `solveNearestNeighbor`. -/
structure TourState where
  visited : List Bool
  route : List Int
  currentIdx : Int
  deriving DecidableEq, Repr

/-- Function `solveNearestNeighbor(origin, destinations, distanceMatrix)` for `n`
destinations and a response whose rows are `row0 :: others`; the origin is index `-1`. -/
def solveNearestNeighbor (n : Nat) (row0 : Row) (others : List Row) : List Int :=
  let final := (List.range n).foldl
    (fun (st : TourState) (_ : Nat) =>
      let nearestIdx := nearestUnvisited row0 others n st.visited st.currentIdx
      if nearestIdx ≠ -1 then
        { visited := st.visited.set nearestIdx.toNat true
          route := st.route ++ [nearestIdx]
          currentIdx := nearestIdx }
      else st)
    { visited := List.replicate n false, route := [-1], currentIdx := -1 }
  final.route ++ [-1]

/-- Function `calculateDistance(lat1, lng1, lat2, lng2)`, the helper at the end of
`routingService.js`, over the reals. -/
noncomputable def calculateDistance (lat1 lng1 lat2 lng2 : ℝ) : ℝ :=
  let R : ℝ := 6371
  let dLat := (lat2 - lat1) * Real.pi / 180
  let dLng := (lng2 - lng1) * Real.pi / 180
  let a := Real.sin (dLat / 2) * Real.sin (dLat / 2) +
    Real.cos (lat1 * Real.pi / 180) * Real.cos (lat2 * Real.pi / 180) *
    Real.sin (dLng / 2) * Real.sin (dLng / 2)
  let c := 2 * Complex.arg ⟨Real.sqrt (1 - a), Real.sqrt a⟩
  R * c

/-- The distance `clusterDestinations` computes between two destinations, as a distance
that may be compared with `Infinity`. -/
noncomputable def destinationDistance (dest other : Destination) : WithTop ℝ :=
  ((calculateDistance (dest.lat : ℝ) (dest.lng : ℝ) (other.lat : ℝ) (other.lng : ℝ) : ℝ) :
    WithTop ℝ)

/-- The body of the inner `for (const other of destinations)` loop of
`clusterDestinations`; the state is the cluster and the set `used` of destination ids.  A
full cluster leaves the loop, so the remaining iterations change nothing. -/
def absorbNear {D : Type} (cmp : Compare D) (dist : Destination → Destination → D)
    (maxPerCluster : Nat) (dest : Destination)
    (inner : List Destination × List (Option String)) (other : Destination) :
    List Destination × List (Option String) :=
  if other.id ∈ inner.2 then inner
  else if inner.1.length ≥ maxPerCluster then inner
  else if cmp.lt (dist dest other) cmp.two then (inner.1 ++ [other], inner.2 ++ [other.id])
  else inner

/-- The body of the outer `for (const dest of destinations)` loop of
`clusterDestinations`; the state is the list of clusters and the set `used`. -/
def startCluster {D : Type} (cmp : Compare D) (dist : Destination → Destination → D)
    (destinations : List Destination) (maxPerCluster : Nat)
    (state : List (List Destination) × List (Option String)) (dest : Destination) :
    List (List Destination) × List (Option String) :=
  if dest.id ∈ state.2 then state
  else
    let start : List Destination × List (Option String) := ([dest], state.2 ++ [dest.id])
    let grown :=
      if start.1.length < maxPerCluster then
        destinations.foldl (absorbNear cmp dist maxPerCluster dest) start
      else start
    (state.1 ++ [grown.1], grown.2)

/-- Function `clusterDestinations(origin, destinations, maxPerCluster)`. -/
def clusterDestinations {D : Type} (cmp : Compare D) (dist : Destination → Destination → D)
    (destinations : List Destination) (maxPerCluster : Nat) : List (List Destination) :=
  (destinations.foldl (startCluster cmp dist destinations maxPerCluster) ([], [])).1

/-- What a `catch` block receives: the `Error('Invalid distance matrix response')`, a
`TypeError` raised by reading a property of `undefined`, or the error of the lookup. -/
inductive Thrown where
  | invalidResponse
  | typeError
  | lookupFailed (message : String)
  deriving DecidableEq, Repr

/-- A stop of a returned route: the origin object or a destination object. -/
inductive Stop where
  | origin (o : Origin)
  | destination (d : Destination)
  deriving DecidableEq, Repr

/-- The record `optimizeRescueRoute` returns; absent fields are `none` (`false` for
`usedClustering`), and a waypoint is a destination with its `sequence`. -/
structure RouteResult where
  route : List Stop
  totalDistance : Nat
  totalDuration : Nat
  waypoints : Option (List (Destination × Int))
  clusters : Option Nat
  usedClustering : Bool
  error : Option Thrown
  deriving DecidableEq, Repr

/-- The expression `Math.round(total / unit)` for natural numbers. -/
def roundDiv (total unit : Nat) : Nat := (2 * total + unit) / (2 * unit)

/-- The loop of `optimizeRescueRoute` that sums distance and duration over the hops of
`route`, from the pair `(totalDistance, totalDuration)`; an error is a thrown `TypeError`. -/
def sumHops (row0 : Row) (others : List Row) : List Int → Nat × Nat → Except Thrown (Nat × Nat)
  | fromIdx :: toIdx :: rest, (totalDistance, totalDuration) =>
    if fromIdx = -1 then
      match (if toIdx < 0 then none else row0.elements[toIdx.toNat]?) with
      | none => .error .typeError
      | some element =>
        sumHops row0 others (toIdx :: rest)
          (totalDistance + element.distance.getD 0, totalDuration + element.duration.getD 0)
    else if toIdx = -1 then
      sumHops row0 others (toIdx :: rest) (totalDistance, totalDuration)
    else
      match (row0 :: others)[(fromIdx + 1).toNat]? with
      | none => .error .typeError
      | some row =>
        match row.elements[toIdx.toNat]? with
        | none => sumHops row0 others (toIdx :: rest) (totalDistance, totalDuration)
        | some element =>
          match element.distance with
          | none => sumHops row0 others (toIdx :: rest) (totalDistance, totalDuration)
          | some distance =>
            match element.duration with
            | none => .error .typeError
            | some duration =>
              sumHops row0 others (toIdx :: rest)
                (totalDistance + distance, totalDuration + duration)
  | _, totals => .ok totals

/-- The position `route.indexOf(idx)`, `-1` when absent. -/
def indexOf (route : List Int) (idx : Int) : Int :=
  if idx ∈ route then (route.indexOf idx : Int) else -1

/-- The `try` block of `optimizeRescueRoute` for at most 25 destinations, given what
`getDistanceMatrix` did.  Every index of the route is `-1` or below the number of
destinations, so each one maps to a stop. -/
def optimizeDirect (origin : Origin) (destinations : List Destination)
    (lookup : Except String DistanceMatrix) : Except Thrown RouteResult :=
  match lookup with
  | .error message => .error (.lookupFailed message)
  | .ok distanceMatrix =>
    match distanceMatrix.rows with
    | none => .error .invalidResponse
    | some [] => .error .invalidResponse
    | some (row0 :: others) =>
      let route := solveNearestNeighbor destinations.length row0 others
      match sumHops row0 others route (0, 0) with
      | .error e => .error e
      | .ok (totalDistance, totalDuration) =>
        .ok
          { route := route.filterMap (fun idx =>
              if idx = -1 then some (Stop.origin origin)
              else (destinations[idx.toNat]?).map Stop.destination)
            totalDistance := roundDiv totalDistance 1000
            totalDuration := roundDiv totalDuration 60
            waypoints := some (destinations.enum.map
              (fun (entry : Nat × Destination) => (entry.2, indexOf route (entry.1 : Int))))
            clusters := none
            usedClustering := false
            error := none }

/-- The record both `catch` blocks return. -/
def errorResult (origin : Origin) (destinations : List Destination) (e : Thrown) :
    RouteResult :=
  { route := Stop.origin origin :: destinations.map Stop.destination
    totalDistance := 0
    totalDuration := 0
    waypoints := none
    clusters := none
    usedClustering := false
    error := some e }

/-- The `try`/`catch` of `optimizeRescueRoute` around the computation for at most 25
destinations: its result, or the record of the `catch` block. -/
def directOrError (origin : Origin) (destinations : List Destination)
    (lookup : Except String DistanceMatrix) : RouteResult :=
  match optimizeDirect origin destinations lookup with
  | .ok result => result
  | .error e => errorResult origin destinations e

/-- The body of the `for (const cluster of clusters)` loop of `optimizeRouteClustered`:
the triple `(allRoutes, totalDistance, totalDuration)` after a cluster, `none` when the
recursive call has no result. -/
def addClusterRoute (optimize : List Destination → Option RouteResult)
    (acc : Option (List Stop × Nat × Nat)) (cluster : List Destination) :
    Option (List Stop × Nat × Nat) :=
  match acc with
  | none => none
  | some (allRoutes, totalDistance, totalDuration) =>
    match optimize cluster with
    | none => none
    | some clusterRoute =>
      some (allRoutes ++ clusterRoute.route,
        totalDistance + clusterRoute.totalDistance,
        totalDuration + clusterRoute.totalDuration)

/-- Function `optimizeRouteClustered(origin, destinations)`, given the clusters and the
recursive call `optimize cluster` that stands for `optimizeRescueRoute(origin, cluster)`. -/
def optimizeRouteClustered (optimize : List Destination → Option RouteResult)
    (clusters : List (List Destination)) : Option RouteResult :=
  (clusters.foldl (addClusterRoute optimize) (some ([], 0, 0))).map
    (fun (sums : List Stop × Nat × Nat) =>
      { route := sums.1
        totalDistance := sums.2.1
        totalDuration := sums.2.2
        waypoints := none
        clusters := some clusters.length
        usedClustering := true
        error := none })

/-- Function `optimizeRescueRoute(origin, destinations)`.  `fuel` bounds the depth of the
recursion through `optimizeRouteClustered` (`none` when it runs out); `getDistanceMatrix`
is the lookup. -/
def optimizeRescueRoute {D : Type} (cmp : Compare D) (dist : Destination → Destination → D)
    (getDistanceMatrix : Origin → List Destination → Except String DistanceMatrix) :
    Nat → Origin → Option (List Destination) → Option RouteResult
  | 0, _, _ => none
  | fuel + 1, origin, destinations =>
    match destinations with
    | none => some ⟨[], 0, 0, none, none, false, none⟩
    | some [] => some ⟨[], 0, 0, none, none, false, none⟩
    | some (d :: ds) =>
      if (d :: ds).length > 25 then
        optimizeRouteClustered
          (fun cluster => optimizeRescueRoute cmp dist getDistanceMatrix fuel origin
            (some cluster))
          (clusterDestinations cmp dist (d :: ds) 5)
      else
        some (directOrError origin (d :: ds) (getDistanceMatrix origin (d :: ds)))

/-! ### Example inputs -/

/-- An origin at latitude 0, longitude 0. -/
def exampleOrigin : Origin := ⟨0, 0⟩

/-- A lookup that answers as the distance-matrix endpoint does for the single origin it is
sent: one row, holding for each destination 1000 metres and 60 seconds. -/
def oneRowLookup (_ : Origin) (destinations : List Destination) :
    Except String DistanceMatrix :=
  .ok ⟨some [⟨destinations.map (fun _ => ⟨some 1000, some 60⟩)⟩]⟩

/-- Two destinations with distinct ids. -/
def twoDestinations : List Destination :=
  [⟨some "a", 0, 1, none⟩, ⟨some "b", 0, 2, none⟩]

/-- Thirty destinations with distinct ids at one and the same place. -/
def thirtyDestinations : List Destination :=
  ["r00", "r01", "r02", "r03", "r04", "r05", "r06", "r07", "r08", "r09",
   "r10", "r11", "r12", "r13", "r14", "r15", "r16", "r17", "r18", "r19",
   "r20", "r21", "r22", "r23", "r24", "r25", "r26", "r27", "r28", "r29"].map
    (fun name => ⟨some name, 1, 1, none⟩)

/-- Comparisons that answer every test with `true`, on a one-point distance type. -/
def alwaysNear : Compare Unit := ⟨fun _ _ => true, fun _ _ => true, (), ()⟩

/-- What the `axios.get` of `getDirections` does: it rejects with an error message, or
resolves with data whose `routes` may be absent; of a route the distance (metres) and the
duration (seconds) of its first leg are kept. -/
inductive DirectionsReply where
  | threw (message : String)
  | data (routes : Option (List (Nat × Nat)))
  deriving DecidableEq, Repr

/-- The object `getDirections` returns: `distance` and `duration` when a route was found,
the `error` text when none was. -/
structure Directions where
  distance : Option Nat
  duration : Option Nat
  error : Option String
  deriving DecidableEq, Repr

/-- Function `getDirections(origin, destination)`, given what the lookup did; an error is
the rethrown error of the lookup. -/
def getDirections (reply : DirectionsReply) : Except String Directions :=
  match reply with
  | .threw message => .error message
  | .data (some ((distance, duration) :: _)) => .ok ⟨some distance, some duration, none⟩
  | .data (some []) => .ok ⟨none, none, some "No route found"⟩
  | .data none => .ok ⟨none, none, some "No route found"⟩

/-- The record `getETA` returns: the estimate, in which an absent number is `NaN`, or the
error record with its message. -/
inductive ETAResult where
  | estimate (distanceKm durationMinutes : Option Nat) (estimatedArrival : Int)
  | error (message : String)
  deriving DecidableEq, Repr

/-- Function `getETA(origin, destination)` at the clock reading `now` (milliseconds), given
what the lookup did.  Arithmetic on an absent `distance` or `duration` gives `NaN`, and
`new Date(NaN).toISOString()` throws the `RangeError` 'Invalid time value', which the
`catch` block turns into the error record. -/
def getETA (now : Int) (reply : DirectionsReply) : ETAResult :=
  match getDirections reply with
  | .error message => .error message
  | .ok directions =>
    match directions.duration with
    | none => .error "Invalid time value"
    | some duration =>
      .estimate (directions.distance.map (fun d => roundDiv d 1000))
        (some (roundDiv duration 60)) (now + (duration : Int) * 1000)

/-- The local estimate of a route's length the specification asks for after a failed
lookup: the sum of the haversine distances over the consecutive stops. -/
noncomputable def specLocalDistance : List (ℚ × ℚ) → ℝ
  | a :: b :: rest =>
    calculateDistance (a.1 : ℝ) (a.2 : ℝ) (b.1 : ℝ) (b.2 : ℝ) + specLocalDistance (b :: rest)
  | _ => 0

/-- The local estimate of a route's duration in minutes the specification asks for: its
local distance at the constant speed of 5 km/h. -/
noncomputable def specLocalDuration (stops : List (ℚ × ℚ)) : ℝ :=
  specLocalDistance stops / 5 * 60

/-- A lookup that throws on every call. -/
def failingLookup (_ : Origin) (_ : List Destination) : Except String DistanceMatrix :=
  .error "Network Error"

/-- One destination, one degree of longitude east of the example origin. -/
def oneDestination : List Destination := [⟨some "a", 0, 1, none⟩]

/-- A lookup that succeeds with one row in which every destination is at distance 0, as
for destinations at the place of the origin. -/
def zeroDistanceLookup (_ : Origin) (destinations : List Destination) :
    Except String DistanceMatrix :=
  .ok ⟨some [⟨destinations.map (fun _ => ⟨some 0, some 0⟩)⟩]⟩

/-- Six destinations with distinct ids: two at the place (0,0) and four at the place (0,1),
more than a hundred kilometres further east. -/
def sixDestinations : List Destination :=
  [⟨some "a", 0, 0, none⟩, ⟨some "b", 0, 0, none⟩, ⟨some "c", 0, 1, none⟩,
   ⟨some "d", 0, 1, none⟩, ⟨some "e", 0, 1, none⟩, ⟨some "f", 0, 1, none⟩]

/-- Two destinations that carry the same id. -/
def sameIdDestinations : List Destination :=
  [⟨some "a", 0, 1, none⟩, ⟨some "a", 0, 2, none⟩]

/-- The invariant of the loops of `clusterDestinations`: the ids in `used` are those of the
destinations gathered so far (`pre` followed by the cluster under construction), in order
and without repetition; every gathered destination is one of the input; and `used`
includes `base`. -/
def Assigned (destinations pre : List Destination) (base : List (Option String))
    (state : List Destination × List (Option String)) : Prop :=
  state.2 = (pre ++ state.1).map (fun d => d.id) ∧ state.2.Nodup ∧
    (∀ d ∈ pre ++ state.1, d ∈ destinations) ∧ base ⊆ state.2

/-- What the outer loop of `clusterDestinations` makes of a cluster, given the clusters
made before it: it starts with a seed of the input list, the ids of all destinations before
the seed are used by the earlier clusters and the seed's id is not (the seed is the first
destination not yet used); it has at most `maxPerCluster` members (one when
`maxPerCluster` is 0); and every other member passed the test `distance < 2` against the
seed. -/
def SeededCluster {D : Type} (cmp : Compare D) (dist : Destination → Destination → D)
    (destinations : List Destination) (maxPerCluster : Nat)
    (earlier : List (List Destination)) (cluster : List Destination) : Prop :=
  ∃ (seed : Destination) (rest before after : List Destination),
    cluster = seed :: rest ∧ destinations = before ++ seed :: after ∧
    (∀ d ∈ before, d.id ∈ earlier.flatten.map (fun e => e.id)) ∧
    seed.id ∉ earlier.flatten.map (fun e => e.id) ∧
    cluster.length ≤ max maxPerCluster 1 ∧
    ∀ other ∈ rest, cmp.lt (dist seed other) cmp.two = true

end RoutingService

namespace AiRoutes

/-- Function `calculateDistance(lat1, lng1, lat2, lng2)`, the helper of `aiRoutes.js`, over
the reals. -/
noncomputable def calculateDistance (lat1 lng1 lat2 lng2 : ℝ) : ℝ :=
  let R : ℝ := 6371
  let dLat := (lat2 - lat1) * Real.pi / 180
  let dLng := (lng2 - lng1) * Real.pi / 180
  let a := Real.sin (dLat / 2) * Real.sin (dLat / 2) +
    Real.cos (lat1 * Real.pi / 180) * Real.cos (lat2 * Real.pi / 180) *
    Real.sin (dLng / 2) * Real.sin (dLng / 2)
  let c := 2 * Complex.arg ⟨Real.sqrt (1 - a), Real.sqrt a⟩
  R * c

/-- The distance `calculateClusterSpread` computes between two requests, in exact
arithmetic. -/
noncomputable def requestDistance (a b : GeminaiService.Request) : ℝ :=
  calculateDistance (a.latitude : ℝ) (a.longitude : ℝ) (b.latitude : ℝ) (b.longitude : ℝ)

/-- The expression `Math.max(a, b)` on numbers that may be `NaN` (`none`): `NaN` as soon as
one of them is. -/
def mathMax {D : Type} [LinearOrder D] : Option D → Option D → Option D
  | some a, some b => some (max a b)
  | _, _ => none

/-- The inner `for (let j = i + 1; j < requests.length; j++)` loop of
`calculateClusterSpread`, from the current `maxDistance`. -/
def spreadFrom {α D : Type} [LinearOrder D] (dist : α → α → Option D) (requests : List α)
    (i : Fin requests.length) (maxDistance : Option D) : Option D :=
  ((List.finRange requests.length).filter (fun j => decide (i < j))).foldl
    (fun maxDistance j => mathMax maxDistance (dist (requests.get i) (requests.get j)))
    maxDistance

/-- Function `calculateClusterSpread(requests)`.  The parameter `dist` is the value the
evaluation of `calculateDistance` produces on two requests: a number, or `none` for `NaN`
(which the formula gives in double arithmetic when the computed `a` exceeds 1). -/
def calculateClusterSpread {α D : Type} [LinearOrder D] [Zero D] (dist : α → α → Option D)
    (requests : List α) : Option D :=
  if requests.length ≤ 1 then some 0
  else (List.finRange requests.length).foldl
    (fun maxDistance i => spreadFrom dist requests i maxDistance) (some 0)

/-- The evaluation of `calculateDistance` on two requests in exact arithmetic. -/
noncomputable def exactDistance (a b : GeminaiService.Request) : Option ℝ :=
  some (requestDistance a b)

/-- A request at latitude 8 on the prime meridian, and one at its antipode. -/
def antipodalRequests : List GeminaiService.Request :=
  [⟨8, 0, none, none, none, none⟩, ⟨-8, 180, none, none, none, none⟩]

/-- The distances double arithmetic gives on `antipodalRequests`: 0 from a request to
itself, and `NaN` between the two, where the computed `a` is 1.0000000000000002 and
`Math.sqrt(1 - a)` is `NaN`. -/
def antipodalDistance (a b : GeminaiService.Request) : Option ℝ :=
  if a = b then some 0 else none

/-- Three requests on the equator, at longitudes 0, 1 and 3. -/
def equatorRequests : List GeminaiService.Request :=
  [⟨0, 0, none, none, none, none⟩, ⟨0, 1, none, none, none, none⟩,
   ⟨0, 3, none, none, none, none⟩]

end AiRoutes

namespace DisasterRoutes

/-- The object literal `injuryMap` of `calculateUrgencyScore`. -/
def injuryMap : List (String × Nat) :=
  [("critical", 4), ("severe", 3), ("moderate", 2), ("minor", 1)]

/-- The object literal `typeUrgency` of `calculateUrgencyScore`. -/
def typeUrgency : List (String × Nat) :=
  [("building_collapse", 3), ("fire", 3), ("drowning", 3), ("landslide", 2), ("earthquake", 3)]

/-- Function `calculateUrgencyScore(request)` of `disasterRoutes.js`, which sorts the
nearby requests. -/
def calculateUrgencyScore (request : GeminaiService.Request) : Option Nat :=
  let score : Option Nat := some 5
  let score := GeminaiService.addWeight score
    (GeminaiService.lookupKey injuryMap request.injuryLevel)
  let score :=
    if GeminaiService.manyPeople request.peopleAffected then score.map (fun s => s + 2)
    else score
  let score := GeminaiService.addWeight score
    (GeminaiService.lookupKey typeUrgency request.type)
  score.map (fun s => min s 10)

end DisasterRoutes


namespace FirebaseService

/-- A value stored in the database.  A number is kept as its JavaScript rendering (the text
template literals and `toString()` give), an object of a known shape as `location` (the
renderings of `lat` and `lng`, each absent when undefined) or `eta`. -/
inductive Val where
  | text (s : String)
  | number (rendering : String)
  | flag (b : Bool)
  | location (lat lng : Option String)
  | eta (distanceKm durationMinutes : Option Nat) (estimatedArrival : Option Int)
  | null
  deriving DecidableEq, Repr

/-- A stored object: its own entries, with distinct keys. -/
abbrev Record := List (String × Val)

/-- Truthiness of a property that may be absent. -/
def truthy : Option Val → Bool
  | some (.text s) => s != ""
  | some (.number rendering) => rendering != "0" && rendering != "NaN"
  | some (.flag b) => b
  | some (.location _ _) => true
  | some (.eta _ _ _) => true
  | some .null => false
  | none => false

/-- The text a value gives inside a template literal, as a path segment. -/
def asKey : Val → String
  | .text s => s
  | .number rendering => rendering
  | .flag b => if b then "true" else "false"
  | .location _ _ => "[object Object]"
  | .eta _ _ _ => "[object Object]"
  | .null => "null"

/-- Assignment `node[key] = value` on an object given by its entries. -/
def upsert {α : Type} (key : String) (value : α) : List (String × α) → List (String × α)
  | [] => [(key, value)]
  | (k, v) :: rest => if k = key then (key, value) :: rest else (k, v) :: upsert key value rest

/-- The object spread `{ ...older, ...newer }`. -/
def spread (older newer : Record) : Record :=
  newer.foldl (fun acc entry => upsert entry.1 entry.2 acc) older

/-- The mock database, by collection: `users`, `volunteers`, `disasterRequests` and
`assignments`, each an object from ids to records.  Ids are non-empty and hold no `/`. -/
structure Store where
  users : List (String × Record)
  volunteers : List (String × Record)
  disasterRequests : List (String × Record)
  assignments : List (String × Record)
  deriving DecidableEq, Repr

/-- Method `db.ref(collection/id).update(value)` of the mock: the record at `id`, an empty
one when there is none, is replaced by its spread with `value`. -/
def update (collection : List (String × Record)) (id : String) (value : Record) :
    List (String × Record) :=
  upsert id (spread ((collection.lookup id).getD []) value) collection

/-- Method `db.ref(collection/id).set(value)` of the mock. -/
def set (collection : List (String × Record)) (id : String) (value : Record) :
    List (String × Record) :=
  upsert id value collection

/-- One reading of the clock during a request: `Date.now()`, its `toString()` (the id of a
new record) and `new Date().toISOString()`. -/
structure Clock where
  millis : Int
  key : String
  stamp : String
  deriving DecidableEq, Repr

/-- The response of a route handler: the JSON body of a success (of which the entries named
in each handler are kept), or an error status with its message. -/
inductive Response where
  | ok (body : Record)
  | error (code : Nat) (message : String)
  deriving DecidableEq, Repr

/-- Method `dbOperations.updateDisasterRequest(requestId, updates)`. -/
def updateDisasterRequest (clock : Clock) (disasterRequests : List (String × Record))
    (requestId : String) (updates : Record) : List (String × Record) :=
  update disasterRequests requestId (upsert "updatedAt" (.text clock.stamp) updates)

/-- Method `dbOperations.getDisasterRequests()` without filters: each entry as
`{ id, ...data }`. -/
def getDisasterRequests (store : Store) : List Record :=
  store.disasterRequests.map (fun entry => spread [("id", .text entry.1)] entry.2)

/-- Method `dbOperations.createAssignment(assignmentData)`: the new collection; the id is
the clock's key. -/
def createAssignment (clock : Clock) (assignments : List (String × Record))
    (assignmentData : Record) : List (String × Record) :=
  set assignments clock.key
    (spread assignmentData [("createdAt", .text clock.stamp), ("status", .text "assigned")])

/-- The entry of an object literal whose value may be `undefined`. -/
def field (key : String) (value : Option Val) : Record :=
  match value with
  | some v => [(key, v)]
  | none => []

/-- The rendering of a property that may be absent. -/
def rendering (value : Option Val) : Option String :=
  value.map asKey

/-- Whether `value.toString()` can be called: the value is neither `undefined` nor `null`. -/
def hasToString : Option Val → Bool
  | some .null => false
  | some _ => true
  | none => false

/-- The expression `text || fallback` on a text that may be absent. -/
def orText (text : Option String) (fallback : String) : String :=
  match text with
  | some s => if s = "" then fallback else s
  | none => fallback

/-- The ids of the active (not completed) assignments of a request, as the specification
speaks of them. -/
def activeAssignmentsOf (store : Store) (requestId : String) : List String :=
  (store.assignments.filter (fun entry =>
    entry.2.lookup "requestId" == some (.text requestId) &&
      entry.2.lookup "status" != some (.text "completed"))).map (fun entry => entry.1)

end FirebaseService

namespace VolunteerRoutes

open FirebaseService

/-- The `eta` entry the accept handler stores: the three fields of the object `getETA`
returned (absent ones for an error record), or `assignment.eta || null` when no ETA was
computed. -/
def storedEta (eta : Option RoutingService.ETAResult) (assignment : Record) : Val :=
  match eta with
  | some (.estimate distanceKm durationMinutes estimatedArrival) =>
    .eta distanceKm durationMinutes (some estimatedArrival)
  | some (.error _) => .eta none none none
  | none =>
    if truthy (assignment.lookup "eta") then (assignment.lookup "eta").getD .null else .null

/-- Handler `POST /:volunteerId/accept/:assignmentId`: the response and the database after
it.  Of the body, `success`, `message` and `assignmentId` are kept. -/
def postAccept (clock : Clock) (reply : RoutingService.DirectionsReply) (store : Store)
    (volunteerId assignmentId : String) : Response × Store :=
  match store.assignments.lookup assignmentId with
  | none => (.error 404 "Assignment not found", store)
  | some assignment =>
    if truthy (assignment.lookup "volunteerId") &&
        assignment.lookup "volunteerId" != some (.text volunteerId) then
      (.error 400 "Assignment belongs to another volunteer", store)
    else
      let volunteerData := (store.volunteers.lookup volunteerId).getD []
      let origin := volunteerData.lookup "currentLocation"
      let eta : Option RoutingService.ETAResult :=
        if truthy origin && truthy (assignment.lookup "victimLocation") then
          some (RoutingService.getETA clock.millis reply)
        else none
      (.ok [("success", .flag true), ("message", .text "Assignment accepted"),
          ("assignmentId", .text assignmentId)],
        { store with
          assignments := update store.assignments assignmentId
            [("status", .text "in_progress"), ("acceptedAt", .text clock.stamp),
             ("eta", storedEta eta assignment)] })

/-- Handler `POST /:volunteerId/complete/:assignmentId` with the body fields `notes` and
`victimSafetyStatus`: the response and the database after it. -/
def postComplete (clock : Clock) (store : Store) (volunteerId assignmentId : String)
    (notes victimSafetyStatus : Option String) : Response × Store :=
  let assignments := update store.assignments assignmentId
    [("status", .text "completed"), ("completedAt", .text clock.stamp),
     ("completedBy", .text volunteerId), ("notes", .text (orText notes "")),
     ("victimFinalStatus", .text (orText victimSafetyStatus "safe"))]
  let assignment := assignments.lookup assignmentId
  let requestId := assignment.bind (fun a => a.lookup "requestId")
  let disasterRequests :=
    if truthy requestId then
      updateDisasterRequest clock store.disasterRequests (asKey (requestId.getD .null))
        [("status", .text "completed"), ("updatedBy", .text volunteerId)]
    else store.disasterRequests
  (.ok [("success", .flag true), ("message", .text "Assignment completed")],
    { store with assignments := assignments, disasterRequests := disasterRequests })

end VolunteerRoutes

namespace AiRoutes

open FirebaseService

/-- The `assignment` object `POST /match` builds from the request, the volunteer and the
result of `getETA`; an entry whose value is `undefined` is absent. -/
def matchAssignment (clock : Clock) (eta : RoutingService.ETAResult)
    (requestId volunteerId : String) (request volunteer : Record) : Record :=
  [("volunteerId", .text volunteerId), ("requestId", .text requestId)] ++
  field "victimUserId" (request.lookup "userId") ++
  [("victimLocation",
    .location (rendering (request.lookup "latitude"))
      (rendering (request.lookup "longitude")))] ++
  field "volunteerName" (volunteer.lookup "name") ++
  (match eta with
    | .estimate distanceKm durationMinutes _ =>
      field "estimatedArrivalMinutes"
          (durationMinutes.map (fun m => .number (toString m))) ++
        field "distanceKm" (distanceKm.map (fun d => .number (toString d)))
    | .error _ => []) ++
  [("createdAt", .text clock.stamp)]

/-- Handler `POST /match` with the body fields `requestId` and `volunteerId`: the response
and the database after it.  `reply` is what the directions lookup of `getETA` does, and
`sendFails` the message of the error `messaging.send` throws, if it throws; reading
`toString` of an absent coordinate is the `TypeError`.  Of the body of a success, `success`
and `assignmentId` are kept. -/
def postMatch (clock : Clock) (reply : RoutingService.DirectionsReply)
    (sendFails : Option String) (store : Store) (requestId volunteerId : Option String) :
    Response × Store :=
  match requestId, volunteerId with
  | some requestId, some volunteerId =>
    if requestId = "" ∨ volunteerId = "" then
      (.error 400 "Request ID and Volunteer ID required", store)
    else
      match (getDisasterRequests store).find?
          (fun r => r.lookup "id" == some (.text requestId)),
        store.users.lookup volunteerId with
      | none, _ => (.error 404 "Request not found", store)
      | some _, none => (.error 404 "Volunteer not found", store)
      | some request, some volunteer =>
        let eta := RoutingService.getETA clock.millis reply
        let assignment := matchAssignment clock eta requestId volunteerId request volunteer
        let stored : Store :=
          { store with assignments := createAssignment clock store.assignments assignment }
        if truthy (volunteer.lookup "deviceToken") then
          if hasToString (request.lookup "latitude") &&
              hasToString (request.lookup "longitude") then
            match sendFails with
            | none => (.ok [("success", .flag true), ("assignmentId", .text clock.key)], stored)
            | some message => (.error 500 message, stored)
          else (.error 500 "TypeError", stored)
        else (.ok [("success", .flag true), ("assignmentId", .text clock.key)], stored)
  | _, _ => (.error 400 "Request ID and Volunteer ID required", store)

/-! ### Example database -/

/-- A database with one open request, one user and no assignment. -/
def exampleStore : Store :=
  { users := [("v1", [("name", .text "Asha")])]
    volunteers := []
    disasterRequests :=
      [("r1", [("userId", .text "u1"), ("latitude", .number "1"), ("longitude", .number "2"),
        ("type", .text "fire"), ("status", .text "open")])]
    assignments := [] }

/-- A database in which volunteer `v1` holds assignment `a1` of request `r1`, with the
given status. -/
def storeWithAssignment (status : String) : Store :=
  { exampleStore with
    assignments :=
      [("a1", [("volunteerId", .text "v1"), ("requestId", .text "r1"),
        ("status", .text status)])] }

/-- Two readings of the clock, one millisecond apart. -/
def firstClock : Clock := ⟨1, "1", "t1"⟩

/-- The second reading of the clock. -/
def secondClock : Clock := ⟨2, "2", "t2"⟩

end AiRoutes

/-! ## Theorems -/

/-! ### Urgency scoring and aggregation (C1 to C5) -/

namespace GeminaiService

theorem addWeight_injuryMap (s : Nat) (level : Option String)
    (h : inheritedName level = false) :
    addWeight (some s) (lookupKey injuryMap level) = some (s + specInjuryWeight level) := by
  cases level with
  | none => simp [lookupKey, addWeight, specInjuryWeight]
  | some k =>
    have hk : k ∉ inheritedKeys := by simpa [inheritedName] using h
    simp only [lookupKey, injuryMap, specInjuryWeight, List.lookup, Option.some.injEq]
    by_cases h1 : k = "critical"
    · simp [h1, addWeight]
    by_cases h2 : k = "severe"
    · simp [h2, addWeight]
    by_cases h3 : k = "moderate"
    · simp [h3, addWeight]
    by_cases h4 : k = "minor"
    · simp [h4, addWeight]
    simp [beq_false_of_ne h1, beq_false_of_ne h2, beq_false_of_ne h3, beq_false_of_ne h4,
      h1, h2, h3, h4, hk, addWeight]

theorem addWeight_typeUrgency (s : Nat) (type : Option String)
    (h : inheritedName type = false) :
    addWeight (some s) (lookupKey typeUrgency type) = some (s + specTypeWeight type) := by
  cases type with
  | none => simp [lookupKey, addWeight, specTypeWeight]
  | some k =>
    have hk : k ∉ inheritedKeys := by simpa [inheritedName] using h
    simp only [lookupKey, typeUrgency, specTypeWeight, List.lookup, Option.some.injEq]
    by_cases h1 : k = "building_collapse"
    · simp [h1, addWeight]
    by_cases h2 : k = "fire"
    · simp [h2, addWeight]
    by_cases h3 : k = "drowning"
    · simp [h3, addWeight]
    by_cases h4 : k = "landslide"
    · simp [h4, addWeight]
    by_cases h5 : k = "earthquake"
    · simp [h5, addWeight]
    simp [beq_false_of_ne h1, beq_false_of_ne h2, beq_false_of_ne h3, beq_false_of_ne h4,
      beq_false_of_ne h5, h1, h2, h3, h4, h5, hk, addWeight]

theorem manyPeople_eq (people : Option Int) :
    (if manyPeople people then 2 else 0) = specPeopleBonus people := by
  cases people with
  | none => simp [manyPeople, specPeopleBonus]
  | some n =>
    simp only [manyPeople, specPeopleBonus]
    by_cases h : n > 5
    · have : n ≠ 0 := by omega
      simp [h, this]
    · simp [h]

/-- C1 (counterexample): for a request whose injury level is 'constructor', a name every
object literal inherits, the fallback urgency is `NaN`, while the formula of the claim
gives `min(5 + 0 + 0 + 0, 10) = 5`. -/
theorem calculateFallbackUrgency_inherited_level :
    calculateFallbackUrgency inheritedLevelRequest = none ∧
    min (5 + specInjuryWeight inheritedLevelRequest.injuryLevel
      + specPeopleBonus inheritedLevelRequest.peopleAffected
      + specTypeWeight inheritedLevelRequest.type) 10 = 5 := by
  decide

/-- C1 (amended): for every request whose injury level and type are not names of
inherited object properties, the fallback urgency is
`min(5 + injuryWeight + peopleBonus + typeWeight, 10)` with the weights of the
specification. -/
theorem calculateFallbackUrgency_eq_spec (request : Request)
    (hlevel : inheritedName request.injuryLevel = false)
    (htype : inheritedName request.type = false) :
    calculateFallbackUrgency request =
      some (min (5 + specInjuryWeight request.injuryLevel
        + specPeopleBonus request.peopleAffected + specTypeWeight request.type) 10) := by
  rw [← manyPeople_eq]
  simp only [calculateFallbackUrgency, addWeight_injuryMap 5 _ hlevel]
  cases manyPeople request.peopleAffected <;> simp [addWeight_typeUrgency _ _ htype]

/-- C1 at a concrete input: the fire request with critical injuries and ten people. -/
theorem calculateFallbackUrgency_eq_spec_witness :
    calculateFallbackUrgency fireRequest =
      some (min (5 + specInjuryWeight fireRequest.injuryLevel
        + specPeopleBonus fireRequest.peopleAffected + specTypeWeight fireRequest.type) 10) :=
  calculateFallbackUrgency_eq_spec fireRequest (by decide) (by decide)

/-- C2: the fallback priority of every request is CRITICAL when its fallback urgency is at
least 8, HIGH when it is 6 or 7, MEDIUM when it is 4 or 5, and LOW otherwise. -/
theorem calculateFallbackPriority_buckets (request : Request) :
    calculateFallbackPriority request = specPriority (calculateFallbackUrgency request) := by
  simp only [calculateFallbackPriority, specPriority]
  cases calculateFallbackUrgency request with
  | none => simp [atLeast]
  | some u =>
    simp only [atLeast, decide_eq_true_eq]
    by_cases h8 : u ≥ 8
    · simp [h8]
    by_cases h6 : u ≥ 6
    · have : u = 6 ∨ u = 7 := by omega
      simp [h8, h6, this]
    by_cases h4 : u ≥ 4
    · have h67 : ¬ (u = 6 ∨ u = 7) := by omega
      have : u = 4 ∨ u = 5 := by omega
      simp [h8, h6, h4, h67, this]
    · have h67 : ¬ (u = 6 ∨ u = 7) := by omega
      have h45 : ¬ (u = 4 ∨ u = 5) := by omega
      simp [h8, h6, h4, h67, h45]

/-- C3 (the code at the failing input): without a configured key `callGemini` returns
`null`, and the aggregation of one fire request returns no cluster at all, with the summary
'Gemini unavailable; no response', where the fallback scorer would give urgency 10 and
priority CRITICAL. -/
theorem aggregate_unavailable_returns_no_cluster :
    callGemini noKeyEnv (noKeyEnv.renderPrompt [fireRequest]) = none ∧
    (aggregateDisasterRequests noKeyEnv (some [fireRequest])).result.clusters = some [] ∧
    (aggregateDisasterRequests noKeyEnv (some [fireRequest])).result.summaryText
      = some "Gemini unavailable; no response" ∧
    calculateFallbackUrgency fireRequest = some 10 ∧
    calculateFallbackPriority fireRequest = "CRITICAL" := by
  refine ⟨by decide, by decide, by decide, by decide, by decide⟩

theorem gather_map {α β : Type} (f : β → Option α) (g : β → α) :
    ∀ (l : List β), (∀ x ∈ l, f x = some (g x)) → gather (l.map f) = some (l.map g)
  | [], _ => rfl
  | x :: l, h => by
    have hx := h x (List.mem_cons_self x l)
    have hl := gather_map f g l (fun y hy => h y (List.mem_cons_of_mem x hy))
    simp only [List.map_cons, hx, gather, hl]

theorem suggestResources_isSome (request : Request)
    (htype : inheritedName request.type = false) :
    ∃ resources, suggestResources request = some resources := by
  simp only [suggestResources]
  cases htp : request.type with
  | none => simp [truthyStr]
  | some k =>
    have hk : k ∉ inheritedKeys := by simpa [inheritedName, htp] using htype
    by_cases hempty : truthyStr (some k) = true
    · simp only [hempty, if_true, lookupKey]
      cases List.lookup k typeResources with
      | none => simp [hk]
      | some tags => simp
    · simp [hempty]

/-- C4 (counterexample): when the `catch` branch is taken on a request list that holds a
request of type 'constructor', `suggestResources` throws inside the branch and the call
rejects: there is no result, hence no summary and no cluster list. -/
theorem aggregate_catch_branch_rejects :
    (aggregateDisasterRequests brokenJsonEnv (some [inheritedTypeRequest])).result.rejects
      = true ∧
    (aggregateDisasterRequests brokenJsonEnv (some [inheritedTypeRequest])).result.summaryText
      = none ∧
    suggestResources inheritedTypeRequest = none := by
  decide

/-- C4 (amended): when the `catch` branch is taken on a non-empty request list (the endpoint
answered with text in which the brace pattern matches and `JSON.parse` threw) and no
request's type is the name of an inherited object property, the summary is
'Using fallback prioritization', which differs from the other two summaries the function
writes itself, and the clusters are, in input order, one per request: the i-th has
`requestIds = [i]`, the fallback priority and urgency of the i-th request, its own
coordinates as centroid, its suggested resources, `peopleAffected || 1` victims and the
action 'Send rescue team'. -/
theorem aggregate_catch_branch {J : Type} (env : Env J) (requests : List Request)
    (text matched : String) (hne : requests ≠ [])
    (hcall : callGemini env (env.renderPrompt requests) = some text)
    (htruthy : text ≠ "")
    (hmatch : jsonMatch text = some matched)
    (hthrow : env.jsonParse matched = none)
    (htypes : ∀ req ∈ requests, inheritedName req.type = false) :
    ∃ clusters : List Cluster,
      (aggregateDisasterRequests env (some requests)).result
        = .built clusters "Using fallback prioritization" ∧
      "Using fallback prioritization" ≠ "No open requests" ∧
      "Using fallback prioritization" ≠ "Gemini unavailable; no response" ∧
      clusters.length = requests.length ∧
      ∀ (i : Nat) (req : Request), requests[i]? = some req →
        ∃ resources : List String, suggestResources req = some resources ∧
          clusters[i]? = some
            { requestIds := [i]
              priority := calculateFallbackPriority req
              urgencyScore := calculateFallbackUrgency req
              combinedDescription := req.description
              centroidLocation := (req.latitude, req.longitude)
              requiredResources := resources
              estimatedVictimsCount :=
                match req.peopleAffected with
                | some n => if n = 0 then 1 else n
                | none => 1
              recommendedAction := "Send rescue team" } := by
  cases requests with
  | nil => exact absurd rfl hne
  | cons r rs =>
    let g : Nat × Request → Cluster := fun entry =>
      { requestIds := [entry.1]
        priority := calculateFallbackPriority entry.2
        urgencyScore := calculateFallbackUrgency entry.2
        combinedDescription := entry.2.description
        centroidLocation := (entry.2.latitude, entry.2.longitude)
        requiredResources := ((suggestResources entry.2).getD [])
        estimatedVictimsCount :=
          match entry.2.peopleAffected with
          | some n => if n = 0 then 1 else n
          | none => 1
        recommendedAction := "Send rescue team" }
    have hsome : ∀ entry ∈ (r :: rs).enum,
        fallbackCluster entry.2 entry.1 = some (g entry) := by
      intro entry hentry
      have hmem : entry.2 ∈ r :: rs := by
        have := List.mem_map_of_mem Prod.snd hentry
        rwa [List.enum_map_snd] at this
      obtain ⟨resources, hres⟩ := suggestResources_isSome entry.2 (htypes entry.2 hmem)
      simp only [fallbackCluster, hres, Option.getD_some, g]
    refine ⟨(r :: rs).enum.map g, ?_, by decide, by decide, ?_, ?_⟩
    · simp only [aggregateDisasterRequests, hcall, truthyStr, Option.bind, hmatch, hthrow,
        fallbackAggregation]
      simp only [bne_iff_ne, ne_eq, htruthy, not_false_eq_true, if_true]
      rw [gather_map _ _ _ hsome]
    · simp
    · intro i req hi
      have hmem : req ∈ r :: rs := (List.mem_iff_getElem?.mpr ⟨i, hi⟩)
      obtain ⟨resources, hres⟩ := suggestResources_isSome req (htypes req hmem)
      refine ⟨resources, hres, ?_⟩
      rw [List.getElem?_map, List.enum, List.getElem?_enumFrom, hi]
      simp [g, hres]

/-- C4 at a concrete input: the endpoint answers with text that is not JSON. -/
theorem aggregate_catch_branch_witness :
    ∃ clusters : List Cluster,
      (aggregateDisasterRequests brokenJsonEnv (some [fireRequest])).result
        = .built clusters "Using fallback prioritization" ∧
      "Using fallback prioritization" ≠ "No open requests" ∧
      "Using fallback prioritization" ≠ "Gemini unavailable; no response" ∧
      clusters.length = [fireRequest].length ∧
      ∀ (i : Nat) (req : Request), [fireRequest][i]? = some req →
        ∃ resources : List String, suggestResources req = some resources ∧
          clusters[i]? = some
            { requestIds := [i]
              priority := calculateFallbackPriority req
              urgencyScore := calculateFallbackUrgency req
              combinedDescription := req.description
              centroidLocation := (req.latitude, req.longitude)
              requiredResources := resources
              estimatedVictimsCount :=
                match req.peopleAffected with
                | some n => if n = 0 then 1 else n
                | none => 1
              recommendedAction := "Send rescue team" } :=
  aggregate_catch_branch brokenJsonEnv [fireRequest] "[\x7b\x7d,\x7b\x7d]" "\x7b\x7d,\x7b\x7d"
    (by decide) (by decide) (by decide) (by decide) rfl (by decide)

/-- C5: on an empty or missing request list the aggregation returns an empty cluster list
and the summary 'No open requests', and sends no prompt to the enrichment service. -/
theorem aggregate_empty {J : Type} (env : Env J) :
    (aggregateDisasterRequests env (some [])).result = .built [] "No open requests" ∧
    (aggregateDisasterRequests env (some [])).geminiCalls = [] ∧
    (aggregateDisasterRequests env none).result = .built [] "No open requests" ∧
    (aggregateDisasterRequests env none).geminiCalls = [] :=
  ⟨rfl, rfl, rfl, rfl⟩

end GeminaiService

/-! ### Facts about lists -/

theorem perm_cons_eraseIdx {α : Type} :
    ∀ (l : List α) (k : Nat) (x : α), l[k]? = some x → l.Perm (x :: l.eraseIdx k)
  | [], k, x, h => by simp at h
  | a :: l, 0, x, h => by
    simp only [List.getElem?_cons_zero, Option.some.injEq] at h
    subst h
    simp
  | a :: l, k + 1, x, h => by
    simp only [List.getElem?_cons_succ] at h
    have ih := perm_cons_eraseIdx l k x h
    simp only [List.eraseIdx_cons_succ]
    exact (List.Perm.cons a ih).trans (List.Perm.swap x a _)

theorem foldl_invariant {σ α : Type} (Inv : σ → Prop) (f : σ → α → σ) :
    ∀ (l : List α) (init : σ), Inv init → (∀ s x, x ∈ l → Inv s → Inv (f s x)) →
      Inv (l.foldl f init)
  | [], init, h0, _ => h0
  | a :: l, init, h0, hstep => by
    simp only [List.foldl_cons]
    exact foldl_invariant Inv f l (f init a)
      (hstep init a (List.mem_cons_self a l) h0)
      (fun s x hx hs => hstep s x (List.mem_cons_of_mem a hx) hs)

theorem filterMap_getElem?_range {α : Type} (l : List α) :
    (List.range l.length).filterMap (fun i => l[i]?) = l := by
  induction l using List.reverseRecOn with
  | nil => simp
  | append_singleton l a ih =>
    simp only [List.length_append, List.length_singleton, List.range_succ,
      List.filterMap_append]
    have h1 : (List.range l.length).filterMap (fun i => (l ++ [a])[i]?)
        = (List.range l.length).filterMap (fun i => l[i]?) := by
      apply List.filterMap_congr
      intro i hi
      rw [List.mem_range] at hi
      rw [List.getElem?_append_left hi]
    rw [h1, ih]
    simp

theorem eraseIdx_map_comm {α β : Type} (f : α → β) :
    ∀ (l : List α) (k : Nat), (l.map f).eraseIdx k = (l.eraseIdx k).map f
  | [], _ => by simp
  | _ :: _, 0 => by simp
  | a :: l, k + 1 => by simp [eraseIdx_map_comm f l k]

/-! ### The local-geometry route visits every destination once (C6) -/

namespace RoutingServiceLeaflet

theorem findNearest_fold_bound {P D : Type} (cmp : Compare D) (distanceTo : P → D) :
    ∀ (l : List P) (k : Nat) (st : Nat × D),
      ((l.enumFrom k).foldl (keepNearer cmp distanceTo) st).1 = st.1 ∨
      (k ≤ ((l.enumFrom k).foldl (keepNearer cmp distanceTo) st).1 ∧
       ((l.enumFrom k).foldl (keepNearer cmp distanceTo) st).1 < k + l.length)
  | [], k, st => by simp
  | a :: l, k, st => by
    simp only [List.enumFrom_cons, List.foldl_cons, List.length_cons]
    rcases findNearest_fold_bound cmp distanceTo l (k + 1)
      (keepNearer cmp distanceTo st (k, a)) with h1 | h1
    · by_cases h : cmp.lt (distanceTo a) st.2 = true
      · right
        rw [h1]
        simp only [keepNearer, h, if_true]
        omega
      · left
        rw [h1]
        simp [keepNearer, h]
    · right
      omega

theorem findNearest_lt {P D : Type} (cmp : Compare D) (distanceTo : P → D)
    (remaining : List P) (h : 0 < remaining.length) :
    findNearest cmp distanceTo remaining < remaining.length := by
  rcases findNearest_fold_bound cmp distanceTo remaining 0 (0, cmp.infinity) with h1 | h1
  · simp only [findNearest, List.enum]
    omega
  · simp only [findNearest, List.enum]
    omega

theorem visitLoop_perm {P D : Type} (cmp : Compare D) (dist : P → P → D) :
    ∀ (fuel : Nat) (current : P) (remaining route : List P), remaining.length ≤ fuel →
      ∃ tail, visitLoop cmp dist fuel current remaining route = route ++ tail ∧
        tail.Perm remaining
  | 0, current, remaining, route, h => by
    have : remaining = [] := List.length_eq_zero.mp (by omega)
    subst this
    exact ⟨[], by simp [visitLoop], List.Perm.refl _⟩
  | fuel + 1, current, remaining, route, h => by
    by_cases hpos : 0 < remaining.length
    · have hk := findNearest_lt cmp (dist current) remaining hpos
      have hget : remaining[findNearest cmp (dist current) remaining]?
          = some (remaining[findNearest cmp (dist current) remaining]) :=
        List.getElem?_eq_getElem hk
      have hlen : (remaining.eraseIdx (findNearest cmp (dist current) remaining)).length ≤ fuel := by
        rw [List.length_eraseIdx_of_lt hk]
        omega
      obtain ⟨tail, htail, hperm⟩ := visitLoop_perm cmp dist fuel
        (remaining[findNearest cmp (dist current) remaining])
        (remaining.eraseIdx (findNearest cmp (dist current) remaining))
        (route ++ [remaining[findNearest cmp (dist current) remaining]]) hlen
      refine ⟨remaining[findNearest cmp (dist current) remaining] :: tail, ?_, ?_⟩
      · simp only [visitLoop, gt_iff_lt, hpos, if_true, hget, htail]
        simp
      · exact (List.Perm.cons _ hperm).trans (perm_cons_eraseIdx remaining _ _ hget).symm
    · have : remaining = [] := List.length_eq_zero.mp (by omega)
      subst this
      exact ⟨[], by simp [visitLoop], List.Perm.refl _⟩

theorem solveNearestNeighbor_perm {P D : Type} (cmp : Compare D) (dist : P → P → D)
    (startPoint : P) (destinations : List P) (h : destinations ≠ []) :
    ∃ tail, solveNearestNeighbor cmp dist startPoint destinations = startPoint :: tail ∧
      tail.Perm destinations := by
  have hlen : destinations.length ≠ 0 := fun h0 => h (List.length_eq_zero.mp h0)
  obtain ⟨tail, htail, hperm⟩ := visitLoop_perm cmp dist destinations.length startPoint
    destinations [startPoint] (le_refl _)
  exact ⟨tail, by simp [solveNearestNeighbor, hlen, htail], hperm⟩

theorem solveNearestNeighbor_drop_perm {P D : Type} (cmp : Compare D) (dist : P → P → D)
    (startPoint : P) (destinations : List P) :
    ((solveNearestNeighbor cmp dist startPoint destinations).drop 1).Perm destinations := by
  by_cases h : destinations = []
  · subst h
    simp [solveNearestNeighbor]
  · obtain ⟨tail, htail, hperm⟩ := solveNearestNeighbor_perm cmp dist startPoint destinations h
    rw [htail]
    simpa using hperm


theorem absorbStep_gathered {P D : Type} (cmp : Compare D) (dist : P → P → D)
    (destinations : List P) (seed : P) (pre : List P) (base : List Nat)
    (state : List P × List Nat) (j : Nat)
    (h : Gathered destinations pre base state) :
    Gathered destinations pre base (absorbStep cmp dist destinations seed state j) := by
  unfold absorbStep
  by_cases hj : j ∈ state.2
  · simpa [hj] using h
  · simp only [hj, if_false]
    cases hget : destinations[j]? with
    | none => simpa using h
    | some other =>
      simp only
      by_cases hle : cmp.le (dist seed other) cmp.two = true
      · simp only [hle, if_true]
        obtain ⟨h1, h2, h3, h4⟩ := h
        refine ⟨?_, ?_, ?_, ?_⟩
        · simp only [List.filterMap_append, ← h1, List.append_assoc]
          simp [hget]
        · exact List.Nodup.append h2 (List.nodup_singleton j)
            (by
              intro a ha hb
              have hab : a = j := by simpa using hb
              exact hj (hab ▸ ha))
        · intro i hi
          rcases List.mem_append.mp hi with hi | hi
          · exact h3 i hi
          · have : i = j := by simpa using hi
            subst this
            by_contra hcon
            rw [List.getElem?_eq_none (by omega)] at hget
            exact Option.noConfusion hget
        · exact fun i hi => List.mem_append_left _ (h4 hi)
      · simpa [hle] using h

theorem seedStep_gathered {P D : Type} (cmp : Compare D) (dist : P → P → D)
    (destinations : List P) (state : List (List P) × List Nat) (i : Nat)
    (h : Gathered destinations [] [] (state.1.flatten, state.2)) :
    Gathered destinations [] [] ((seedStep cmp dist destinations state i).1.flatten,
        (seedStep cmp dist destinations state i).2) ∧
      state.2 ⊆ (seedStep cmp dist destinations state i).2 ∧
      (i < destinations.length → i ∈ (seedStep cmp dist destinations state i).2) := by
  unfold seedStep
  by_cases hi : i ∈ state.2
  · rw [if_pos hi]
    exact ⟨h, fun _ hx => hx, fun _ => hi⟩
  · rw [if_neg hi]
    cases hget : destinations[i]? with
    | none =>
      refine ⟨h, fun _ hx => hx, fun hlt => ?_⟩
      rw [List.getElem?_eq_none_iff] at hget
      omega
    | some seed =>
      simp only
      obtain ⟨h1, h2, h3, _⟩ := h
      have hlt : i < destinations.length := by
        by_contra hcon
        rw [List.getElem?_eq_none (by omega)] at hget
        exact Option.noConfusion hget
      have hstart : Gathered destinations state.1.flatten (state.2 ++ [i])
          ([seed], state.2 ++ [i]) := by
        refine ⟨?_, ?_, ?_, fun _ hx => hx⟩
        · simp only [List.nil_append] at h1
          simp [List.filterMap_append, ← h1, hget]
        · exact List.Nodup.append h2 (List.nodup_singleton i)
            (by
              intro a ha hb
              have hab : a = i := by simpa using hb
              exact hi (hab ▸ ha))
        · intro k hk
          rcases List.mem_append.mp hk with hk | hk
          · exact h3 k hk
          · have : k = i := by simpa using hk
            omega
      have hgrown := foldl_invariant
        (Gathered destinations state.1.flatten (state.2 ++ [i]))
        (absorbStep cmp dist destinations seed)
        (List.range' (i + 1) (destinations.length - (i + 1))) ([seed], state.2 ++ [i]) hstart
        (fun s x _ hs => absorbStep_gathered cmp dist destinations seed _ _ s x hs)
      obtain ⟨g1, g2, g3, g4⟩ := hgrown
      refine ⟨⟨?_, g2, g3, by simp⟩, ?_, ?_⟩
      · simpa using g1
      · exact fun x hx => g4 (List.mem_append_left _ hx)
      · exact fun _ => g4 (List.mem_append_right _ (List.mem_singleton_self i))

theorem seedLoop_gathered {P D : Type} (cmp : Compare D) (dist : P → P → D)
    (destinations : List P) :
    ∀ (is : List Nat) (state : List (List P) × List Nat),
      Gathered destinations [] [] (state.1.flatten, state.2) →
      Gathered destinations [] []
          ((is.foldl (seedStep cmp dist destinations) state).1.flatten,
            (is.foldl (seedStep cmp dist destinations) state).2) ∧
        state.2 ⊆ (is.foldl (seedStep cmp dist destinations) state).2 ∧
        ∀ i ∈ is, i < destinations.length →
          i ∈ (is.foldl (seedStep cmp dist destinations) state).2
  | [], state, h => ⟨h, fun _ hx => hx, fun _ hi => absurd hi (List.not_mem_nil _)⟩
  | a :: is, state, h => by
    simp only [List.foldl_cons]
    obtain ⟨s1, s2, s3⟩ := seedStep_gathered cmp dist destinations state a h
    obtain ⟨r1, r2, r3⟩ := seedLoop_gathered cmp dist destinations is
      (seedStep cmp dist destinations state a) s1
    refine ⟨r1, fun x hx => r2 (s2 hx), ?_⟩
    intro i hi hlt
    rcases List.mem_cons.mp hi with hi | hi
    · subst hi
      exact r2 (s3 hlt)
    · exact r3 i hi hlt

theorem clusterDestinations_flatten_perm {P D : Type} (cmp : Compare D) (dist : P → P → D)
    (destinations : List P) :
    (clusterDestinations cmp dist destinations).flatten.Perm destinations := by
  unfold clusterDestinations
  by_cases h25 : destinations.length ≤ 25
  · simp [h25]
  · simp only [h25, if_false]
    obtain ⟨⟨r1, r2, r3, _⟩, _, r5⟩ := seedLoop_gathered cmp dist destinations
      (List.range destinations.length) ([], [])
      ⟨by simp, List.nodup_nil, by simp, by simp⟩
    simp only [List.nil_append] at r1
    rw [r1]
    have hperm : ((List.range destinations.length).foldl (seedStep cmp dist destinations)
        ([], [])).2.Perm (List.range destinations.length) := by
      rw [List.perm_ext_iff_of_nodup r2 (List.nodup_range _)]
      intro a
      constructor
      · intro ha
        exact List.mem_range.mpr (r3 a ha)
      · intro ha
        exact r5 a ha (List.mem_range.mp ha)
    exact (hperm.filterMap _).trans (by rw [filterMap_getElem?_range])

theorem clusterRoutes_perm {P D : Type} (cmp : Compare D) (dist : P → P → D) (start : P) :
    ∀ (clusters : List (List P)) (visitedSoFar : List P),
      ∃ tail, clusters.foldl (appendClusterRoute cmp dist start) (start :: visitedSoFar)
          = start :: tail ∧ tail.Perm (visitedSoFar ++ clusters.flatten)
  | [], visitedSoFar => ⟨visitedSoFar, by simp, by simp⟩
  | c :: clusters, visitedSoFar => by
    simp only [List.foldl_cons, appendClusterRoute, List.cons_append]
    obtain ⟨tail, htail, hperm⟩ := clusterRoutes_perm cmp dist start clusters
      (visitedSoFar ++ (solveNearestNeighbor cmp dist
        ((start :: visitedSoFar).getLastD start) c).drop 1)
    refine ⟨tail, htail, hperm.trans ?_⟩
    simp only [List.flatten_cons, List.append_assoc]
    exact List.Perm.append_left _
      (List.Perm.append_right _ (solveNearestNeighbor_drop_perm cmp dist _ c))

/-- C6: for every start point and every non-empty destination list, of any length, the
local-geometry `optimizeRescueRoute` succeeds with a route that is the start point followed
by a permutation of the destinations, so each destination occurrence appears exactly once
and the route has `n + 1` points.  This holds whatever the distance comparisons answer. -/
theorem optimizeRescueRoute_visits_each_once {P D : Type} (cmp : Compare D)
    (dist : P → P → D) (startPoint : P) (destinations : List P) (h : destinations ≠ []) :
    ∃ tail, optimizeRescueRoute cmp dist (some startPoint) (some destinations)
        = .success (startPoint :: tail) ∧
      tail.Perm destinations ∧
      (startPoint :: tail).length = destinations.length + 1 := by
  cases destinations with
  | nil => exact absurd rfl h
  | cons d ds =>
    by_cases h25 : (d :: ds).length ≤ 25
    · obtain ⟨tail, htail, hperm⟩ := solveNearestNeighbor_perm cmp dist startPoint (d :: ds) h
      exact ⟨tail, by simp only [optimizeRescueRoute, h25, if_true, htail], hperm,
        by simpa using hperm.length_eq⟩
    · obtain ⟨tail, htail, hperm⟩ := clusterRoutes_perm cmp dist startPoint
        (clusterDestinations cmp dist (d :: ds)) []
      have hperm2 : tail.Perm (d :: ds) :=
        hperm.trans (by simpa using clusterDestinations_flatten_perm cmp dist (d :: ds))
      exact ⟨tail, by simp only [optimizeRescueRoute, h25, if_false, htail], hperm2,
        by simpa using hperm2.length_eq⟩

/-- C6 at a concrete input: three destinations on a line. -/
theorem optimizeRescueRoute_visits_each_once_witness :
    ∃ tail, optimizeRescueRoute (Compare.ofLinearOrder ℕ 2) gapDistance (some 0)
        (some [10, 20, 5]) = .success (0 :: tail) ∧
      tail.Perm [10, 20, 5] ∧
      (0 :: tail).length = [10, 20, 5].length + 1 :=
  optimizeRescueRoute_visits_each_once (Compare.ofLinearOrder ℕ 2) gapDistance 0 [10, 20, 5]
    (by decide)

end RoutingServiceLeaflet

/-! ### The distance-matrix route builder (C7, C8) -/

namespace RoutingService

theorem optimizeRescueRoute_small {D : Type} (cmp : Compare D)
    (dist : Destination → Destination → D)
    (getDistanceMatrix : Origin → List Destination → Except String DistanceMatrix)
    (fuel : Nat) (origin : Origin) (destinations : List Destination)
    (hne : destinations ≠ []) (h25 : destinations.length ≤ 25) :
    optimizeRescueRoute cmp dist getDistanceMatrix (fuel + 1) origin (some destinations)
      = some (directOrError origin destinations (getDistanceMatrix origin destinations)) := by
  cases destinations with
  | nil => exact absurd rfl hne
  | cons d ds =>
    have : ¬ (d :: ds).length > 25 := by omega
    simp only [optimizeRescueRoute, this, if_false]

/-- C7 (the code at the failing input): for two destinations and a one-row response with
positive distances, the index route is `[-1, 0, -1]`: destination 1 is never visited, and
the returned route is origin, first destination, origin. -/
theorem solveNearestNeighbor_skips_destination :
    solveNearestNeighbor 2 ⟨[⟨some 1000, some 60⟩, ⟨some 1000, some 60⟩]⟩ [] = [-1, 0, -1] ∧
    (1 : Int) ∉ solveNearestNeighbor 2 ⟨[⟨some 1000, some 60⟩, ⟨some 1000, some 60⟩]⟩ [] ∧
    ∀ {D : Type} (cmp : Compare D) (dist : Destination → Destination → D),
      (optimizeRescueRoute cmp dist oneRowLookup 1 exampleOrigin (some twoDestinations)).map
          (fun r => r.route)
        = some [Stop.origin exampleOrigin, Stop.destination ⟨some "a", 0, 1, none⟩,
            Stop.origin exampleOrigin] := by
  refine ⟨by decide, by decide, ?_⟩
  intro D cmp dist
  rw [optimizeRescueRoute_small cmp dist oneRowLookup 0 exampleOrigin twoDestinations
    (by decide) (by decide)]
  decide

theorem calculateDistance_self (lat lng : ℝ) : calculateDistance lat lng lat lng = 0 := by
  have h : (⟨1, 0⟩ : ℂ) = 1 := rfl
  simp [calculateDistance, h]

theorem clusterDestinations_congr {D E : Type} (cmp : Compare D)
    (dist : Destination → Destination → D) (cmp' : Compare E)
    (dist' : Destination → Destination → E) (destinations : List Destination)
    (maxPerCluster : Nat)
    (h : ∀ a ∈ destinations, ∀ b ∈ destinations,
      cmp.lt (dist a b) cmp.two = cmp'.lt (dist' a b) cmp'.two) :
    clusterDestinations cmp dist destinations maxPerCluster
      = clusterDestinations cmp' dist' destinations maxPerCluster := by
  have hinner : ∀ dest ∈ destinations, ∀ start,
      destinations.foldl (absorbNear cmp dist maxPerCluster dest) start
        = destinations.foldl (absorbNear cmp' dist' maxPerCluster dest) start := by
    intro dest hd start
    apply List.foldl_ext
    intro inner other ho
    simp only [absorbNear, h dest hd other ho]
  unfold clusterDestinations
  congr 1
  apply List.foldl_ext
  intro st dest hd
  simp only [startCluster, hinner dest hd]

theorem optimizeRescueRoute_large {D : Type} (cmp : Compare D)
    (dist : Destination → Destination → D)
    (getDistanceMatrix : Origin → List Destination → Except String DistanceMatrix)
    (fuel : Nat) (origin : Origin) (destinations : List Destination)
    (h25 : destinations.length > 25) :
    optimizeRescueRoute cmp dist getDistanceMatrix (fuel + 1) origin (some destinations)
      = optimizeRouteClustered
          (fun cluster => optimizeRescueRoute cmp dist getDistanceMatrix fuel origin
            (some cluster))
          (clusterDestinations cmp dist destinations 5) := by
  cases destinations with
  | nil => simp at h25
  | cons d ds => simp only [optimizeRescueRoute, h25, if_true]

theorem thirtyDestinations_near :
    ∀ a ∈ thirtyDestinations, ∀ b ∈ thirtyDestinations,
      (Compare.ofLinearOrder ℝ 2).lt (destinationDistance a b) (Compare.ofLinearOrder ℝ 2).two
        = alwaysNear.lt () alwaysNear.two := by
  intro a ha b hb
  have hcoord : ∀ c ∈ thirtyDestinations, c.lat = 1 ∧ c.lng = 1 := by
    intro c hc
    simp only [thirtyDestinations, List.mem_map] at hc
    obtain ⟨name, _, rfl⟩ := hc
    exact ⟨rfl, rfl⟩
  obtain ⟨ha1, ha2⟩ := hcoord a ha
  obtain ⟨hb1, hb2⟩ := hcoord b hb
  simp [Compare.ofLinearOrder, alwaysNear, destinationDistance, ha1, ha2, hb1, hb2,
    calculateDistance_self]

set_option maxRecDepth 100000 in
/-- C8 (the code at the failing input): for thirty destinations with distinct ids at one
place and a lookup that answers one row with positive distances, the result has
`usedClustering == true`, but its route has 18 stops (origin, first member, origin for each
of six clusters) and never contains the second destination. -/
theorem optimizeRescueRoute_clustered_skips_destinations :
    (optimizeRescueRoute (Compare.ofLinearOrder ℝ 2) destinationDistance oneRowLookup 2
        exampleOrigin (some thirtyDestinations)).map
      (fun r => (r.usedClustering, r.route.length,
        r.route.count (Stop.destination ⟨some "r01", 1, 1, none⟩)))
      = some (true, 18, 0) := by
  rw [optimizeRescueRoute_large _ _ _ 1 _ _ (by decide),
    clusterDestinations_congr _ _ alwaysNear (fun _ _ => ()) _ _ thirtyDestinations_near]
  decide

end RoutingService

/-! ### Nearest-first order and the scenario of the specification (C9, C10) -/

namespace RoutingServiceLeaflet

theorem arg_cos_sin_of_abs (θ : ℝ) (h : |θ| ≤ Real.pi / 2) :
    Complex.arg ⟨Real.sqrt (1 - Real.sin θ * Real.sin θ), Real.sqrt (Real.sin θ * Real.sin θ)⟩
      = |θ| := by
  have hpi := Real.pi_pos
  have hlo : -(Real.pi / 2) ≤ θ := by linarith [neg_abs_le θ]
  have hhi : θ ≤ Real.pi / 2 := by linarith [le_abs_self θ]
  have hcos : 0 ≤ Real.cos θ := Real.cos_nonneg_of_mem_Icc ⟨hlo, hhi⟩
  have h1 : Real.sqrt (1 - Real.sin θ * Real.sin θ) = Real.cos |θ| := by
    have : 1 - Real.sin θ * Real.sin θ = Real.cos θ ^ 2 := by
      nlinarith [Real.sin_sq_add_cos_sq θ]
    rw [Real.cos_abs, this, Real.sqrt_sq hcos]
  have h2 : Real.sqrt (Real.sin θ * Real.sin θ) = Real.sin |θ| := by
    rw [← sq, Real.sqrt_sq_eq_abs]
    by_cases h0 : 0 ≤ θ
    · rw [abs_of_nonneg h0,
        abs_of_nonneg (Real.sin_nonneg_of_nonneg_of_le_pi h0 (by linarith))]
    · have hneg : θ ≤ 0 := le_of_not_le h0
      rw [abs_of_nonpos hneg, Real.sin_neg,
        abs_of_nonpos (Real.sin_nonpos_of_nonnpos_of_neg_pi_le hneg (by linarith))]
  rw [h1, h2]
  have hform : (⟨Real.cos |θ|, Real.sin |θ|⟩ : ℂ)
      = Complex.cos (|θ| : ℝ) + Complex.sin (|θ| : ℝ) * Complex.I := by
    apply Complex.ext
    · simp [← Complex.ofReal_cos, ← Complex.ofReal_sin]
    · simp [← Complex.ofReal_cos, ← Complex.ofReal_sin]
  rw [hform]
  exact Complex.arg_cos_add_sin_mul_I ⟨by linarith [abs_nonneg θ], by linarith⟩

theorem haversineDistance_equator (lng1 lng2 : ℝ) (h : |lng2 - lng1| ≤ 180) :
    haversineDistance 0 lng1 0 lng2 = 6371 * (|lng2 - lng1| * Real.pi / 180) := by
  have hpi := Real.pi_pos
  have habs : |(lng2 - lng1) * Real.pi / 180 / 2| = |lng2 - lng1| * Real.pi / 360 := by
    rw [abs_div, abs_div, abs_mul, abs_of_pos hpi]
    norm_num
    ring
  have hle : |(lng2 - lng1) * Real.pi / 180 / 2| ≤ Real.pi / 2 := by
    rw [habs]
    have := mul_le_mul_of_nonneg_right h hpi.le
    linarith
  have harg := arg_cos_sin_of_abs _ hle
  simp only [haversineDistance, sub_self, zero_mul, zero_div, Real.sin_zero, mul_zero,
    Real.cos_zero, one_mul, zero_add, mul_one]
  rw [harg, habs]
  ring

theorem keepNearer_fold_spec {P D : Type} [LinearOrder D] (two : D) (g : P → WithTop D) :
    ∀ (l : List P) (k0 : Nat) (st : Nat × WithTop D),
      (∀ (q : ℕ) (y : P), l[q]? = some y →
        ((l.enumFrom k0).foldl (keepNearer (Compare.ofLinearOrder D two) g) st).2 ≤ g y) ∧
      ((l.enumFrom k0).foldl (keepNearer (Compare.ofLinearOrder D two) g) st).2 ≤ st.2 ∧
      ((l.enumFrom k0).foldl (keepNearer (Compare.ofLinearOrder D two) g) st = st ∨
        ∃ (p : ℕ) (x : P), l[p]? = some x ∧
          ((l.enumFrom k0).foldl (keepNearer (Compare.ofLinearOrder D two) g) st).1 = k0 + p ∧
          ((l.enumFrom k0).foldl (keepNearer (Compare.ofLinearOrder D two) g) st).2 = g x ∧
          g x < st.2 ∧ ∀ (q : ℕ) (y : P), q < p → l[q]? = some y → g x < g y)
  | [], k0, st => by simp
  | a :: l, k0, st => by
    simp only [List.enumFrom_cons, List.foldl_cons]
    obtain ⟨ih1, ih2, ih3⟩ := keepNearer_fold_spec two g l (k0 + 1)
      (keepNearer (Compare.ofLinearOrder D two) g st (k0, a))
    by_cases hlt : g a < st.2
    · have hstep : keepNearer (Compare.ofLinearOrder D two) g st (k0, a) = (k0, g a) := by
        simp [keepNearer, Compare.ofLinearOrder, hlt]
      rw [hstep] at ih1 ih2 ih3 ⊢
      refine ⟨?_, le_trans ih2 (le_of_lt hlt), Or.inr ?_⟩
      · intro q y hq
        cases q with
        | zero =>
          simp only [List.getElem?_cons_zero, Option.some.injEq] at hq
          subst hq
          exact ih2
        | succ q =>
          simp only [List.getElem?_cons_succ] at hq
          exact ih1 q y hq
      · rcases ih3 with h | ⟨p, x, hp, h1, h2, h3, h4⟩
        · refine ⟨0, a, by simp, by simp [h], by simp [h], hlt, ?_⟩
          intro q y hq
          omega
        · refine ⟨p + 1, x, by simpa using hp, by omega, h2, lt_trans h3 hlt, ?_⟩
          intro q y hq hy
          cases q with
          | zero =>
            simp only [List.getElem?_cons_zero, Option.some.injEq] at hy
            subst hy
            exact h3
          | succ q =>
            simp only [List.getElem?_cons_succ] at hy
            exact h4 q y (by omega) hy
    · have hstep : keepNearer (Compare.ofLinearOrder D two) g st (k0, a) = st := by
        simp [keepNearer, Compare.ofLinearOrder, hlt]
      rw [hstep] at ih1 ih2 ih3 ⊢
      have hge : st.2 ≤ g a := le_of_not_lt hlt
      refine ⟨?_, ih2, ?_⟩
      · intro q y hq
        cases q with
        | zero =>
          simp only [List.getElem?_cons_zero, Option.some.injEq] at hq
          subst hq
          exact le_trans ih2 hge
        | succ q =>
          simp only [List.getElem?_cons_succ] at hq
          exact ih1 q y hq
      · rcases ih3 with h | ⟨p, x, hp, h1, h2, h3, h4⟩
        · exact Or.inl h
        · refine Or.inr ⟨p + 1, x, by simpa using hp, by omega, h2, h3, ?_⟩
          intro q y hq hy
          cases q with
          | zero =>
            simp only [List.getElem?_cons_zero, Option.some.injEq] at hy
            subst hy
            exact lt_of_lt_of_le h3 hge
          | succ q =>
            simp only [List.getElem?_cons_succ] at hy
            exact h4 q y (by omega) hy

theorem findNearest_spec {P D : Type} [LinearOrder D] (two : D) (g : P → WithTop D)
    (l : List P) (hne : 0 < l.length) :
    ∃ x, l[findNearest (Compare.ofLinearOrder D two) g l]? = some x ∧
      (∀ (q : ℕ) (y : P), l[q]? = some y → g x ≤ g y) ∧
      (∀ (q : ℕ) (y : P), q < findNearest (Compare.ofLinearOrder D two) g l → l[q]? = some y →
        g x < g y) := by
  obtain ⟨h1, _, h3⟩ := keepNearer_fold_spec two g l 0 (0, (Compare.ofLinearOrder D two).infinity)
  rcases h3 with h | ⟨p, x, hp, e1, e2, _, e4⟩
  · have htop : ∀ (q : ℕ) (y : P), l[q]? = some y → g y = ⊤ := by
      intro q y hq
      have h0 := h1 q y hq
      rw [h] at h0
      exact top_le_iff.mp h0
    refine ⟨l[0], ?_, ?_, ?_⟩
    · simp only [findNearest, List.enum, h]
      exact List.getElem?_eq_getElem hne
    · intro q y hq
      rw [htop q y hq]
      exact le_top
    · intro q y hq
      simp only [findNearest, List.enum, h] at hq
      omega
  · refine ⟨x, ?_, ?_, ?_⟩
    · simp only [findNearest, List.enum, e1, zero_add, hp]
    · intro q y hq
      rw [← e2]
      exact h1 q y hq
    · intro q y hq hy
      simp only [findNearest, List.enum, e1, zero_add] at hq
      exact e4 q y hq hy

theorem visitLoop_nearestFirst {P D : Type} [LinearOrder D] (two : D)
    (dist : P → P → WithTop D) :
    ∀ (fuel : Nat) (current : P) (remaining : List (ℕ × P)) (route : List P),
      remaining.length ≤ fuel → remaining.Pairwise (fun a b => a.1 < b.1) →
      ∃ order : List (ℕ × P), order.Perm remaining ∧
        visitLoop (Compare.ofLinearOrder D two) dist fuel current (remaining.map Prod.snd) route
          = route ++ order.map Prod.snd ∧
        NearestFirst dist current order
  | 0, current, remaining, route, h, _ => by
    have : remaining = [] := List.length_eq_zero.mp (by omega)
    subst this
    exact ⟨[], List.Perm.refl _, by simp [visitLoop], trivial⟩
  | fuel + 1, current, remaining, route, h, hsorted => by
    by_cases hpos : 0 < remaining.length
    · have hpos' : 0 < (remaining.map Prod.snd).length := by simpa using hpos
      obtain ⟨x, hx, hmin, hfirst⟩ := findNearest_spec two (dist current)
        (remaining.map Prod.snd) hpos'
      generalize hk : findNearest (Compare.ofLinearOrder D two) (dist current)
        (remaining.map Prod.snd) = k at hx hfirst
      have hklt : k < remaining.length := by
        by_contra hcon
        rw [List.getElem?_eq_none (by simpa using hcon)] at hx
        exact Option.noConfusion hx
      have hxk : x = remaining[k].2 := by
        rw [List.getElem?_map, List.getElem?_eq_getElem hklt] at hx
        simpa using hx.symm
      have hlen : (remaining.eraseIdx k).length ≤ fuel := by
        rw [List.length_eraseIdx_of_lt hklt]
        omega
      obtain ⟨order, hperm, hrun, hgreedy⟩ := visitLoop_nearestFirst two dist fuel x
        (remaining.eraseIdx k) (route ++ [x]) hlen
        (List.Pairwise.sublist (List.eraseIdx_sublist remaining k) hsorted)
      refine ⟨remaining[k] :: order, ?_, ?_, ?_⟩
      · exact (List.Perm.cons _ hperm).trans
          (perm_cons_eraseIdx remaining k _ (List.getElem?_eq_getElem hklt)).symm
      · simp only [visitLoop, gt_iff_lt, hpos', if_true, hk, hx, eraseIdx_map_comm, hrun,
          List.map_cons, ← hxk]
        simp
      · refine ⟨?_, by rw [← hxk]; exact hgreedy⟩
        intro other hother
        have hmem : other ∈ remaining.eraseIdx k := hperm.subset hother
        obtain ⟨i, hik, hi⟩ := List.mem_eraseIdx_iff_getElem?.mp hmem
        have hilt : i < remaining.length := by
          by_contra hcon
          rw [List.getElem?_eq_none (by omega)] at hi
          exact Option.noConfusion hi
        have hi' : (remaining.map Prod.snd)[i]? = some other.2 := by
          rw [List.getElem?_map, hi]
          rfl
        rw [← hxk]
        refine ⟨hmin i other.2 hi', ?_⟩
        intro heq
        have hki : k < i := by
          rcases Nat.lt_or_gt_of_ne hik with hlt | hgt
          · exact absurd heq (ne_of_lt (hfirst i other.2 hlt hi'))
          · exact hgt
        have hother : other = remaining[i] := by
          rw [List.getElem?_eq_getElem hilt] at hi
          exact (Option.some.inj hi).symm
        rw [hother]
        exact List.pairwise_iff_getElem.mp hsorted k i hklt hilt hki
    · have : remaining = [] := List.length_eq_zero.mp (by omega)
      subst this
      exact ⟨[], List.Perm.refl _, by simp [visitLoop], trivial⟩

theorem enum_sorted {α : Type} (l : List α) : l.enum.Pairwise (fun a b => a.1 < b.1) := by
  have h := List.pairwise_lt_range l.length
  rw [← List.enum_map_fst l, List.pairwise_map] at h
  exact h

/-- C9: for every start point and non-empty destination list, and whatever numbers the
distance computation returns (`dist` is any function into a linear order with `Infinity`,
so nothing is assumed of the arithmetic of the haversine formula), the route of
`solveNearestNeighbor` is the start point followed by the destinations in a nearest-first
order of the computed distances: each stop is, seen from the stop before it, at most as far
as every destination visited later, and among destinations at the same distance the one
earlier in the input is visited first. -/
theorem solveNearestNeighbor_nearest_first {D : Type} [LinearOrder D] (two : D)
    (dist : Point → Point → WithTop D) (startPoint : Point) (destinations : List Point)
    (h : destinations ≠ []) :
    ∃ order : List (ℕ × Point), order.Perm destinations.enum ∧
      solveNearestNeighbor (Compare.ofLinearOrder D two) dist startPoint destinations
        = startPoint :: order.map Prod.snd ∧
      NearestFirst dist startPoint order := by
  have hlen : destinations.length ≠ 0 := fun h0 => h (List.length_eq_zero.mp h0)
  obtain ⟨order, hperm, hrun, hgreedy⟩ := visitLoop_nearestFirst two dist
    destinations.length startPoint destinations.enum
    [startPoint] (by simp [List.enum]) (enum_sorted destinations)
  rw [List.enum_map_snd] at hrun
  exact ⟨order, hperm, by simp [solveNearestNeighbor, hlen, hrun], hgreedy⟩

/-- C9 at a concrete input: the scenario of the specification, with the haversine distance
over the reals. -/
theorem solveNearestNeighbor_nearest_first_witness :
    ∃ order : List (ℕ × Point), order.Perm [scenarioA, scenarioB, scenarioC].enum ∧
      solveNearestNeighbor (Compare.ofLinearOrder ℝ 2) geoDistance scenarioOrigin
          [scenarioA, scenarioB, scenarioC]
        = scenarioOrigin :: order.map Prod.snd ∧
      NearestFirst geoDistance scenarioOrigin order :=
  solveNearestNeighbor_nearest_first (2 : ℝ) geoDistance scenarioOrigin
    [scenarioA, scenarioB, scenarioC] (by simp)

theorem geoDistance_equator (p q : Point) (hp : p.lat = 0) (hq : q.lat = 0)
    (h : |(q.lng : ℝ) - (p.lng : ℝ)| ≤ 180) :
    geoDistance p q = ((6371 * (|(q.lng : ℝ) - (p.lng : ℝ)| * Real.pi / 180) : ℝ) : WithTop ℝ) := by
  simp only [geoDistance, hp, hq, Rat.cast_zero]
  rw [haversineDistance_equator _ _ h]

theorem geoDistance_equator_lt (p q r : Point) (hp : p.lat = 0) (hq : q.lat = 0)
    (hr : r.lat = 0) (h1 : |(q.lng : ℝ) - (p.lng : ℝ)| ≤ 180)
    (h2 : |(r.lng : ℝ) - (p.lng : ℝ)| ≤ 180) :
    geoDistance p q < geoDistance p r ↔
      |(q.lng : ℝ) - (p.lng : ℝ)| < |(r.lng : ℝ) - (p.lng : ℝ)| := by
  rw [geoDistance_equator p q hp hq h1, geoDistance_equator p r hp hr h2, WithTop.coe_lt_coe]
  have hpi := Real.pi_pos
  constructor
  · intro h
    by_contra hcon
    have := mul_le_mul_of_nonneg_right (le_of_not_lt hcon) hpi.le
    linarith
  · intro h
    have := mul_lt_mul_of_pos_right h hpi
    linarith

theorem geoDistance_east_lt (p q r : Point) (hp : p.lat = 0) (hq : q.lat = 0)
    (hr : r.lat = 0) (hpq : p.lng ≤ q.lng) (hpr : p.lng ≤ r.lng)
    (hq180 : q.lng - p.lng ≤ 180) (hr180 : r.lng - p.lng ≤ 180) :
    geoDistance p q < geoDistance p r ↔ q.lng < r.lng := by
  have e1 : (0 : ℝ) ≤ (q.lng : ℝ) - (p.lng : ℝ) := by
    have : (p.lng : ℝ) ≤ (q.lng : ℝ) := by exact_mod_cast hpq
    linarith
  have e2 : (0 : ℝ) ≤ (r.lng : ℝ) - (p.lng : ℝ) := by
    have : (p.lng : ℝ) ≤ (r.lng : ℝ) := by exact_mod_cast hpr
    linarith
  have e3 : (q.lng : ℝ) - (p.lng : ℝ) ≤ 180 := by exact_mod_cast hq180
  have e4 : (r.lng : ℝ) - (p.lng : ℝ) ≤ 180 := by exact_mod_cast hr180
  rw [geoDistance_equator_lt p q r hp hq hr (by rwa [abs_of_nonneg e1])
    (by rwa [abs_of_nonneg e2]), abs_of_nonneg e1, abs_of_nonneg e2]
  constructor
  · intro h
    have : (q.lng : ℝ) < (r.lng : ℝ) := by linarith
    exact_mod_cast this
  · intro h
    have : (q.lng : ℝ) < (r.lng : ℝ) := by exact_mod_cast h
    linarith

/-- C10: from origin (0,0) with the destinations given in the order A(0,1), B(0,2),
C(0,0.5), the nearest-neighbour route under the haversine distance over the reals is
origin, C, A, B. -/
theorem solveNearestNeighbor_scenario :
    solveNearestNeighbor (Compare.ofLinearOrder ℝ 2) geoDistance scenarioOrigin
        [scenarioA, scenarioB, scenarioC]
      = [scenarioOrigin, scenarioC, scenarioA, scenarioB] := by
  have hOB : ¬ (geoDistance scenarioOrigin scenarioB < geoDistance scenarioOrigin scenarioA) := by
    rw [geoDistance_east_lt _ _ _ rfl rfl rfl (by norm_num [scenarioOrigin, scenarioB])
      (by norm_num [scenarioOrigin, scenarioA]) (by norm_num [scenarioOrigin, scenarioB])
      (by norm_num [scenarioOrigin, scenarioA])]
    norm_num [scenarioA, scenarioB]
  have hOC : geoDistance scenarioOrigin scenarioC < geoDistance scenarioOrigin scenarioA := by
    rw [geoDistance_east_lt _ _ _ rfl rfl rfl (by norm_num [scenarioOrigin, scenarioC])
      (by norm_num [scenarioOrigin, scenarioA]) (by norm_num [scenarioOrigin, scenarioC])
      (by norm_num [scenarioOrigin, scenarioA])]
    norm_num [scenarioA, scenarioC]
  have hCB : ¬ (geoDistance scenarioC scenarioB < geoDistance scenarioC scenarioA) := by
    rw [geoDistance_east_lt _ _ _ rfl rfl rfl (by norm_num [scenarioC, scenarioB])
      (by norm_num [scenarioC, scenarioA]) (by norm_num [scenarioC, scenarioB])
      (by norm_num [scenarioC, scenarioA])]
    norm_num [scenarioA, scenarioB]
  have htop : ∀ p q : Point, geoDistance p q < ⊤ := fun p q => WithTop.coe_lt_top _
  simp [solveNearestNeighbor, visitLoop, findNearest, keepNearer, List.enum, List.enumFrom,
    Compare.ofLinearOrder, htop, hOB, hOC, hCB]

end RoutingServiceLeaflet

/-! ### Empty destination lists (C11, C12) -/

namespace RoutingService

/-- C11: for every origin, an empty or a missing destination list gives the record
`{route: [], totalDistance: 0, totalDuration: 0}` without an `error` field, whatever the
distance-matrix lookup would answer (also when it would throw): the lookup is not
consulted. -/
theorem optimizeRescueRoute_empty {D : Type} (cmp : Compare D)
    (dist : Destination → Destination → D)
    (getDistanceMatrix : Origin → List Destination → Except String DistanceMatrix)
    (fuel : Nat) (origin : Origin) :
    optimizeRescueRoute cmp dist getDistanceMatrix (fuel + 1) origin (some [])
      = some { route := [], totalDistance := 0, totalDuration := 0, waypoints := none,
               clusters := none, usedClustering := false, error := none } ∧
    optimizeRescueRoute cmp dist getDistanceMatrix (fuel + 1) origin none
      = some { route := [], totalDistance := 0, totalDuration := 0, waypoints := none,
               clusters := none, usedClustering := false, error := none } := by
  constructor <;> simp [optimizeRescueRoute]

end RoutingService

namespace RoutingServiceLeaflet

/-- C12 (as stated, refuted): with start point 0 and an empty destination list the
local-geometry `optimizeRescueRoute` reports a failure; it returns no route at all. -/
theorem optimizeRescueRoute_empty_is_failure :
    optimizeRescueRoute (Compare.ofLinearOrder ℕ 2) gapDistance (some 0) (some [])
        = .failure "Start point and destinations required" ∧
    ∀ route : List ℕ,
      optimizeRescueRoute (Compare.ofLinearOrder ℕ 2) gapDistance (some 0) (some [])
        ≠ .success route := by
  refine ⟨rfl, ?_⟩
  intro route h
  simp [optimizeRescueRoute] at h

/-- C12 (amended): for every start point, the local-geometry `optimizeRescueRoute` called
with an empty destination list returns the failure record with the message
'Start point and destinations required'. -/
theorem optimizeRescueRoute_empty_rejected {P D : Type} (cmp : Compare D) (dist : P → P → D)
    (startPoint : P) :
    optimizeRescueRoute cmp dist (some startPoint) (some [])
      = .failure "Start point and destinations required" := rfl

end RoutingServiceLeaflet

/-! ### The great-circle distance (C16) -/

theorem haversine_term_symm (x y : ℝ) :
    Real.sin ((x - y) * Real.pi / 180 / 2) * Real.sin ((x - y) * Real.pi / 180 / 2)
      = Real.sin ((y - x) * Real.pi / 180 / 2) * Real.sin ((y - x) * Real.pi / 180 / 2) := by
  have h : (x - y) * Real.pi / 180 / 2 = -((y - x) * Real.pi / 180 / 2) := by ring
  rw [h, Real.sin_neg]
  ring

theorem haversineDistance_symm (lat1 lng1 lat2 lng2 : ℝ) :
    RoutingServiceLeaflet.haversineDistance lat1 lng1 lat2 lng2
      = RoutingServiceLeaflet.haversineDistance lat2 lng2 lat1 lng1 := by
  simp only [RoutingServiceLeaflet.haversineDistance]
  rw [haversine_term_symm lat2 lat1,
    mul_assoc (Real.cos (lat1 * Real.pi / 180) * Real.cos (lat2 * Real.pi / 180)),
    mul_assoc (Real.cos (lat2 * Real.pi / 180) * Real.cos (lat1 * Real.pi / 180)),
    haversine_term_symm lng2 lng1,
    mul_comm (Real.cos (lat1 * Real.pi / 180)) (Real.cos (lat2 * Real.pi / 180))]

theorem haversineDistance_self (lat lng : ℝ) :
    RoutingServiceLeaflet.haversineDistance lat lng lat lng = 0 := by
  have h : (⟨1, 0⟩ : ℂ) = 1 := rfl
  simp [RoutingServiceLeaflet.haversineDistance, h]

theorem haversineDistance_nonneg (lat1 lng1 lat2 lng2 : ℝ) :
    0 ≤ RoutingServiceLeaflet.haversineDistance lat1 lng1 lat2 lng2 := by
  simp only [RoutingServiceLeaflet.haversineDistance]
  have h : 0 ≤ Complex.arg ⟨Real.sqrt (1 - (Real.sin ((lat2 - lat1) * Real.pi / 180 / 2) *
      Real.sin ((lat2 - lat1) * Real.pi / 180 / 2) +
      Real.cos (lat1 * Real.pi / 180) * Real.cos (lat2 * Real.pi / 180) *
        Real.sin ((lng2 - lng1) * Real.pi / 180 / 2) *
        Real.sin ((lng2 - lng1) * Real.pi / 180 / 2))),
      Real.sqrt (Real.sin ((lat2 - lat1) * Real.pi / 180 / 2) *
      Real.sin ((lat2 - lat1) * Real.pi / 180 / 2) +
      Real.cos (lat1 * Real.pi / 180) * Real.cos (lat2 * Real.pi / 180) *
        Real.sin ((lng2 - lng1) * Real.pi / 180 / 2) *
        Real.sin ((lng2 - lng1) * Real.pi / 180 / 2))⟩ :=
    Complex.arg_nonneg_iff.mpr (Real.sqrt_nonneg _)
  positivity

theorem calculateDistance_eq_haversineDistance (lat1 lng1 lat2 lng2 : ℝ) :
    RoutingService.calculateDistance lat1 lng1 lat2 lng2
      = RoutingServiceLeaflet.haversineDistance lat1 lng1 lat2 lng2 := rfl

/-- C16: over the reals, with Earth radius 6371 km, both copies of the distance function
(`haversineDistance` and `calculateDistance`) are symmetric in the two points and give 0
for a point and itself. -/
theorem distance_symmetric_and_zero_on_self (lat1 lng1 lat2 lng2 : ℝ) :
    RoutingServiceLeaflet.haversineDistance lat1 lng1 lat2 lng2
        = RoutingServiceLeaflet.haversineDistance lat2 lng2 lat1 lng1 ∧
    RoutingServiceLeaflet.haversineDistance lat1 lng1 lat1 lng1 = 0 ∧
    RoutingService.calculateDistance lat1 lng1 lat2 lng2
        = RoutingService.calculateDistance lat2 lng2 lat1 lng1 ∧
    RoutingService.calculateDistance lat1 lng1 lat1 lng1 = 0 := by
  refine ⟨haversineDistance_symm _ _ _ _, haversineDistance_self _ _, ?_, ?_⟩
  · rw [calculateDistance_eq_haversineDistance, calculateDistance_eq_haversineDistance]
    exact haversineDistance_symm _ _ _ _
  · rw [calculateDistance_eq_haversineDistance]
    exact haversineDistance_self _ _

/-! ### Range of the urgency score (C18) -/

namespace GeminaiService

theorem calculateFallbackUrgency_bounds (request : Request)
    (hlevel : inheritedName request.injuryLevel = false)
    (htype : inheritedName request.type = false) :
    ∃ n, calculateFallbackUrgency request = some n ∧ 5 ≤ n ∧ n ≤ 10 := by
  simp only [calculateFallbackUrgency, addWeight_injuryMap 5 _ hlevel]
  cases manyPeople request.peopleAffected
  · simp only [Bool.false_eq_true, if_false, addWeight_typeUrgency _ _ htype,
      Option.map_some']
    exact ⟨_, rfl, by omega, Nat.min_le_right _ _⟩
  · simp only [if_true, Option.map_some', addWeight_typeUrgency _ _ htype]
    exact ⟨_, rfl, by omega, Nat.min_le_right _ _⟩

/-- C18: for every request whose injury level and type are labels of the data model (none
of which is the name of an inherited object property) and whatever its number of people,
the fallback urgency is a whole number between 1 and 10 inclusive. -/
theorem calculateFallbackUrgency_in_range (request : Request)
    (hlevel : inheritedName request.injuryLevel = false)
    (htype : inheritedName request.type = false) :
    ∃ n, calculateFallbackUrgency request = some n ∧ 1 ≤ n ∧ n ≤ 10 := by
  obtain ⟨n, hn, h5, h10⟩ := calculateFallbackUrgency_bounds request hlevel htype
  exact ⟨n, hn, by omega, h10⟩

/-- C18 at a concrete input: the fire request with critical injuries and ten people. -/
theorem calculateFallbackUrgency_in_range_witness :
    ∃ n, calculateFallbackUrgency fireRequest = some n ∧ 1 ≤ n ∧ n ≤ 10 :=
  calculateFallbackUrgency_in_range fireRequest (by decide) (by decide)

end GeminaiService

/-! ### Suggested resources (C17) -/

namespace GeminaiService

theorem suggestResources_of_type (injuryLevel description : Option String) (lat lng : ℚ)
    (people : Option Int) (type : Option String) (htype : inheritedName type = false) :
    suggestResources ⟨lat, lng, type, description, people, injuryLevel⟩
      = some (uniqueInOrder
          ((if truthyStr injuryLevel then ["medical_team", "ambulance"] else [])
            ++ specTypeTags type)) := by
  simp only [suggestResources]
  generalize truthyStr injuryLevel = present
  cases type with
  | none => cases present <;> simp [truthyStr, specTypeTags]
  | some k =>
    have hk : k ∉ inheritedKeys := by simpa [inheritedName] using htype
    by_cases h1 : k = "building_collapse"
    · subst h1
      cases present <;> simp [truthyStr, specTypeTags, lookupKey, typeResources, List.lookup]
    by_cases h2 : k = "fire"
    · subst h2
      cases present <;> simp [truthyStr, specTypeTags, lookupKey, typeResources, List.lookup]
    by_cases h3 : k = "drowning"
    · subst h3
      cases present <;> simp [truthyStr, specTypeTags, lookupKey, typeResources, List.lookup]
    by_cases h4 : k = "earthquake"
    · subst h4
      cases present <;> simp [truthyStr, specTypeTags, lookupKey, typeResources, List.lookup]
    by_cases h5 : k = "landslide"
    · subst h5
      cases present <;> simp [truthyStr, specTypeTags, lookupKey, typeResources, List.lookup]
    by_cases h6 : k = "flooding"
    · subst h6
      cases present <;> simp [truthyStr, specTypeTags, lookupKey, typeResources, List.lookup]
    have hlookup : lookupKey typeResources (some k) = .undefined := by
      simp [lookupKey, typeResources, List.lookup, beq_false_of_ne h1, beq_false_of_ne h2,
        beq_false_of_ne h3, beq_false_of_ne h4, beq_false_of_ne h5, beq_false_of_ne h6, hk]
    cases present <;> simp [hlookup, specTypeTags, h1, h2, h3, h4, h5, h6]

theorem truthyStr_present (injuryLevel : Option String) :
    (if truthyStr injuryLevel then ["medical_team", "ambulance"] else [])
      = (match injuryLevel with
          | some level => if level = "" then [] else ["medical_team", "ambulance"]
          | none => []) := by
  cases injuryLevel with
  | none => simp [truthyStr]
  | some level => by_cases h : level = "" <;> simp [truthyStr, h]

theorem firstOccurrences_filter (p : String → Bool) :
    ∀ tags : List String, firstOccurrences (tags.filter p) = (firstOccurrences tags).filter p
  | [] => by simp [firstOccurrences]
  | a :: tags => by
    by_cases hp : p a = true
    · simp only [List.filter_cons, hp, if_true, firstOccurrences,
        firstOccurrences_filter p tags, List.filter_filter]
      congr 1
      apply List.filter_congr
      intro y _
      exact Bool.and_comm _ _
    · simp only [List.filter_cons, hp, Bool.false_eq_true, if_false, firstOccurrences,
        firstOccurrences_filter p tags, List.filter_filter]
      apply List.filter_congr
      intro y _
      by_cases hy : y = a
      · subst hy
        simp [hp]
      · simp [hy]

theorem mem_firstOccurrences (tags : List String) (x : String) :
    x ∈ firstOccurrences tags ↔ x ∈ tags := by
  induction tags with
  | nil => simp [firstOccurrences]
  | cons a tags ih =>
    simp only [firstOccurrences, List.mem_cons, List.mem_filter, ih]
    by_cases h : x = a <;> simp [h]

theorem firstOccurrences_nodup : ∀ tags : List String, (firstOccurrences tags).Nodup
  | [] => by simp [firstOccurrences]
  | a :: tags => by
    simp only [firstOccurrences, List.nodup_cons, List.mem_filter]
    exact ⟨by simp, (firstOccurrences_nodup tags).filter _⟩

theorem uniqueInOrder_fold (tags : List String) :
    ∀ (acc : List String),
      tags.foldl (fun acc x => if x ∈ acc then acc else acc ++ [x]) acc
        = acc ++ firstOccurrences (tags.filter (fun x => decide (x ∉ acc))) := by
  induction tags with
  | nil => intro acc; simp [firstOccurrences]
  | cons x xs ih =>
    intro acc
    simp only [List.foldl_cons]
    by_cases hx : x ∈ acc
    · simp [hx, ih]
    · simp only [hx, if_false, ih, List.filter_cons, not_false_eq_true, decide_True, if_true,
        firstOccurrences, firstOccurrences_filter, List.filter_filter, List.append_assoc,
        List.singleton_append]
      congr 2
      apply List.filter_congr
      intro y _
      by_cases hy : y = x
      · subst hy
        simp
      · simp [hy]

theorem uniqueInOrder_eq_firstOccurrences (tags : List String) :
    uniqueInOrder tags = firstOccurrences tags := by
  have h := uniqueInOrder_fold tags []
  simpa [uniqueInOrder] using h

/-- C17 (counterexample): for a request of type 'constructor', a name every object literal
inherits, `suggestResources` throws instead of adding nothing for the unknown type; the
list of the claim would be empty. -/
theorem suggestResources_inherited_type_throws :
    suggestResources inheritedTypeRequest = none ∧
    firstOccurrences (specResourceTags inheritedTypeRequest) = [] := by
  decide

/-- C17 (amended): for every request whose type is not the name of an inherited object
property, `suggestResources` returns a list without a repeated tag, equal to the
first-occurrence de-duplication of the tags 'medical_team', 'ambulance' (when an injury
level is present) followed by the tags of the hazard type when it is one of the six known
types, and by nothing for any other type. -/
theorem suggestResources_eq_spec (request : Request)
    (htype : inheritedName request.type = false) :
    suggestResources request = some (firstOccurrences (specResourceTags request)) ∧
    (firstOccurrences (specResourceTags request)).Nodup := by
  refine ⟨?_, firstOccurrences_nodup _⟩
  cases request with
  | mk lat lng type description people injuryLevel =>
    rw [suggestResources_of_type _ _ _ _ _ _ htype, uniqueInOrder_eq_firstOccurrences,
      truthyStr_present]
    rfl

/-- C17 at a concrete input: the fire request with critical injuries. -/
theorem suggestResources_eq_spec_witness :
    suggestResources fireRequest = some (firstOccurrences (specResourceTags fireRequest)) ∧
    (firstOccurrences (specResourceTags fireRequest)).Nodup :=
  suggestResources_eq_spec fireRequest (by decide)

end GeminaiService

/-! ### Cluster spread (C19) -/

namespace AiRoutes

theorem aiRoutes_calculateDistance_eq_haversineDistance (lat1 lng1 lat2 lng2 : ℝ) :
    calculateDistance lat1 lng1 lat2 lng2
      = RoutingServiceLeaflet.haversineDistance lat1 lng1 lat2 lng2 := rfl

theorem foldl_mathMax_spec {β D : Type} [LinearOrder D] (f : β → Option D) :
    ∀ (xs : List β) (m : D), (∀ x ∈ xs, ∃ d, f x = some d) →
      ∃ top : D, xs.foldl (fun m x => mathMax m (f x)) (some m) = some top ∧ m ≤ top ∧
        (∀ x ∈ xs, ∃ d, f x = some d ∧ d ≤ top) ∧
        (top = m ∨ ∃ x ∈ xs, f x = some top)
  | [], m, _ => ⟨m, rfl, le_refl m, fun _ h => absurd h (List.not_mem_nil _), Or.inl rfl⟩
  | y :: xs, m, h => by
    obtain ⟨d, hd⟩ := h y (List.mem_cons_self y xs)
    obtain ⟨top, hfold, hle, hall, hatt⟩ := foldl_mathMax_spec f xs (max m d)
      (fun x hx => h x (List.mem_cons_of_mem y hx))
    refine ⟨top, ?_, le_trans (le_max_left m d) hle, ?_, ?_⟩
    · rw [List.foldl_cons, hd]
      exact hfold
    · intro x hx
      rcases List.mem_cons.mp hx with hx | hx
      · subst hx
        exact ⟨d, hd, le_trans (le_max_right m d) hle⟩
      · exact hall x hx
    · rcases hatt with hatt | ⟨x, hx, hatt⟩
      · rcases max_choice m d with hm | hm
        · exact Or.inl (by rw [hatt, hm])
        · exact Or.inr ⟨y, List.mem_cons_self y xs, by rw [hd, hatt, hm]⟩
      · exact Or.inr ⟨x, List.mem_cons_of_mem y hx, hatt⟩

theorem foldl_mathMax_none {β D : Type} [LinearOrder D] (f : β → Option D) :
    ∀ (xs : List β), xs.foldl (fun m x => mathMax m (f x)) none = none
  | [] => rfl
  | y :: xs => by
    simp only [List.foldl_cons, mathMax]
    exact foldl_mathMax_none f xs

theorem spreadLoop_spec {α D : Type} [LinearOrder D] (dist : α → α → Option D)
    (requests : List α)
    (hnum : ∀ i j : Fin requests.length, i < j →
      ∃ d, dist (requests.get i) (requests.get j) = some d) :
    ∀ (is : List (Fin requests.length)) (m : D),
      ∃ top : D, is.foldl (fun m i => spreadFrom dist requests i m) (some m) = some top ∧
        m ≤ top ∧
        (∀ i ∈ is, ∀ j, i < j →
          ∃ d, dist (requests.get i) (requests.get j) = some d ∧ d ≤ top) ∧
        (top = m ∨ ∃ i j : Fin requests.length, i < j ∧
          dist (requests.get i) (requests.get j) = some top)
  | [], m => ⟨m, rfl, le_refl m, fun _ h => absurd h (List.not_mem_nil _), Or.inl rfl⟩
  | k :: is, m => by
    obtain ⟨mid, hmid, hle1, hall1, hatt1⟩ := foldl_mathMax_spec
      (fun j => dist (requests.get k) (requests.get j))
      ((List.finRange requests.length).filter (fun j => decide (k < j))) m
      (fun j hj => hnum k j (by simpa using (List.mem_filter.mp hj).2))
    obtain ⟨top, htop, hle2, hall2, hatt2⟩ := spreadLoop_spec dist requests hnum is mid
    refine ⟨top, ?_, le_trans hle1 hle2, ?_, ?_⟩
    · have hstep : spreadFrom dist requests k (some m) = some mid := hmid
      rw [List.foldl_cons, hstep]
      exact htop
    · intro i hi j hij
      rcases List.mem_cons.mp hi with hi | hi
      · subst hi
        obtain ⟨d, hd, hdle⟩ := hall1 j
          (List.mem_filter.mpr ⟨List.mem_finRange j, by simpa using hij⟩)
        exact ⟨d, hd, le_trans hdle hle2⟩
      · exact hall2 i hi j hij
    · rcases hatt2 with h2 | h2
      · rcases hatt1 with h1 | ⟨j, hj, h1⟩
        · exact Or.inl (by rw [h2, h1])
        · exact Or.inr ⟨k, j, by simpa using (List.mem_filter.mp hj).2, by rw [h2]; exact h1⟩
      · exact Or.inr h2

theorem requestDistance_nonneg (a b : GeminaiService.Request) : 0 ≤ requestDistance a b :=
  haversineDistance_nonneg _ _ _ _

theorem requestDistance_symm (a b : GeminaiService.Request) :
    requestDistance a b = requestDistance b a :=
  haversineDistance_symm _ _ _ _

theorem requestDistance_self (a : GeminaiService.Request) : requestDistance a a = 0 :=
  haversineDistance_self _ _

/-- C19 (counterexample): for a request and its antipode the computed distance is `NaN`,
and `calculateClusterSpread` returns `NaN`: a value that is neither at least the pairwise
distance nor equal to it. -/
theorem calculateClusterSpread_antipodes_nan :
    antipodalRequests.length = 2 ∧
    calculateClusterSpread antipodalDistance antipodalRequests = none := by
  refine ⟨rfl, ?_⟩
  simp [calculateClusterSpread, antipodalRequests, spreadFrom, List.finRange,
    antipodalDistance, mathMax]

/-- C19 (amended): `calculateClusterSpread` returns 0 for a list of 0 or 1 requests; for a
longer list in which the computed distance of every pair is a number (a computed distance
is never negative), it returns the maximum of the computed distances over the pairs: a
value at least the distance of every pair and equal to the distance of one pair. -/
theorem calculateClusterSpread_is_max
    (dist : GeminaiService.Request → GeminaiService.Request → Option ℝ)
    (requests : List GeminaiService.Request) :
    (requests.length ≤ 1 → calculateClusterSpread dist requests = some 0) ∧
    (2 ≤ requests.length →
      (∀ i j : Fin requests.length, i < j →
        ∃ d, dist (requests.get i) (requests.get j) = some d ∧ 0 ≤ d) →
      ∃ spread : ℝ, calculateClusterSpread dist requests = some spread ∧
        (∀ i j : Fin requests.length, i < j →
          ∃ d, dist (requests.get i) (requests.get j) = some d ∧ d ≤ spread) ∧
        ∃ i j : Fin requests.length, i < j ∧
          dist (requests.get i) (requests.get j) = some spread) := by
  constructor
  · intro h
    simp [calculateClusterSpread, h]
  · intro h hnum
    have hlen : ¬ requests.length ≤ 1 := by omega
    obtain ⟨top, htop, hle, hall, hatt⟩ := spreadLoop_spec dist requests
      (fun i j hij => (hnum i j hij).imp fun d hd => hd.1)
      (List.finRange requests.length) 0
    refine ⟨top, ?_, fun i j hij => hall i (List.mem_finRange i) j hij, ?_⟩
    · simp only [calculateClusterSpread, hlen, if_false, htop]
    · rcases hatt with h0 | h0
      · refine ⟨⟨0, by omega⟩, ⟨1, by omega⟩, by simp [Fin.lt_def], ?_⟩
        obtain ⟨d, hd, hpos⟩ := hnum ⟨0, by omega⟩ ⟨1, by omega⟩ (by simp [Fin.lt_def])
        obtain ⟨d2, hd2, hdle⟩ := hall ⟨0, by omega⟩ (List.mem_finRange _) ⟨1, by omega⟩
          (by simp [Fin.lt_def])
        rw [hd] at hd2
        have hdd : d = d2 := Option.some.inj hd2
        rw [hd, h0]
        congr 1
        rw [h0, ← hdd] at hdle
        exact le_antisymm hdle hpos
      · exact h0

/-- C19 at a concrete input: three requests on the equator, at longitudes 0, 1 and 3, with
the distance formula evaluated exactly. -/
theorem calculateClusterSpread_is_max_witness :
    ∃ spread : ℝ, calculateClusterSpread exactDistance equatorRequests = some spread ∧
      (∀ i j : Fin equatorRequests.length, i < j →
        ∃ d, exactDistance (equatorRequests.get i) (equatorRequests.get j) = some d ∧
          d ≤ spread) ∧
      ∃ i j : Fin equatorRequests.length, i < j ∧
        exactDistance (equatorRequests.get i) (equatorRequests.get j) = some spread :=
  (calculateClusterSpread_is_max exactDistance equatorRequests).2 (by decide)
    (fun i j _ => ⟨_, rfl, requestDistance_nonneg _ _⟩)

end AiRoutes

/-! ### Clusters partition destinations with distinct ids (C20) -/

namespace RoutingService

theorem absorbNear_assigned {D : Type} (cmp : Compare D)
    (dist : Destination → Destination → D) (destinations pre : List Destination)
    (base : List (Option String)) (maxPerCluster : Nat) (dest other : Destination)
    (hother : other ∈ destinations) (inner : List Destination × List (Option String))
    (h : Assigned destinations pre base inner) :
    Assigned destinations pre base (absorbNear cmp dist maxPerCluster dest inner other) := by
  unfold absorbNear
  by_cases hused : other.id ∈ inner.2
  · rw [if_pos hused]
    exact h
  · rw [if_neg hused]
    by_cases hfull : inner.1.length ≥ maxPerCluster
    · rw [if_pos hfull]
      exact h
    · rw [if_neg hfull]
      by_cases hnear : cmp.lt (dist dest other) cmp.two = true
      · rw [if_pos hnear]
        obtain ⟨h1, h2, h3, h4⟩ := h
        refine ⟨?_, ?_, ?_, ?_⟩
        · simp only [h1, List.map_append, List.map_cons, List.map_nil, List.append_assoc]
        · exact List.Nodup.append h2 (List.nodup_singleton _)
            (by
              intro a ha hb
              have hab : a = other.id := by simpa using hb
              exact hused (hab ▸ ha))
        · intro d hd
          rw [← List.append_assoc] at hd
          rcases List.mem_append.mp hd with hd | hd
          · exact h3 d hd
          · have : d = other := by simpa using hd
            exact this ▸ hother
        · exact fun x hx => List.mem_append_left _ (h4 hx)
      · rw [if_neg hnear]
        exact h

theorem startCluster_assigned {D : Type} (cmp : Compare D)
    (dist : Destination → Destination → D) (destinations : List Destination)
    (maxPerCluster : Nat) (state : List (List Destination) × List (Option String))
    (dest : Destination) (hdest : dest ∈ destinations)
    (h : Assigned destinations [] [] (state.1.flatten, state.2)) :
    Assigned destinations [] []
        ((startCluster cmp dist destinations maxPerCluster state dest).1.flatten,
          (startCluster cmp dist destinations maxPerCluster state dest).2) ∧
      state.2 ⊆ (startCluster cmp dist destinations maxPerCluster state dest).2 ∧
      dest.id ∈ (startCluster cmp dist destinations maxPerCluster state dest).2 := by
  unfold startCluster
  by_cases hused : dest.id ∈ state.2
  · rw [if_pos hused]
    exact ⟨h, fun _ hx => hx, hused⟩
  · rw [if_neg hused]
    obtain ⟨h1, h2, h3, _⟩ := h
    simp only [List.nil_append] at h1 h3
    have hstart : Assigned destinations state.1.flatten (state.2 ++ [dest.id])
        ([dest], state.2 ++ [dest.id]) := by
      refine ⟨?_, ?_, ?_, fun _ hx => hx⟩
      · simp [h1]
      · exact List.Nodup.append h2 (List.nodup_singleton _)
          (by
            intro a ha hb
            have hab : a = dest.id := by simpa using hb
            exact hused (hab ▸ ha))
      · intro d hd
        rcases List.mem_append.mp hd with hd | hd
        · exact h3 d hd
        · have : d = dest := by simpa using hd
          exact this ▸ hdest
    have hgrown : Assigned destinations state.1.flatten (state.2 ++ [dest.id])
        (if ([dest], state.2 ++ [dest.id]).1.length < maxPerCluster then
          destinations.foldl (absorbNear cmp dist maxPerCluster dest)
            ([dest], state.2 ++ [dest.id])
        else ([dest], state.2 ++ [dest.id])) := by
      split_ifs
      · exact foldl_invariant (Assigned destinations state.1.flatten (state.2 ++ [dest.id]))
          (absorbNear cmp dist maxPerCluster dest) destinations _ hstart
          (fun s x hx hs => absorbNear_assigned cmp dist destinations _ _ maxPerCluster dest x
            hx s hs)
      · exact hstart
    obtain ⟨g1, g2, g3, g4⟩ := hgrown
    refine ⟨⟨?_, g2, ?_, by simp⟩, ?_, ?_⟩
    · simpa using g1
    · simpa using g3
    · exact fun x hx => g4 (List.mem_append_left _ hx)
    · exact g4 (List.mem_append_right _ (List.mem_singleton_self _))

theorem clusterLoop_assigned {D : Type} (cmp : Compare D)
    (dist : Destination → Destination → D) (destinations : List Destination)
    (maxPerCluster : Nat) :
    ∀ (todo : List Destination) (state : List (List Destination) × List (Option String)),
      (∀ d ∈ todo, d ∈ destinations) →
      Assigned destinations [] [] (state.1.flatten, state.2) →
      Assigned destinations [] []
          ((todo.foldl (startCluster cmp dist destinations maxPerCluster) state).1.flatten,
            (todo.foldl (startCluster cmp dist destinations maxPerCluster) state).2) ∧
        state.2 ⊆ (todo.foldl (startCluster cmp dist destinations maxPerCluster) state).2 ∧
        ∀ d ∈ todo,
          d.id ∈ (todo.foldl (startCluster cmp dist destinations maxPerCluster) state).2
  | [], state, _, h => ⟨h, fun _ hx => hx, fun _ hd => absurd hd (List.not_mem_nil _)⟩
  | a :: todo, state, hsub, h => by
    simp only [List.foldl_cons]
    obtain ⟨s1, s2, s3⟩ := startCluster_assigned cmp dist destinations maxPerCluster state a
      (hsub a (List.mem_cons_self a todo)) h
    obtain ⟨r1, r2, r3⟩ := clusterLoop_assigned cmp dist destinations maxPerCluster todo
      (startCluster cmp dist destinations maxPerCluster state a)
      (fun d hd => hsub d (List.mem_cons_of_mem a hd)) s1
    refine ⟨r1, fun x hx => r2 (s2 hx), ?_⟩
    intro d hd
    rcases List.mem_cons.mp hd with hd | hd
    · subst hd
      exact r2 s3
    · exact r3 d hd

/-- C20 (as stated, refuted): of two destinations that carry the same id, the second is in
no cluster, so the clusters are not a permutation of the input. -/
theorem clusterDestinations_drops_repeated_id :
    clusterDestinations (Compare.ofLinearOrder ℝ 2) destinationDistance sameIdDestinations 5
        = [[⟨some "a", 0, 1, none⟩]] ∧
    ¬ (clusterDestinations (Compare.ofLinearOrder ℝ 2) destinationDistance
        sameIdDestinations 5).flatten.Perm sameIdDestinations := by
  have h : clusterDestinations (Compare.ofLinearOrder ℝ 2) destinationDistance
      sameIdDestinations 5 = [[⟨some "a", 0, 1, none⟩]] := by
    simp [clusterDestinations, startCluster, absorbNear, sameIdDestinations]
  refine ⟨h, ?_⟩
  rw [h]
  intro hperm
  have := hperm.length_eq
  simp [sameIdDestinations] at this

/-- C20 (amended): for every destination list whose ids are pairwise distinct, and every
`maxPerCluster`, the concatenation of the clusters of `clusterDestinations` is a
permutation of the input: no destination is dropped and none is duplicated. -/
theorem clusterDestinations_partition {D : Type} (cmp : Compare D)
    (dist : Destination → Destination → D) (destinations : List Destination)
    (maxPerCluster : Nat) (hids : (destinations.map (fun d => d.id)).Nodup) :
    (clusterDestinations cmp dist destinations maxPerCluster).flatten.Perm destinations := by
  obtain ⟨⟨r1, r2, r3, _⟩, _, r5⟩ := clusterLoop_assigned cmp dist destinations
    maxPerCluster destinations ([], []) (fun _ hd => hd)
    ⟨by simp, List.nodup_nil, by simp, by simp⟩
  simp only [List.nil_append] at r1 r3
  unfold clusterDestinations
  rw [r1] at r2
  rw [List.perm_ext_iff_of_nodup (List.Nodup.of_map _ r2) (List.Nodup.of_map _ hids)]
  intro d
  constructor
  · exact r3 d
  · intro hd
    have hid := r5 d hd
    rw [r1] at hid
    obtain ⟨g, hg, hgid⟩ := List.mem_map.mp hid
    have : g = d := List.inj_on_of_nodup_map hids (r3 g hg) hd hgid
    exact this ▸ hg

/-- C20 at a concrete input: two destinations with the ids 'a' and 'b'. -/
theorem clusterDestinations_partition_witness :
    (clusterDestinations (Compare.ofLinearOrder ℝ 2) destinationDistance twoDestinations
      5).flatten.Perm twoDestinations :=
  clusterDestinations_partition (Compare.ofLinearOrder ℝ 2) destinationDistance
    twoDestinations 5 (by decide)

end RoutingService

/-! ### Failed lookups (C13, C15) -/

namespace RoutingService

theorem calculateDistance_equator (lng1 lng2 : ℝ) (h : |lng2 - lng1| ≤ 180) :
    calculateDistance 0 lng1 0 lng2 = 6371 * (|lng2 - lng1| * Real.pi / 180) :=
  RoutingServiceLeaflet.haversineDistance_equator lng1 lng2 h

/-- C13 (as stated, refuted): with a lookup that throws, one destination one degree east of
the origin gives `totalDistance` 0 and `totalDuration` 0, although the haversine estimate
of the route is more than 100 km and, at 5 km/h, more than 1200 minutes. -/
theorem optimizeRescueRoute_failure_totals_zero :
    (optimizeRescueRoute (Compare.ofLinearOrder ℝ 2) destinationDistance failingLookup 1
        exampleOrigin (some oneDestination)).map
      (fun r => (r.totalDistance, r.totalDuration)) = some (0, 0) ∧
    100 < specLocalDistance [(0, 0), (0, 1)] ∧
    1200 < specLocalDuration [(0, 0), (0, 1)] := by
  have hd : specLocalDistance [(0, 0), (0, 1)] = 6371 * (1 * Real.pi / 180) := by
    simp only [specLocalDistance, Rat.cast_zero, Rat.cast_one, add_zero]
    rw [calculateDistance_equator 0 1 (by norm_num)]
    norm_num
  have hpi := Real.pi_gt_three
  refine ⟨?_, ?_, ?_⟩
  · rw [optimizeRescueRoute_small _ _ _ 0 _ _ (by decide) (by decide)]
    decide
  · rw [hd]
    linarith
  · rw [specLocalDuration, hd]
    linarith

/-- C13 (amended): for every origin and every list of 1 to 25 destinations, when the lookup
throws or answers without rows, `optimizeRescueRoute` returns a result (it does not throw)
that carries an `error`, whose route is the origin followed by every destination in input
order, and whose `totalDistance` and `totalDuration` are both 0. -/
theorem optimizeRescueRoute_lookup_failure {D : Type} (cmp : Compare D)
    (dist : Destination → Destination → D)
    (getDistanceMatrix : Origin → List Destination → Except String DistanceMatrix)
    (fuel : Nat) (origin : Origin) (destinations : List Destination)
    (hne : destinations ≠ []) (h25 : destinations.length ≤ 25)
    (hfail : (∃ message, getDistanceMatrix origin destinations = .error message) ∨
      getDistanceMatrix origin destinations = .ok ⟨none⟩ ∨
      getDistanceMatrix origin destinations = .ok ⟨some []⟩) :
    ∃ e : Thrown,
      optimizeRescueRoute cmp dist getDistanceMatrix (fuel + 1) origin (some destinations)
        = some { route := Stop.origin origin :: destinations.map Stop.destination
                 totalDistance := 0
                 totalDuration := 0
                 waypoints := none
                 clusters := none
                 usedClustering := false
                 error := some e } := by
  rw [optimizeRescueRoute_small cmp dist getDistanceMatrix fuel origin destinations hne h25]
  rcases hfail with ⟨message, h⟩ | h | h
  · exact ⟨.lookupFailed message, by simp [directOrError, optimizeDirect, h, errorResult]⟩
  · exact ⟨.invalidResponse, by simp [directOrError, optimizeDirect, h, errorResult]⟩
  · exact ⟨.invalidResponse, by simp [directOrError, optimizeDirect, h, errorResult]⟩

/-- C13 at a concrete input: one destination and a lookup that throws. -/
theorem optimizeRescueRoute_lookup_failure_witness :
    ∃ e : Thrown,
      optimizeRescueRoute (Compare.ofLinearOrder ℝ 2) destinationDistance failingLookup
          (0 + 1) exampleOrigin (some oneDestination)
        = some { route := Stop.origin exampleOrigin :: oneDestination.map Stop.destination
                 totalDistance := 0
                 totalDuration := 0
                 waypoints := none
                 clusters := none
                 usedClustering := false
                 error := some e } :=
  optimizeRescueRoute_lookup_failure (Compare.ofLinearOrder ℝ 2) destinationDistance
    failingLookup 0 exampleOrigin oneDestination (by decide) (by decide)
    (Or.inl ⟨"Network Error", rfl⟩)

/-- C15 (as stated, refuted): when the directions lookup throws, `getETA` returns the
error record, not an estimate. -/
theorem getETA_lookup_throws_is_error :
    getETA 0 (.threw "Network Error") = .error "Network Error" ∧
    ∀ (distanceKm durationMinutes : Option Nat) (estimatedArrival : Int),
      getETA 0 (.threw "Network Error")
        ≠ .estimate distanceKm durationMinutes estimatedArrival := by
  refine ⟨rfl, ?_⟩
  intro a b c h
  simp [getETA, getDirections] at h

/-- C15 (amended): when the directions lookup throws or reports that no route was found,
`getETA` does not throw and returns an error record, never an estimate; when the lookup
threw, the record carries the message of the lookup's error. -/
theorem getETA_unavailable (now : Int) (message : String) :
    getETA now (.threw message) = .error message ∧
    (∃ text, getETA now (.data (some [])) = .error text) ∧
    (∃ text, getETA now (.data none) = .error text) ∧
    ∀ (reply : DirectionsReply),
      (reply = .threw message ∨ reply = .data (some []) ∨ reply = .data none) →
      ∀ (distanceKm durationMinutes : Option Nat) (estimatedArrival : Int),
        getETA now reply ≠ .estimate distanceKm durationMinutes estimatedArrival := by
  refine ⟨rfl, ⟨_, rfl⟩, ⟨_, rfl⟩, ?_⟩
  intro reply hreply d m a h
  rcases hreply with rfl | rfl | rfl <;> simp [getETA, getDirections] at h

end RoutingService

/-! ### The local ETA (C14) -/

namespace RoutingServiceLeaflet

theorem toFixed_of_nonneg (digits : ℕ) (x : ℝ) (h : 0 ≤ x) :
    toFixed digits x = (⌊x * 10 ^ digits + 1 / 2⌋ : ℝ) / 10 ^ digits := by
  simp [toFixed, not_lt.mpr h]

theorem toFixed_two_near (x : ℝ) (h : 0 ≤ x) :
    x - 1 / 200 < toFixed 2 x ∧ toFixed 2 x ≤ x + 1 / 200 := by
  rw [toFixed_of_nonneg 2 x h]
  have h1 := Int.floor_le (x * 10 ^ 2 + 1 / 2)
  have h2 := Int.lt_floor_add_one (x * 10 ^ 2 + 1 / 2)
  constructor
  · rw [lt_div_iff₀ (by norm_num)]
    linarith
  · rw [div_le_iff₀ (by norm_num)]
    linarith

/-- C14 (counterexample): for two points of the equator a hundred-thousandth of a degree
apart, with the haversine formula evaluated exactly, the record reports the distance 0 and
1 minute, while `ceil(0 / 5 * 60)` is 0. -/
theorem calculateETA_minutes_not_from_reported_distance :
    (calculateETA exactHaversine 0 0 0 (1 / 100000)).distance = some 0 ∧
    (calculateETA exactHaversine 0 0 0 (1 / 100000)).timeMinutes = some 1 ∧
    (calculateETA exactHaversine 0 0 0 (1 / 100000)).timeMinutes
      ≠ (calculateETA exactHaversine 0 0 0 (1 / 100000)).distance.map
          (fun d => ⌈d / 5 * 60⌉) := by
  have hd : haversineDistance 0 0 0 (1 / 100000) = 6371 * (1 / 100000 * Real.pi / 180) := by
    rw [haversineDistance_equator 0 (1 / 100000) (by norm_num [abs_le])]
    norm_num [abs_of_pos]
  have hpi3 := Real.pi_gt_three
  have hpi4 := Real.pi_lt_four
  have hpos : 0 ≤ haversineDistance 0 0 0 (1 / 100000) := by
    rw [hd]
    positivity
  have hdist : (calculateETA exactHaversine 0 0 0 (1 / 100000)).distance = some 0 := by
    simp only [calculateETA, exactHaversine, Option.map_some']
    rw [toFixed_of_nonneg 2 _ hpos, hd]
    have : ⌊6371 * (1 / 100000 * Real.pi / 180) * 10 ^ 2 + 1 / 2⌋ = 0 := by
      rw [Int.floor_eq_iff]
      constructor
      · norm_num
        positivity
      · norm_num
        linarith
    rw [this]
    simp
  have hmin : (calculateETA exactHaversine 0 0 0 (1 / 100000)).timeMinutes = some 1 := by
    simp only [calculateETA, exactHaversine, estimateTravelTime, Option.map_some',
      Option.some.injEq]
    rw [hd, Int.ceil_eq_iff]
    constructor
    · norm_num
      positivity
    · norm_num
      linarith
  refine ⟨hdist, hmin, ?_⟩
  rw [hmin, hdist]
  norm_num

/-- C14 (amended): for every pair of coordinates whose computed haversine distance is a
number `D` (a computed distance is never negative), with the arithmetic on `D` taken
exactly, the duration in minutes of `calculateETA` is `ceil(D / 5 * 60)` for `D` itself;
the distance the record reports is `D` rounded to two decimals, so the duration differs by
at most one minute from `ceil(d / 5 * 60)` for the reported distance `d`. -/
theorem calculateETA_minutes (haversine : ℝ → ℝ → ℝ → ℝ → Option ℝ)
    (startLat startLng endLat endLng D : ℝ)
    (hD : haversine startLat startLng endLat endLng = some D) (hpos : 0 ≤ D) :
    (calculateETA haversine startLat startLng endLat endLng).timeMinutes
      = some ⌈D / 5 * 60⌉ ∧
    (calculateETA haversine startLat startLng endLat endLng).distance
      = some ((⌊D * 100 + 1 / 2⌋ : ℝ) / 100) ∧
    |⌈D / 5 * 60⌉ - ⌈((⌊D * 100 + 1 / 2⌋ : ℝ) / 100) / 5 * 60⌉| ≤ 1 := by
  obtain ⟨hlo, hhi⟩ := toFixed_two_near D hpos
  have hfix : toFixed 2 D = (⌊D * 100 + 1 / 2⌋ : ℝ) / 100 := by
    rw [toFixed_of_nonneg 2 D hpos]
    norm_num
  rw [hfix] at hlo hhi
  refine ⟨?_, ?_, ?_⟩
  · simp only [calculateETA, hD, Option.map_some', estimateTravelTime]
  · simp only [calculateETA, hD, Option.map_some', hfix]
  · rw [abs_le]
    constructor
    · have h1 : ⌈((⌊D * 100 + 1 / 2⌋ : ℝ) / 100) / 5 * 60⌉ ≤ ⌈D / 5 * 60⌉ + 1 := by
        rw [Int.ceil_le]
        have := Int.le_ceil (D / 5 * 60)
        push_cast
        linarith
      omega
    · have h2 : ⌈D / 5 * 60⌉ ≤ ⌈((⌊D * 100 + 1 / 2⌋ : ℝ) / 100) / 5 * 60⌉ + 1 := by
        rw [Int.ceil_le]
        have := Int.le_ceil (((⌊D * 100 + 1 / 2⌋ : ℝ) / 100) / 5 * 60)
        push_cast
        linarith
      omega

/-- C14 at a concrete input: two points of the equator one degree apart, with the
haversine formula evaluated exactly. -/
theorem calculateETA_minutes_witness :
    (calculateETA exactHaversine 0 0 0 1).timeMinutes
      = some ⌈haversineDistance 0 0 0 1 / 5 * 60⌉ ∧
    (calculateETA exactHaversine 0 0 0 1).distance
      = some ((⌊haversineDistance 0 0 0 1 * 100 + 1 / 2⌋ : ℝ) / 100) ∧
    |⌈haversineDistance 0 0 0 1 / 5 * 60⌉
      - ⌈((⌊haversineDistance 0 0 0 1 * 100 + 1 / 2⌋ : ℝ) / 100) / 5 * 60⌉| ≤ 1 :=
  calculateETA_minutes exactHaversine 0 0 0 1 (haversineDistance 0 0 0 1) rfl
    (haversineDistance_nonneg 0 0 0 1)

end RoutingServiceLeaflet

/-! ### Reachable priorities and the second scorer (C27, C28) -/

namespace GeminaiService

/-- C27 (counterexample): for a request whose injury level is 'constructor' the fallback
urgency is `NaN`, every comparison fails and the fallback priority is 'LOW'. -/
theorem calculateFallbackPriority_low_reached :
    calculateFallbackPriority inheritedLevelRequest = "LOW" ∧
    calculateFallbackUrgency inheritedLevelRequest = none := by
  decide

/-- C27 (amended): for every request whose injury level and type are not names of
inherited object properties, the fallback priority is never 'LOW': the fallback urgency is
a number of at least 5, the priority is 'MEDIUM' exactly when the urgency is 5, and
otherwise 'HIGH' or 'CRITICAL'; each of the three is the priority of some such request. -/
theorem calculateFallbackPriority_never_low (request : Request)
    (hlevel : inheritedName request.injuryLevel = false)
    (htype : inheritedName request.type = false) :
    calculateFallbackPriority request ≠ "LOW" ∧
    (∃ n, calculateFallbackUrgency request = some n ∧ 5 ≤ n) ∧
    (calculateFallbackPriority request = "MEDIUM" ↔
      calculateFallbackUrgency request = some 5) ∧
    (calculateFallbackPriority request = "MEDIUM" ∨
      calculateFallbackPriority request = "HIGH" ∨
      calculateFallbackPriority request = "CRITICAL") ∧
    (∃ r : Request, inheritedName r.injuryLevel = false ∧ inheritedName r.type = false ∧
      calculateFallbackPriority r = "MEDIUM") ∧
    (∃ r : Request, inheritedName r.injuryLevel = false ∧ inheritedName r.type = false ∧
      calculateFallbackPriority r = "HIGH") ∧
    (∃ r : Request, inheritedName r.injuryLevel = false ∧ inheritedName r.type = false ∧
      calculateFallbackPriority r = "CRITICAL") := by
  obtain ⟨n, hn, h5, h10⟩ := calculateFallbackUrgency_bounds request hlevel htype
  have hcases : (n = 5 ∧ calculateFallbackPriority request = "MEDIUM") ∨
      (6 ≤ n ∧ (calculateFallbackPriority request = "HIGH" ∨
          calculateFallbackPriority request = "CRITICAL")) := by
    simp only [calculateFallbackPriority, hn, atLeast, decide_eq_true_eq]
    by_cases h8 : n ≥ 8
    · exact Or.inr ⟨by omega, Or.inr (by simp [h8])⟩
    by_cases h6 : n ≥ 6
    · exact Or.inr ⟨h6, Or.inl (by simp [h8, h6])⟩
    · have h4 : n ≥ 4 := by omega
      exact Or.inl ⟨by omega, by simp [h8, h6, h4]⟩
  refine ⟨?_, ⟨n, hn, h5⟩, ?_, ?_,
    ⟨⟨0, 0, none, none, none, none⟩, by decide, by decide, by decide⟩,
    ⟨⟨0, 0, none, none, none, some "minor"⟩, by decide, by decide, by decide⟩,
    ⟨fireRequest, by decide, by decide, by decide⟩⟩
  · rcases hcases with ⟨_, h⟩ | ⟨_, h | h⟩ <;> rw [h] <;> decide
  · rw [hn]
    constructor
    · intro hm
      rcases hcases with ⟨h, _⟩ | ⟨_, h | h⟩
      · rw [h]
      · rw [h] at hm
        exact absurd hm (by decide)
      · rw [h] at hm
        exact absurd hm (by decide)
    · intro h5'
      rcases hcases with ⟨_, h⟩ | ⟨h, _⟩
      · exact h
      · have : n = 5 := Option.some.inj h5'
        omega
  · rcases hcases with ⟨_, h⟩ | ⟨_, h | h⟩
    · exact Or.inl h
    · exact Or.inr (Or.inl h)
    · exact Or.inr (Or.inr h)

/-- C27 at a concrete input: the fire request with critical injuries and ten people. -/
theorem calculateFallbackPriority_never_low_witness :
    calculateFallbackPriority fireRequest ≠ "LOW" ∧
    (∃ n, calculateFallbackUrgency fireRequest = some n ∧ 5 ≤ n) ∧
    (calculateFallbackPriority fireRequest = "MEDIUM" ↔
      calculateFallbackUrgency fireRequest = some 5) ∧
    (calculateFallbackPriority fireRequest = "MEDIUM" ∨
      calculateFallbackPriority fireRequest = "HIGH" ∨
      calculateFallbackPriority fireRequest = "CRITICAL") ∧
    (∃ r : Request, inheritedName r.injuryLevel = false ∧ inheritedName r.type = false ∧
      calculateFallbackPriority r = "MEDIUM") ∧
    (∃ r : Request, inheritedName r.injuryLevel = false ∧ inheritedName r.type = false ∧
      calculateFallbackPriority r = "HIGH") ∧
    (∃ r : Request, inheritedName r.injuryLevel = false ∧ inheritedName r.type = false ∧
      calculateFallbackPriority r = "CRITICAL") :=
  calculateFallbackPriority_never_low fireRequest (by decide) (by decide)

end GeminaiService

namespace DisasterRoutes

/-- C28: the two copies of the urgency scorer agree: for every request,
`calculateUrgencyScore` of `disasterRoutes.js` returns the value of
`calculateFallbackUrgency` of `geminaiService.js`. -/
theorem calculateUrgencyScore_eq_fallback (request : GeminaiService.Request) :
    calculateUrgencyScore request = GeminaiService.calculateFallbackUrgency request := by
  simp only [calculateUrgencyScore, GeminaiService.calculateFallbackUrgency, injuryMap,
    typeUrgency, GeminaiService.injuryMap, GeminaiService.typeUrgency]

end DisasterRoutes

/-! ### Shape of the clusters and depth of the recursion (C26, C29) -/

namespace RoutingService

theorem absorbNear_shape {D : Type} (cmp : Compare D)
    (dist : Destination → Destination → D) (maxPerCluster : Nat) (dest other : Destination)
    (inner : List Destination × List (Option String))
    (h : ∃ rest, inner.1 = dest :: rest ∧ inner.1.length ≤ max maxPerCluster 1 ∧
      ∀ o ∈ rest, cmp.lt (dist dest o) cmp.two = true) :
    ∃ rest, (absorbNear cmp dist maxPerCluster dest inner other).1 = dest :: rest ∧
      (absorbNear cmp dist maxPerCluster dest inner other).1.length ≤ max maxPerCluster 1 ∧
      ∀ o ∈ rest, cmp.lt (dist dest o) cmp.two = true := by
  unfold absorbNear
  by_cases hused : other.id ∈ inner.2
  · rw [if_pos hused]
    exact h
  · rw [if_neg hused]
    by_cases hfull : inner.1.length ≥ maxPerCluster
    · rw [if_pos hfull]
      exact h
    · rw [if_neg hfull]
      by_cases hnear : cmp.lt (dist dest other) cmp.two = true
      · rw [if_pos hnear]
        obtain ⟨rest, h1, h2, h3⟩ := h
        refine ⟨rest ++ [other], by simp [h1], ?_, ?_⟩
        · simp only [List.length_append, List.length_singleton]
          have : inner.1.length + 1 ≤ maxPerCluster := by omega
          exact le_trans this (le_max_left _ _)
        · intro o ho
          rcases List.mem_append.mp ho with ho | ho
          · exact h3 o ho
          · have : o = other := by simpa using ho
            rw [this]
            exact hnear
      · rw [if_neg hnear]
        exact h

theorem startCluster_new {D : Type} (cmp : Compare D)
    (dist : Destination → Destination → D) (destinations : List Destination)
    (maxPerCluster : Nat) (state : List (List Destination) × List (Option String))
    (dest : Destination) (hused : dest.id ∉ state.2) :
    ∃ cluster rest, (startCluster cmp dist destinations maxPerCluster state dest).1
        = state.1 ++ [cluster] ∧
      cluster = dest :: rest ∧ cluster.length ≤ max maxPerCluster 1 ∧
      ∀ o ∈ rest, cmp.lt (dist dest o) cmp.two = true := by
  unfold startCluster
  rw [if_neg hused]
  have hstart : ∃ rest, (([dest], state.2 ++ [dest.id]) :
      List Destination × List (Option String)).1 = dest :: rest ∧
      (([dest], state.2 ++ [dest.id]) : List Destination × List (Option String)).1.length
        ≤ max maxPerCluster 1 ∧
      ∀ o ∈ rest, cmp.lt (dist dest o) cmp.two = true :=
    ⟨[], rfl, by simp, by simp⟩
  have hgrown : ∃ rest,
      (if ([dest], state.2 ++ [dest.id]).1.length < maxPerCluster then
          destinations.foldl (absorbNear cmp dist maxPerCluster dest)
            ([dest], state.2 ++ [dest.id])
        else ([dest], state.2 ++ [dest.id])).1 = dest :: rest ∧
      (if ([dest], state.2 ++ [dest.id]).1.length < maxPerCluster then
          destinations.foldl (absorbNear cmp dist maxPerCluster dest)
            ([dest], state.2 ++ [dest.id])
        else ([dest], state.2 ++ [dest.id])).1.length ≤ max maxPerCluster 1 ∧
      ∀ o ∈ rest, cmp.lt (dist dest o) cmp.two = true := by
    split_ifs
    · exact foldl_invariant
        (fun s : List Destination × List (Option String) =>
          ∃ rest, s.1 = dest :: rest ∧ s.1.length ≤ max maxPerCluster 1 ∧
            ∀ o ∈ rest, cmp.lt (dist dest o) cmp.two = true)
        (absorbNear cmp dist maxPerCluster dest) destinations _ hstart
        (fun s x _ hs => absorbNear_shape cmp dist maxPerCluster dest x s hs)
    · exact hstart
  obtain ⟨rest, h1, h2, h3⟩ := hgrown
  exact ⟨_, rest, rfl, h1, h2, h3⟩

theorem clusterLoop_seeded {D : Type} (cmp : Compare D)
    (dist : Destination → Destination → D) (destinations : List Destination)
    (maxPerCluster : Nat) :
    ∀ (todo done : List Destination)
      (state : List (List Destination) × List (Option String)),
      done ++ todo = destinations →
      Assigned destinations [] [] (state.1.flatten, state.2) →
      (∀ d ∈ done, d.id ∈ state.2) →
      (∀ (k : ℕ) (c : List Destination), state.1[k]? = some c →
        SeededCluster cmp dist destinations maxPerCluster (state.1.take k) c) →
      ∀ (k : ℕ) (c : List Destination),
        (todo.foldl (startCluster cmp dist destinations maxPerCluster) state).1[k]? = some c →
        SeededCluster cmp dist destinations maxPerCluster
          ((todo.foldl (startCluster cmp dist destinations maxPerCluster) state).1.take k) c
  | [], _, state, _, _, _, hgood => by simpa using hgood
  | a :: todo, done, state, hsplit, hassigned, hdone, hgood => by
    simp only [List.foldl_cons]
    have ha : a ∈ destinations := by
      rw [← hsplit]
      exact List.mem_append_right _ (List.mem_cons_self a todo)
    obtain ⟨s1, s2, s3⟩ := startCluster_assigned cmp dist destinations maxPerCluster state a
      ha hassigned
    apply clusterLoop_seeded cmp dist destinations maxPerCluster todo (done ++ [a])
      (startCluster cmp dist destinations maxPerCluster state a) (by simpa using hsplit) s1
    · intro d hd
      rcases List.mem_append.mp hd with hd | hd
      · exact s2 (hdone d hd)
      · have : d = a := by simpa using hd
        rw [this]
        exact s3
    · by_cases hused : a.id ∈ state.2
      · have hsame : startCluster cmp dist destinations maxPerCluster state a = state := by
          unfold startCluster
          rw [if_pos hused]
        rw [hsame]
        exact hgood
      · obtain ⟨cluster, rest, hnew, hc, hlen, hnear⟩ := startCluster_new cmp dist
          destinations maxPerCluster state a hused
        rw [hnew]
        intro k c hk
        by_cases hlt : k < state.1.length
        · rw [List.getElem?_append_left hlt] at hk
          rw [List.take_append_of_le_length (le_of_lt hlt)]
          exact hgood k c hk
        · have hkeq : k = state.1.length := by
            by_contra hne
            rw [List.getElem?_eq_none (by simp; omega)] at hk
            exact Option.noConfusion hk
          subst hkeq
          have hc' : c = cluster := by
            simpa using hk.symm
          rw [List.take_left']
          · refine ⟨a, rest, done, todo, by rw [hc', hc], hsplit.symm, ?_, ?_, by rw [hc']; exact hlen,
              hnear⟩
            · intro d hd
              have := hdone d hd
              rw [hassigned.1] at this
              simpa using this
            · intro hmem
              apply hused
              rw [hassigned.1]
              simpa using hmem
          · rfl

theorem clusterDestinations_seeded {D : Type} (cmp : Compare D)
    (dist : Destination → Destination → D) (destinations : List Destination)
    (maxPerCluster : Nat) (k : ℕ) (c : List Destination)
    (h : (clusterDestinations cmp dist destinations maxPerCluster)[k]? = some c) :
    SeededCluster cmp dist destinations maxPerCluster
      ((clusterDestinations cmp dist destinations maxPerCluster).take k) c :=
  clusterLoop_seeded cmp dist destinations maxPerCluster destinations [] ([], []) rfl
    ⟨by simp, List.nodup_nil, by simp, by simp⟩ (by simp) (by simp) k c h

end RoutingService

namespace RoutingService

theorem sixDestinations_clusters :
    clusterDestinations (Compare.ofLinearOrder ℝ 2) destinationDistance sixDestinations 3
      = [[⟨some "a", 0, 0, none⟩, ⟨some "b", 0, 0, none⟩],
         [⟨some "c", 0, 1, none⟩, ⟨some "d", 0, 1, none⟩, ⟨some "e", 0, 1, none⟩],
         [⟨some "f", 0, 1, none⟩]] := by
  have hfar : ¬ calculateDistance 0 0 0 1 < 2 := by
    rw [calculateDistance_equator 0 1 (by norm_num [abs_le])]
    have hpi := Real.pi_gt_three
    norm_num
    nlinarith
  have hnear0 : calculateDistance 0 0 0 0 < 2 := by
    rw [calculateDistance_self]
    norm_num
  have hnear1 : calculateDistance 0 1 0 1 < 2 := by
    rw [calculateDistance_self]
    norm_num
  have h2 : ((2 : ℝ) : WithTop ℝ) = 2 := rfl
  have hfar' : ¬ ((calculateDistance 0 0 0 1 : ℝ) : WithTop ℝ) < 2 := by
    rw [← h2]
    exact fun hc => hfar (WithTop.coe_lt_coe.mp hc)
  have hnear0' : ((calculateDistance 0 0 0 0 : ℝ) : WithTop ℝ) < 2 := by
    rw [← h2]
    exact WithTop.coe_lt_coe.mpr hnear0
  have hnear1' : ((calculateDistance 0 1 0 1 : ℝ) : WithTop ℝ) < 2 := by
    rw [← h2]
    exact WithTop.coe_lt_coe.mpr hnear1
  simp [clusterDestinations, startCluster, absorbNear, sixDestinations, Compare.ofLinearOrder,
    destinationDistance, hfar', hnear0', hnear1']

/-- C26: for every destination list and every `maxPerCluster >= 1`, each cluster returned
by `clusterDestinations` is non-empty, has at most `maxPerCluster` members, starts with its
seed, which is the first destination of the input whose id the earlier clusters have not
used, and every other member is less than 2 km, in haversine distance over the reals, from
that seed. -/
theorem clusterDestinations_cluster_shape (destinations : List Destination)
    (maxPerCluster : Nat) (hmax : 1 ≤ maxPerCluster) (k : ℕ) (c : List Destination)
    (h : (clusterDestinations (Compare.ofLinearOrder ℝ 2) destinationDistance destinations
      maxPerCluster)[k]? = some c) :
    ∃ (seed : Destination) (rest before after : List Destination),
      c = seed :: rest ∧ c ≠ [] ∧ c.length ≤ maxPerCluster ∧
      destinations = before ++ seed :: after ∧
      (∀ d ∈ before, d.id ∈ (((clusterDestinations (Compare.ofLinearOrder ℝ 2)
        destinationDistance destinations maxPerCluster).take k).flatten.map
          (fun e => e.id))) ∧
      seed.id ∉ (((clusterDestinations (Compare.ofLinearOrder ℝ 2) destinationDistance
        destinations maxPerCluster).take k).flatten.map (fun e => e.id)) ∧
      ∀ other ∈ rest,
        calculateDistance (seed.lat : ℝ) (seed.lng : ℝ) (other.lat : ℝ) (other.lng : ℝ) < 2 := by
  obtain ⟨seed, rest, before, after, h1, h2, h3, h4, h5, h6⟩ :=
    clusterDestinations_seeded (Compare.ofLinearOrder ℝ 2) destinationDistance destinations
      maxPerCluster k c h
  refine ⟨seed, rest, before, after, h1, by simp [h1], ?_, h2, h3, h4, ?_⟩
  · rw [max_eq_left hmax] at h5
    exact h5
  · intro other hother
    have := h6 other hother
    simp only [Compare.ofLinearOrder, destinationDistance, decide_eq_true_eq] at this
    exact_mod_cast this

/-- C26 at a concrete input: six destinations, two at one place and four at another, with
at most three per cluster. The second cluster starts with 'c', the first destination the
first cluster has not used; 'c' is too far from 'a' to join the first cluster, and 'f',
although at the place of 'c', is left out of the full cluster. -/
theorem clusterDestinations_cluster_shape_witness :
    clusterDestinations (Compare.ofLinearOrder ℝ 2) destinationDistance sixDestinations 3
      = [[⟨some "a", 0, 0, none⟩, ⟨some "b", 0, 0, none⟩],
         [⟨some "c", 0, 1, none⟩, ⟨some "d", 0, 1, none⟩, ⟨some "e", 0, 1, none⟩],
         [⟨some "f", 0, 1, none⟩]] ∧
    ∃ (seed : Destination) (rest before after : List Destination),
      [(⟨some "c", 0, 1, none⟩ : Destination), ⟨some "d", 0, 1, none⟩,
          ⟨some "e", 0, 1, none⟩] = seed :: rest ∧
      [(⟨some "c", 0, 1, none⟩ : Destination), ⟨some "d", 0, 1, none⟩,
          ⟨some "e", 0, 1, none⟩] ≠ [] ∧
      [(⟨some "c", 0, 1, none⟩ : Destination), ⟨some "d", 0, 1, none⟩,
          ⟨some "e", 0, 1, none⟩].length ≤ 3 ∧
      sixDestinations = before ++ seed :: after ∧
      (∀ d ∈ before, d.id ∈ (((clusterDestinations (Compare.ofLinearOrder ℝ 2)
        destinationDistance sixDestinations 3).take 1).flatten.map (fun e => e.id))) ∧
      seed.id ∉ (((clusterDestinations (Compare.ofLinearOrder ℝ 2) destinationDistance
        sixDestinations 3).take 1).flatten.map (fun e => e.id)) ∧
      ∀ other ∈ rest,
        calculateDistance (seed.lat : ℝ) (seed.lng : ℝ) (other.lat : ℝ) (other.lng : ℝ) < 2 :=
  ⟨sixDestinations_clusters,
    clusterDestinations_cluster_shape sixDestinations 3 (by decide) 1
      [⟨some "c", 0, 1, none⟩, ⟨some "d", 0, 1, none⟩, ⟨some "e", 0, 1, none⟩]
      (by rw [sixDestinations_clusters]; rfl)⟩

theorem clusterDestinations_size {D : Type} (cmp : Compare D)
    (dist : Destination → Destination → D) (destinations : List Destination)
    (maxPerCluster : Nat) (c : List Destination)
    (hc : c ∈ clusterDestinations cmp dist destinations maxPerCluster) :
    c ≠ [] ∧ c.length ≤ max maxPerCluster 1 := by
  obtain ⟨k, hk⟩ := List.mem_iff_getElem?.mp hc
  obtain ⟨seed, rest, _, _, h1, _, _, _, h5, _⟩ :=
    clusterDestinations_seeded cmp dist destinations maxPerCluster k c hk
  exact ⟨by simp [h1], h5⟩

theorem optimizeRouteClustered_congr (f g : List Destination → Option RouteResult) :
    ∀ (clusters : List (List Destination)), (∀ c ∈ clusters, f c = g c) →
      optimizeRouteClustered f clusters = optimizeRouteClustered g clusters := by
  intro clusters h
  unfold optimizeRouteClustered
  congr 1
  apply List.foldl_ext
  intro acc c hc
  simp only [addClusterRoute, h c hc]

theorem addClusterRoute_some (f : List Destination → Option RouteResult) :
    ∀ (clusters : List (List Destination)) (acc : List Stop × Nat × Nat),
      (∀ c ∈ clusters, ∃ r, f c = some r) →
      ∃ sums, clusters.foldl (addClusterRoute f) (some acc) = some sums
  | [], acc, _ => ⟨acc, rfl⟩
  | c :: clusters, acc, h => by
    obtain ⟨r, hr⟩ := h c (List.mem_cons_self c clusters)
    simp only [List.foldl_cons, addClusterRoute, hr]
    exact addClusterRoute_some f clusters _
      (fun c' hc' => h c' (List.mem_cons_of_mem c hc'))

/-- C29: the recursion between `optimizeRescueRoute` and `optimizeRouteClustered`
terminates for every destination list. Every cluster made with `maxPerCluster` 5 has
between 1 and 5 destinations, so the call for a cluster never clusters again: a recursion
depth of one (fuel 2) gives a result, and more fuel gives the same result. -/
theorem optimizeRescueRoute_terminates {D : Type} (cmp : Compare D)
    (dist : Destination → Destination → D)
    (getDistanceMatrix : Origin → List Destination → Except String DistanceMatrix)
    (origin : Origin) (destinations : List Destination) (fuel : Nat) :
    (∀ c ∈ clusterDestinations cmp dist destinations 5, 1 ≤ c.length ∧ c.length ≤ 5) ∧
    (∃ r, optimizeRescueRoute cmp dist getDistanceMatrix 2 origin (some destinations)
      = some r) ∧
    optimizeRescueRoute cmp dist getDistanceMatrix (fuel + 2) origin (some destinations)
      = optimizeRescueRoute cmp dist getDistanceMatrix 2 origin (some destinations) := by
  have hsize : ∀ c ∈ clusterDestinations cmp dist destinations 5,
      1 ≤ c.length ∧ c.length ≤ 5 := by
    intro c hc
    obtain ⟨hne, hlen⟩ := clusterDestinations_size cmp dist destinations 5 c hc
    have : c.length ≠ 0 := fun h0 => hne (List.length_eq_zero.mp h0)
    exact ⟨by omega, by simpa using hlen⟩
  have hsmall : ∀ (n : Nat), ∀ c ∈ clusterDestinations cmp dist destinations 5,
      optimizeRescueRoute cmp dist getDistanceMatrix (n + 1) origin (some c)
        = some (directOrError origin c (getDistanceMatrix origin c)) := by
    intro n c hc
    obtain ⟨hne, hlen⟩ := clusterDestinations_size cmp dist destinations 5 c hc
    exact optimizeRescueRoute_small cmp dist getDistanceMatrix n origin c hne
      (by have : c.length ≤ 5 := by simpa using hlen
          omega)
  refine ⟨hsize, ?_, ?_⟩
  · by_cases hne : destinations = []
    · subst hne
      exact ⟨_, rfl⟩
    by_cases h25 : destinations.length > 25
    · rw [optimizeRescueRoute_large cmp dist getDistanceMatrix 1 origin destinations h25]
      obtain ⟨sums, hs⟩ := addClusterRoute_some
        (fun cluster => optimizeRescueRoute cmp dist getDistanceMatrix 1 origin (some cluster))
        (clusterDestinations cmp dist destinations 5) ([], 0, 0)
        (fun c hc => ⟨_, hsmall 0 c hc⟩)
      simp only [optimizeRouteClustered, hs, Option.map_some']
      exact ⟨_, rfl⟩
    · rw [optimizeRescueRoute_small cmp dist getDistanceMatrix 1 origin destinations hne
        (by omega)]
      exact ⟨_, rfl⟩
  · by_cases hne : destinations = []
    · subst hne
      simp [optimizeRescueRoute]
    by_cases h25 : destinations.length > 25
    · rw [optimizeRescueRoute_large cmp dist getDistanceMatrix (fuel + 1) origin destinations
          h25,
        optimizeRescueRoute_large cmp dist getDistanceMatrix 1 origin destinations h25]
      apply optimizeRouteClustered_congr
      intro c hc
      rw [hsmall fuel c hc, hsmall 0 c hc]
    · rw [optimizeRescueRoute_small cmp dist getDistanceMatrix (fuel + 1) origin destinations
          hne (by omega),
        optimizeRescueRoute_small cmp dist getDistanceMatrix 1 origin destinations hne
          (by omega)]

end RoutingService

/-! ### Route shape and totals of the distance-matrix route (C30) -/

namespace RoutingService

theorem tour_shape (n : Nat) (row0 : Row) (others : List Row) :
    ∃ visited : List Int, solveNearestNeighbor n row0 others = (-1 :: visited) ++ [-1] ∧
      ∀ i ∈ visited, i ≠ -1 := by
  have hinv := foldl_invariant
    (fun st : TourState => ∃ visited : List Int, st.route = -1 :: visited ∧
      ∀ i ∈ visited, i ≠ -1)
    (fun (st : TourState) (_ : Nat) =>
      let nearestIdx := nearestUnvisited row0 others n st.visited st.currentIdx
      if nearestIdx ≠ -1 then
        { visited := st.visited.set nearestIdx.toNat true
          route := st.route ++ [nearestIdx]
          currentIdx := nearestIdx }
      else st)
    (List.range n)
    { visited := List.replicate n false, route := [-1], currentIdx := -1 }
    ⟨[], rfl, by simp⟩
    (by
      intro st x _ hst
      obtain ⟨visited, h1, h2⟩ := hst
      by_cases hne : nearestUnvisited row0 others n st.visited st.currentIdx ≠ -1
      · simp only [hne, ne_eq, not_false_eq_true, if_true]
        refine ⟨visited ++ [nearestUnvisited row0 others n st.visited st.currentIdx],
          by simp [h1], ?_⟩
        intro i hi
        rcases List.mem_append.mp hi with hi | hi
        · exact h2 i hi
        · have : i = nearestUnvisited row0 others n st.visited st.currentIdx := by
            simpa using hi
          rw [this]
          exact hne
      · simp only [hne, if_false]
        exact ⟨visited, h1, h2⟩)
  obtain ⟨visited, h1, h2⟩ := hinv
  exact ⟨visited, by simp only [solveNearestNeighbor, h1], h2⟩

theorem sumHops_return_leg (row0 : Row) (others : List Row) :
    ∀ (tour : List Int) (x : Int) (acc : Nat × Nat),
      (∀ l, (x :: tour).getLast? = some l → l ≠ -1) →
      sumHops row0 others (x :: tour ++ [-1]) acc = sumHops row0 others (x :: tour) acc
  | [], x, acc, hlast => by
    have hx : x ≠ -1 := hlast x rfl
    simp [sumHops, hx]
  | y :: tour, x, (totalDistance, totalDuration), hlast => by
    have ih := fun acc => sumHops_return_leg row0 others tour y acc
      (fun l hl => hlast l (by simpa using hl))
    simp only [List.cons_append] at ih ⊢
    simp only [sumHops, ih]

theorem tour_last_ne (visited : List Int) (h : ∀ i ∈ visited, i ≠ -1) (hne : visited ≠ []) :
    ∀ l, ((-1 : Int) :: visited).getLast? = some l → l ≠ -1 := by
  intro l hl
  cases visited with
  | nil => exact absurd rfl hne
  | cons v vs =>
    rw [List.getLast?_cons_cons] at hl
    exact h l (List.mem_of_getLast?_eq_some hl)

/-- C30 (as stated, refuted): a lookup that succeeds with distance 0 for the only
destination gives a route that is the origin followed by the destination: it does not end
with the origin (and the result carries an error). -/
theorem optimizeRescueRoute_route_may_not_return :
    (optimizeRescueRoute (Compare.ofLinearOrder ℝ 2) destinationDistance zeroDistanceLookup
        1 exampleOrigin (some oneDestination)).map (fun r => (r.route, r.error))
      = some ([Stop.origin exampleOrigin, Stop.destination ⟨some "a", 0, 1, none⟩],
          some Thrown.typeError) ∧
    [Stop.origin exampleOrigin, Stop.destination ⟨some "a", 0, 1, none⟩].getLast?
      ≠ some (Stop.origin exampleOrigin) := by
  refine ⟨?_, by decide⟩
  rw [optimizeRescueRoute_small _ _ _ 0 _ _ (by decide) (by decide)]
  decide

/-- C30 (amended): for 1 to 25 destinations and a lookup that answers with rows, whenever
the result carries no error, the returned route begins and ends with the origin, and the
totals are the rounded sums (metres / 1000 and seconds / 60) over the hops of the tour
without its return to the origin: the tour is the origin marker followed by destination
indices only, and the final hop back to the origin adds nothing to either total. -/
theorem optimizeRescueRoute_totals_exclude_return {D : Type} (cmp : Compare D)
    (dist : Destination → Destination → D)
    (getDistanceMatrix : Origin → List Destination → Except String DistanceMatrix)
    (fuel : Nat) (origin : Origin) (destinations : List Destination) (row0 : Row)
    (others : List Row) (r : RouteResult)
    (hne : destinations ≠ []) (h25 : destinations.length ≤ 25)
    (hlookup : getDistanceMatrix origin destinations = .ok ⟨some (row0 :: others)⟩)
    (hres : optimizeRescueRoute cmp dist getDistanceMatrix (fuel + 1) origin
      (some destinations) = some r)
    (herr : r.error = none) :
    ∃ (stops : List Stop) (visited : List Int) (totalDistance totalDuration : Nat),
      r.route = Stop.origin origin :: (stops ++ [Stop.origin origin]) ∧
      solveNearestNeighbor destinations.length row0 others = (-1 :: visited) ++ [-1] ∧
      (∀ i ∈ visited, i ≠ -1) ∧
      sumHops row0 others (-1 :: visited) (0, 0) = .ok (totalDistance, totalDuration) ∧
      sumHops row0 others ((-1 :: visited) ++ [-1]) (0, 0)
        = .ok (totalDistance, totalDuration) ∧
      r.totalDistance = roundDiv totalDistance 1000 ∧
      r.totalDuration = roundDiv totalDuration 60 := by
  rw [optimizeRescueRoute_small cmp dist getDistanceMatrix fuel origin destinations hne h25,
    hlookup] at hres
  obtain ⟨visited, htour, hvisited⟩ := tour_shape destinations.length row0 others
  simp only [directOrError, optimizeDirect, htour] at hres
  cases hsum : sumHops row0 others ((-1 :: visited) ++ [-1]) (0, 0) with
  | error e =>
    rw [hsum] at hres
    simp only [Option.some.injEq] at hres
    rw [← hres] at herr
    simp [errorResult] at herr
  | ok totals =>
    obtain ⟨totalDistance, totalDuration⟩ := totals
    rw [hsum] at hres
    simp only [Option.some.injEq] at hres
    have hvne : visited ≠ [] := by
      intro hnil
      rw [hnil] at hsum
      simp [sumHops] at hsum
    have hleg := sumHops_return_leg row0 others visited (-1) (0, 0)
      (tour_last_ne visited hvisited hvne)
    refine ⟨visited.filterMap (fun idx =>
        if idx = -1 then some (Stop.origin origin)
        else (destinations[idx.toNat]?).map Stop.destination),
      visited, totalDistance, totalDuration, ?_, htour, hvisited, ?_, hsum, ?_, ?_⟩
    · rw [← hres]
      simp [List.filterMap_append]
    · rw [← hleg]
      exact hsum
    · rw [← hres]
    · rw [← hres]

/-- C30 at a concrete input: two destinations and a lookup that answers one row. -/
theorem optimizeRescueRoute_totals_exclude_return_witness :
    ∃ (stops : List Stop) (visited : List Int) (totalDistance totalDuration : Nat),
      (directOrError exampleOrigin twoDestinations
          (oneRowLookup exampleOrigin twoDestinations)).route
        = Stop.origin exampleOrigin :: (stops ++ [Stop.origin exampleOrigin]) ∧
      solveNearestNeighbor twoDestinations.length
          ⟨twoDestinations.map (fun _ => ⟨some 1000, some 60⟩)⟩ []
        = (-1 :: visited) ++ [-1] ∧
      (∀ i ∈ visited, i ≠ -1) ∧
      sumHops ⟨twoDestinations.map (fun _ => ⟨some 1000, some 60⟩)⟩ [] (-1 :: visited) (0, 0)
        = .ok (totalDistance, totalDuration) ∧
      sumHops ⟨twoDestinations.map (fun _ => ⟨some 1000, some 60⟩)⟩ []
          ((-1 :: visited) ++ [-1]) (0, 0)
        = .ok (totalDistance, totalDuration) ∧
      (directOrError exampleOrigin twoDestinations
          (oneRowLookup exampleOrigin twoDestinations)).totalDistance
        = roundDiv totalDistance 1000 ∧
      (directOrError exampleOrigin twoDestinations
          (oneRowLookup exampleOrigin twoDestinations)).totalDuration
        = roundDiv totalDuration 60 :=
  optimizeRescueRoute_totals_exclude_return (Compare.ofLinearOrder ℝ 2) destinationDistance
    oneRowLookup 0 exampleOrigin twoDestinations
    ⟨twoDestinations.map (fun _ => ⟨some 1000, some 60⟩)⟩ []
    (directOrError exampleOrigin twoDestinations (oneRowLookup exampleOrigin twoDestinations))
    (by decide) (by decide) rfl
    (optimizeRescueRoute_small _ _ _ 0 _ _ (by decide) (by decide))
    (by decide)

end RoutingService

/-! ### Assignments in the database (C21 to C25) -/

namespace FirebaseService

theorem lookup_upsert {α : Type} (key : String) (value : α) :
    ∀ (l : List (String × α)) (k : String),
      (upsert key value l).lookup k = if k = key then some value else l.lookup k
  | [], k => by
    by_cases h : k = key
    · simp [upsert, List.lookup, h]
    · simp [upsert, List.lookup, h, beq_false_of_ne h]
  | (k0, v0) :: rest, k => by
    by_cases h0 : k0 = key
    · subst h0
      by_cases h : k = k0
      · simp [upsert, List.lookup, h]
      · simp [upsert, List.lookup, h, beq_false_of_ne h]
    · by_cases h : k = key
      · subst h
        have hk : (k == k0) = false := beq_false_of_ne (fun e => h0 e.symm)
        simp [upsert, List.lookup, h0, hk, lookup_upsert k value rest k]
      · by_cases hk0 : k = k0
        · simp [upsert, List.lookup, h0, hk0]
        · simp [upsert, List.lookup, h0, h, beq_false_of_ne hk0,
            lookup_upsert key value rest k]

theorem lookup_update_self (collection : List (String × Record)) (id : String)
    (value : Record) :
    (update collection id value).lookup id
      = some (spread ((collection.lookup id).getD []) value) := by
  simp [update, lookup_upsert]

theorem lookup_update_other (collection : List (String × Record)) (id other : String)
    (value : Record) (h : other ≠ id) :
    (update collection id value).lookup other = collection.lookup other := by
  simp [update, lookup_upsert, h]

end FirebaseService

namespace AiRoutes

open FirebaseService

/-- C21 (as stated, refuted): two match calls for the same open request, one millisecond
apart, both succeed, and afterwards the request has two active assignments. -/
theorem postMatch_twice_two_active :
    (postMatch firstClock (.threw "down") none exampleStore (some "r1") (some "v1")).1
      = .ok [("success", .flag true), ("assignmentId", .text "1")] ∧
    (postMatch secondClock (.threw "down") none
        (postMatch firstClock (.threw "down") none exampleStore (some "r1") (some "v1")).2
        (some "r1") (some "v1")).1
      = .ok [("success", .flag true), ("assignmentId", .text "2")] ∧
    activeAssignmentsOf
      (postMatch secondClock (.threw "down") none
        (postMatch firstClock (.threw "down") none exampleStore (some "r1") (some "v1")).2
        (some "r1") (some "v1")).2 "r1" = ["1", "2"] := by
  decide

end AiRoutes

namespace AiRoutes

open FirebaseService

/-- The database after a match that finds the request and the volunteer. -/
theorem postMatch_store (clock : Clock) (reply : RoutingService.DirectionsReply)
    (sendFails : Option String) (store : Store) (requestId volunteerId : String)
    (request volunteer : Record) (hrid : requestId ≠ "") (hvid : volunteerId ≠ "")
    (hreq : (getDisasterRequests store).find?
      (fun r => r.lookup "id" == some (.text requestId)) = some request)
    (hvol : store.users.lookup volunteerId = some volunteer) :
    (postMatch clock reply sendFails store (some requestId) (some volunteerId)).2
      = { store with
          assignments := (createAssignment clock store.assignments
            (matchAssignment clock (RoutingService.getETA clock.millis reply)
              requestId volunteerId request volunteer)) } := by
  have hids : ¬ (requestId = "" ∨ volunteerId = "") := by
    intro h
    rcases h with h | h
    · exact hrid h
    · exact hvid h
  simp only [postMatch, hids, if_false, hreq, hvol]
  split_ifs
  · cases sendFails <;> rfl
  · rfl
  · rfl

/-- C21 (amended): the match operation neither rejects nor supersedes an earlier assignment
of the request. For every database in which the request and the volunteer are found, it
stores a new assignment under the id of the clock, in status 'assigned' for that request
and volunteer, and leaves the assignments stored under every other id as they were; it
answers with a success, or with status 500 when the notification fails after the
assignment is stored. -/
theorem postMatch_always_creates (clock : Clock) (reply : RoutingService.DirectionsReply)
    (sendFails : Option String) (store : Store) (requestId volunteerId : String)
    (request volunteer : Record) (hrid : requestId ≠ "") (hvid : volunteerId ≠ "")
    (hreq : (getDisasterRequests store).find?
      (fun r => r.lookup "id" == some (.text requestId)) = some request)
    (hvol : store.users.lookup volunteerId = some volunteer) :
    ∃ created : Record,
      (postMatch clock reply sendFails store (some requestId)
        (some volunteerId)).2.assignments.lookup clock.key = some created ∧
      created.lookup "status" = some (.text "assigned") ∧
      created.lookup "requestId" = some (.text requestId) ∧
      created.lookup "volunteerId" = some (.text volunteerId) ∧
      (∀ other : String, other ≠ clock.key →
        (postMatch clock reply sendFails store (some requestId)
          (some volunteerId)).2.assignments.lookup other = store.assignments.lookup other) ∧
      ((postMatch clock reply sendFails store (some requestId) (some volunteerId)).1
          = .ok [("success", .flag true), ("assignmentId", .text clock.key)] ∨
        ∃ message, (postMatch clock reply sendFails store (some requestId)
          (some volunteerId)).1 = .error 500 message) := by
  rw [postMatch_store clock reply sendFails store requestId volunteerId request volunteer
    hrid hvid hreq hvol]
  refine ⟨spread (matchAssignment clock (RoutingService.getETA clock.millis reply)
      requestId volunteerId request volunteer)
    [("createdAt", .text clock.stamp), ("status", .text "assigned")], ?_, ?_, ?_, ?_, ?_, ?_⟩
  · simp only [createAssignment, FirebaseService.set, lookup_upsert, if_true]
  · simp [spread, lookup_upsert]
  · simp [spread, lookup_upsert, matchAssignment, List.lookup]
  · simp [spread, lookup_upsert, matchAssignment, List.lookup]
  · intro other hother
    simp only [createAssignment, FirebaseService.set, lookup_upsert, if_neg hother]
  · have hids : ¬ (requestId = "" ∨ volunteerId = "") := by
      intro h
      rcases h with h | h
      · exact hrid h
      · exact hvid h
    simp only [postMatch, hids, if_false, hreq, hvol]
    split_ifs
    · cases sendFails
      · exact Or.inl rfl
      · exact Or.inr ⟨_, rfl⟩
    · exact Or.inr ⟨_, rfl⟩
    · exact Or.inl rfl

/-- C21 at a concrete input: the first match of the open request of the example. -/
theorem postMatch_always_creates_witness :
    ∃ created : Record,
      (postMatch firstClock (.threw "down") none exampleStore (some "r1")
        (some "v1")).2.assignments.lookup firstClock.key = some created ∧
      created.lookup "status" = some (.text "assigned") ∧
      created.lookup "requestId" = some (.text "r1") ∧
      created.lookup "volunteerId" = some (.text "v1") ∧
      (∀ other : String, other ≠ firstClock.key →
        (postMatch firstClock (.threw "down") none exampleStore (some "r1")
          (some "v1")).2.assignments.lookup other = exampleStore.assignments.lookup other) ∧
      ((postMatch firstClock (.threw "down") none exampleStore (some "r1") (some "v1")).1
          = .ok [("success", .flag true), ("assignmentId", .text firstClock.key)] ∨
        ∃ message, (postMatch firstClock (.threw "down") none exampleStore (some "r1")
          (some "v1")).1 = .error 500 message) :=
  postMatch_always_creates firstClock (.threw "down") none exampleStore "r1" "v1"
    [("id", .text "r1"), ("userId", .text "u1"), ("latitude", .number "1"),
      ("longitude", .number "2"), ("type", .text "fire"), ("status", .text "open")]
    [("name", .text "Asha")] (by decide) (by decide) (by decide) (by decide)

end AiRoutes

namespace VolunteerRoutes

open FirebaseService

/-- C22 (counterexample): completing the assignment `a1`, whose status is 'assigned' and
which was never accepted, is answered with a success, and both the assignment and the
linked request `r1` end in status 'completed'. -/
theorem postComplete_accepts_unaccepted :
    (postComplete AiRoutes.firstClock (AiRoutes.storeWithAssignment "assigned") "v1" "a1"
        none none).1
      = .ok [("success", .flag true), ("message", .text "Assignment completed")] ∧
    ((postComplete AiRoutes.firstClock (AiRoutes.storeWithAssignment "assigned") "v1" "a1"
        none none).2.assignments.lookup "a1").bind (fun a => a.lookup "status")
      = some (.text "completed") ∧
    ((AiRoutes.storeWithAssignment "assigned").disasterRequests.lookup "r1").bind
        (fun r => r.lookup "status") = some (.text "open") ∧
    ((postComplete AiRoutes.firstClock (AiRoutes.storeWithAssignment "assigned") "v1" "a1"
        none none).2.disasterRequests.lookup "r1").bind (fun r => r.lookup "status")
      = some (.text "completed") := by
  decide

/-- C22 (amended): the complete operation does not look at the current status. For every
database, volunteer id and assignment id it answers with a success, and afterwards the
assignment stored under that id has status 'completed' and names the volunteer as
`completedBy`. -/
theorem postComplete_always_completes (clock : Clock) (store : Store)
    (volunteerId assignmentId : String) (notes victimSafetyStatus : Option String) :
    (postComplete clock store volunteerId assignmentId notes victimSafetyStatus).1
      = .ok [("success", .flag true), ("message", .text "Assignment completed")] ∧
    ∃ completed : Record,
      (postComplete clock store volunteerId assignmentId notes
        victimSafetyStatus).2.assignments.lookup assignmentId = some completed ∧
      completed.lookup "status" = some (.text "completed") ∧
      completed.lookup "completedBy" = some (.text volunteerId) := by
  refine ⟨rfl, _, lookup_update_self store.assignments assignmentId _, ?_, ?_⟩
  · simp [spread, lookup_upsert]
  · simp [spread, lookup_upsert]

/-- C23 (counterexample): completing the unknown assignment id 'a9' stores a record without
a volunteerId; volunteer 'v2', who is not the volunteer of that record, then accepts it and
is answered with a success, and the stored record changes to status 'in_progress'. -/
theorem postAccept_without_volunteer_accepted :
    ((postComplete AiRoutes.firstClock AiRoutes.exampleStore "v1" "a9" none
        none).2.assignments.lookup "a9").bind (fun a => a.lookup "volunteerId") = none ∧
    (postAccept AiRoutes.secondClock (.threw "down")
        (postComplete AiRoutes.firstClock AiRoutes.exampleStore "v1" "a9" none none).2
        "v2" "a9").1
      = .ok [("success", .flag true), ("message", .text "Assignment accepted"),
          ("assignmentId", .text "a9")] ∧
    ((postAccept AiRoutes.secondClock (.threw "down")
        (postComplete AiRoutes.firstClock AiRoutes.exampleStore "v1" "a9" none none).2
        "v2" "a9").2.assignments.lookup "a9").bind (fun a => a.lookup "status")
      = some (.text "in_progress") ∧
    ((postComplete AiRoutes.firstClock AiRoutes.exampleStore "v1" "a9" none
        none).2.assignments.lookup "a9").bind (fun a => a.lookup "status")
      = some (.text "completed") := by
  decide

/-- C23 (amended): when the stored assignment has a volunteerId and it is not the accepting
volunteer, accept is rejected with status 400 and the database, hence the stored
assignment, is left as it was. -/
theorem postAccept_other_volunteer_rejected (clock : Clock)
    (reply : RoutingService.DirectionsReply) (store : Store)
    (volunteerId assignmentId : String) (assignment : Record)
    (hfound : store.assignments.lookup assignmentId = some assignment)
    (hset : truthy (assignment.lookup "volunteerId") = true)
    (hother : assignment.lookup "volunteerId" ≠ some (.text volunteerId)) :
    postAccept clock reply store volunteerId assignmentId
      = (.error 400 "Assignment belongs to another volunteer", store) := by
  have hne : (assignment.lookup "volunteerId" != some (.text volunteerId)) = true := by
    simpa using hother
  simp only [postAccept, hfound, hset, hne, Bool.and_self, if_true]

/-- C23 at a concrete input: volunteer `v2` accepts the assignment of volunteer `v1`. -/
theorem postAccept_other_volunteer_rejected_witness :
    postAccept AiRoutes.firstClock (.threw "down") (AiRoutes.storeWithAssignment "assigned")
        "v2" "a1"
      = (.error 400 "Assignment belongs to another volunteer",
          AiRoutes.storeWithAssignment "assigned") :=
  postAccept_other_volunteer_rejected AiRoutes.firstClock (.threw "down")
    (AiRoutes.storeWithAssignment "assigned") "v2" "a1"
    [("volunteerId", .text "v1"), ("requestId", .text "r1"), ("status", .text "assigned")]
    (by decide) (by decide) (by decide)

/-- C24 (counterexample): accept by the matched volunteer succeeds on an assignment whose
status is 'completed', and on one whose status is 'in_progress'; each ends in status
'in_progress'. -/
theorem postAccept_moves_completed_back :
    (postAccept AiRoutes.firstClock (.threw "down") (AiRoutes.storeWithAssignment "completed")
        "v1" "a1").1
      = .ok [("success", .flag true), ("message", .text "Assignment accepted"),
          ("assignmentId", .text "a1")] ∧
    ((postAccept AiRoutes.firstClock (.threw "down") (AiRoutes.storeWithAssignment "completed")
        "v1" "a1").2.assignments.lookup "a1").bind (fun a => a.lookup "status")
      = some (.text "in_progress") ∧
    (postAccept AiRoutes.firstClock (.threw "down")
        (AiRoutes.storeWithAssignment "in_progress") "v1" "a1").1
      = .ok [("success", .flag true), ("message", .text "Assignment accepted"),
          ("assignmentId", .text "a1")] := by
  decide

/-- C24 (amended): accept does not look at the current status. Whenever the assignment
exists and its volunteerId is the accepting volunteer, whatever the status of the
assignment, accept answers with a success and the stored assignment has status
'in_progress' afterwards. -/
theorem postAccept_from_any_status (clock : Clock) (reply : RoutingService.DirectionsReply)
    (store : Store) (volunteerId assignmentId : String) (assignment : Record)
    (hfound : store.assignments.lookup assignmentId = some assignment)
    (howner : assignment.lookup "volunteerId" = some (.text volunteerId)) :
    (postAccept clock reply store volunteerId assignmentId).1
      = .ok [("success", .flag true), ("message", .text "Assignment accepted"),
          ("assignmentId", .text assignmentId)] ∧
    ∃ accepted : Record,
      (postAccept clock reply store volunteerId assignmentId).2.assignments.lookup assignmentId
        = some accepted ∧
      accepted.lookup "status" = some (.text "in_progress") := by
  have hsame : (assignment.lookup "volunteerId" != some (.text volunteerId)) = false := by
    simp [howner]
  simp only [postAccept, hfound, hsame, Bool.and_false, Bool.false_eq_true, if_false]
  refine ⟨trivial, _, lookup_update_self store.assignments assignmentId _, ?_⟩
  simp [spread, lookup_upsert]

/-- C24 at a concrete input: the completed assignment `a1`, accepted by its volunteer. -/
theorem postAccept_from_any_status_witness :
    (postAccept AiRoutes.firstClock (.threw "down") (AiRoutes.storeWithAssignment "completed")
        "v1" "a1").1
      = .ok [("success", .flag true), ("message", .text "Assignment accepted"),
          ("assignmentId", .text "a1")] ∧
    ∃ accepted : Record,
      (postAccept AiRoutes.firstClock (.threw "down")
          (AiRoutes.storeWithAssignment "completed") "v1" "a1").2.assignments.lookup "a1"
        = some accepted ∧
      accepted.lookup "status" = some (.text "in_progress") :=
  postAccept_from_any_status AiRoutes.firstClock (.threw "down")
    (AiRoutes.storeWithAssignment "completed") "v1" "a1"
    [("volunteerId", .text "v1"), ("requestId", .text "r1"), ("status", .text "completed")]
    (by decide) (by decide)

/-- C25: after complete on an assignment that carries a requestId, the response is a
success, the stored assignment has status 'completed', the linked request has status
'completed', every field of that request other than status, updatedBy and updatedAt reads
as before, and every other request is untouched. -/
theorem postComplete_completes_request (clock : Clock) (store : Store)
    (volunteerId assignmentId : String) (notes victimSafetyStatus : Option String)
    (assignment : Record) (requestId : String)
    (hfound : store.assignments.lookup assignmentId = some assignment)
    (hlinked : assignment.lookup "requestId" = some (.text requestId))
    (hid : requestId ≠ "") :
    (postComplete clock store volunteerId assignmentId notes victimSafetyStatus).1
      = .ok [("success", .flag true), ("message", .text "Assignment completed")] ∧
    (∃ completed : Record,
      (postComplete clock store volunteerId assignmentId notes
        victimSafetyStatus).2.assignments.lookup assignmentId = some completed ∧
      completed.lookup "status" = some (.text "completed")) ∧
    (∃ request : Record,
      (postComplete clock store volunteerId assignmentId notes
        victimSafetyStatus).2.disasterRequests.lookup requestId = some request ∧
      request.lookup "status" = some (.text "completed") ∧
      request.lookup "updatedBy" = some (.text volunteerId) ∧
      request.lookup "updatedAt" = some (.text clock.stamp) ∧
      ∀ key : String, key ≠ "status" → key ≠ "updatedBy" → key ≠ "updatedAt" →
        request.lookup key
          = ((store.disasterRequests.lookup requestId).getD []).lookup key) ∧
    (∀ other : String, other ≠ requestId →
      (postComplete clock store volunteerId assignmentId notes
        victimSafetyStatus).2.disasterRequests.lookup other
        = store.disasterRequests.lookup other) := by
  have hkept : ((update store.assignments assignmentId
      [("status", .text "completed"), ("completedAt", .text clock.stamp),
       ("completedBy", .text volunteerId), ("notes", .text (orText notes "")),
       ("victimFinalStatus", .text (orText victimSafetyStatus "safe"))]).lookup
        assignmentId).bind (fun a => a.lookup "requestId") = some (.text requestId) := by
    simp [update, lookup_upsert, hfound, spread, hlinked]
  have htruthy : truthy (some (Val.text requestId)) = true := by
    simp [truthy, hid]
  simp only [postComplete, hkept, htruthy, if_true, Option.getD_some, asKey]
  refine ⟨trivial, ⟨_, lookup_update_self store.assignments assignmentId _, ?_⟩,
    ⟨_, lookup_update_self store.disasterRequests requestId _, ?_, ?_, ?_, ?_⟩, ?_⟩
  · simp [spread, lookup_upsert]
  · simp [spread, upsert, lookup_upsert]
  · simp [spread, upsert, lookup_upsert]
  · simp [spread, upsert, lookup_upsert]
  · intro key h1 h2 h3
    simp [spread, upsert, lookup_upsert, h1, h2, h3]
  · intro other hother
    simp only [updateDisasterRequest, update, lookup_upsert, if_neg hother]

/-- C25 at a concrete input: volunteer `v1` completes the assignment `a1` of request `r1`,
which is in progress. -/
theorem postComplete_completes_request_witness :
    (postComplete AiRoutes.firstClock (AiRoutes.storeWithAssignment "in_progress") "v1" "a1"
        none none).1
      = .ok [("success", .flag true), ("message", .text "Assignment completed")] ∧
    (∃ completed : Record,
      (postComplete AiRoutes.firstClock (AiRoutes.storeWithAssignment "in_progress") "v1" "a1"
        none none).2.assignments.lookup "a1" = some completed ∧
      completed.lookup "status" = some (.text "completed")) ∧
    (∃ request : Record,
      (postComplete AiRoutes.firstClock (AiRoutes.storeWithAssignment "in_progress") "v1" "a1"
        none none).2.disasterRequests.lookup "r1" = some request ∧
      request.lookup "status" = some (.text "completed") ∧
      request.lookup "updatedBy" = some (.text "v1") ∧
      request.lookup "updatedAt" = some (.text AiRoutes.firstClock.stamp) ∧
      ∀ key : String, key ≠ "status" → key ≠ "updatedBy" → key ≠ "updatedAt" →
        request.lookup key
          = (((AiRoutes.storeWithAssignment "in_progress").disasterRequests.lookup
              "r1").getD []).lookup key) ∧
    (∀ other : String, other ≠ "r1" →
      (postComplete AiRoutes.firstClock (AiRoutes.storeWithAssignment "in_progress") "v1" "a1"
        none none).2.disasterRequests.lookup other
        = (AiRoutes.storeWithAssignment "in_progress").disasterRequests.lookup other) :=
  postComplete_completes_request AiRoutes.firstClock
    (AiRoutes.storeWithAssignment "in_progress") "v1" "a1" none none
    [("volunteerId", .text "v1"), ("requestId", .text "r1"), ("status", .text "in_progress")]
    "r1" (by decide) (by decide) (by decide)

end VolunteerRoutes
